import Mathlib

/-!
# Kvaser PCIe CAN FD driver: packet stream, echo ring and bus-state classifier

A shallow embedding of `kernel/drivers/net/can/kvaser_pciefd.c`.

Conventions of the embedding.

* `u32` values are natural numbers; the places where the C code truncates
  (`u8` casts, masks, the `u64` product of the timestamp scaling, `int` addition)
  carry the truncation explicitly.
* Memory-mapped registers are fields of the channel state.  A register the
  driver only writes is kept as the list of the words written to it, oldest
  first; a register the hardware owns (`STAT`, `TX_NR_PACKETS`) is a field
  holding the value a read returns.
* The Linux helpers the driver calls (`can_put_echo_skb`, `can_get_echo_skb`,
  `can_change_state`, `can_bus_off`, `alloc_can_skb`, `netif_rx`, ...) are not
  part of this source file; they are embedded next to their callers after
  their definition in the Linux CAN device layer, for a kernel of version 6.1
  or later (the branch the preprocessor selects there).
* Outcomes the environment decides (does an skb allocation succeed, does
  `netif_rx` accept the frame) are read from per-device oracles indexed by a
  counter of the attempts made so far.
-/

namespace Kvaser

/-! ## Constants -/

def BIT (n : Nat) : Nat := 1 <<< n

def EIO : Int := 5
def ENOMEM : Int := 12
def ENODEV : Int := 19
def ETIMEDOUT : Int := 110

def NET_RX_SUCCESS : Int := 0
def NET_RX_DROP : Int := 1

def KVASER_PCIEFD_MAX_ERR_REP : Int := 256
def KVASER_PCIEFD_CAN_TX_MAX_COUNT : Nat := 17
def KVASER_PCIEFD_MAX_CAN_CHANNELS : Nat := 4
def KVASER_PCIEFD_DMA_SIZE : Nat := 4 * 1024

def KVASER_PCIEFD_KCAN_CTRL_EFLUSH : Nat := 4 <<< 29
def KVASER_PCIEFD_KCAN_CMD_SEQ_SHIFT : Nat := 16
def KVASER_PCIEFD_KCAN_CMD_SRQ : Nat := BIT 0
def KVASER_PCIEFD_KCAN_CMD_AT : Nat := BIT 1

def KVASER_PCIEFD_KCAN_IRQ_TAR : Nat := BIT 0
def KVASER_PCIEFD_KCAN_IRQ_TAE : Nat := BIT 1
def KVASER_PCIEFD_KCAN_IRQ_BPP : Nat := BIT 2
def KVASER_PCIEFD_KCAN_IRQ_FDIC : Nat := BIT 3
def KVASER_PCIEFD_KCAN_IRQ_ABD : Nat := BIT 13
def KVASER_PCIEFD_KCAN_IRQ_TOF : Nat := BIT 15
def KVASER_PCIEFD_KCAN_IRQ_TAL : Nat := BIT 17

def KVASER_PCIEFD_KCAN_STAT_SEQNO_SHIFT : Nat := 24
def KVASER_PCIEFD_KCAN_STAT_AR : Nat := BIT 7
def KVASER_PCIEFD_KCAN_STAT_IDLE : Nat := BIT 10
def KVASER_PCIEFD_KCAN_STAT_BOFF : Nat := BIT 11
def KVASER_PCIEFD_KCAN_STAT_RMR : Nat := BIT 14
def KVASER_PCIEFD_KCAN_STAT_IRM : Nat := BIT 15
def KVASER_PCIEFD_KCAN_STAT_CAP : Nat := BIT 16
def KVASER_PCIEFD_KCAN_STAT_FD : Nat := BIT 19
def KVASER_PCIEFD_KCAN_STAT_BUS_OFF_MASK : Nat :=
  KVASER_PCIEFD_KCAN_STAT_AR ||| KVASER_PCIEFD_KCAN_STAT_BOFF |||
    KVASER_PCIEFD_KCAN_STAT_RMR ||| KVASER_PCIEFD_KCAN_STAT_IRM

def KVASER_PCIEFD_KCAN_MODE_RM : Nat := BIT 8
def KVASER_PCIEFD_KCAN_MODE_LOM : Nat := BIT 9
def KVASER_PCIEFD_KCAN_MODE_EPEN : Nat := BIT 12
def KVASER_PCIEFD_KCAN_MODE_NIFDEN : Nat := BIT 15
def KVASER_PCIEFD_KCAN_MODE_APT : Nat := BIT 20
def KVASER_PCIEFD_KCAN_MODE_EEN : Nat := BIT 23
def KVASER_PCIEFD_KCAN_MODE_CCM : Nat := BIT 31

def KVASER_PCIEFD_PACK_TYPE_DATA : Nat := 0
def KVASER_PCIEFD_PACK_TYPE_ACK : Nat := 1
def KVASER_PCIEFD_PACK_TYPE_TXRQ : Nat := 2
def KVASER_PCIEFD_PACK_TYPE_ERROR : Nat := 3
def KVASER_PCIEFD_PACK_TYPE_EFLUSH_ACK : Nat := 4
def KVASER_PCIEFD_PACK_TYPE_EFRAME_ACK : Nat := 5
def KVASER_PCIEFD_PACK_TYPE_ACK_DATA : Nat := 6
def KVASER_PCIEFD_PACK_TYPE_STATUS : Nat := 8
def KVASER_PCIEFD_PACK_TYPE_BUS_LOAD : Nat := 9

def KVASER_PCIEFD_PACKET_SEQ_MASK : Nat := 0xff
def KVASER_PCIEFD_PACKET_CHID_SHIFT : Nat := 25
def KVASER_PCIEFD_PACKET_TYPE_SHIFT : Nat := 28

def KVASER_PCIEFD_RPACKET_IDE : Nat := BIT 30
def KVASER_PCIEFD_RPACKET_RTR : Nat := BIT 29
def KVASER_PCIEFD_RPACKET_ESI : Nat := BIT 13
def KVASER_PCIEFD_RPACKET_BRS : Nat := BIT 14
def KVASER_PCIEFD_RPACKET_FDF : Nat := BIT 15
def KVASER_PCIEFD_RPACKET_DLC_SHIFT : Nat := 8
def KVASER_PCIEFD_TPACKET_SMS : Nat := BIT 16
def KVASER_PCIEFD_TPACKET_AREQ : Nat := BIT 31

def KVASER_PCIEFD_APACKET_FLU : Nat := BIT 8
def KVASER_PCIEFD_APACKET_CT : Nat := BIT 9
def KVASER_PCIEFD_APACKET_ABL : Nat := BIT 10
def KVASER_PCIEFD_APACKET_NACK : Nat := BIT 11

def KVASER_PCIEFD_SPACK_RXERR_SHIFT : Nat := 8
def KVASER_PCIEFD_SPACK_BOFF : Nat := BIT 16
def KVASER_PCIEFD_SPACK_IDET : Nat := BIT 20
def KVASER_PCIEFD_SPACK_IRM : Nat := BIT 21
def KVASER_PCIEFD_SPACK_RMCD : Nat := BIT 22
def KVASER_PCIEFD_SPACK_AUTO : Nat := BIT 21
def KVASER_PCIEFD_SPACK_EWLR : Nat := BIT 23
def KVASER_PCIEFD_SPACK_EPLR : Nat := BIT 24

def KVASER_PCIEFD_EPACK_DIR_TX : Nat := BIT 0

/-! Constants of `linux/can.h`, `linux/can/error.h` and `linux/can/netlink.h`. -/

def CAN_EFF_FLAG : Nat := 0x80000000
def CAN_RTR_FLAG : Nat := 0x40000000
def CAN_ERR_FLAG : Nat := 0x20000000
def CAN_EFF_MASK : Nat := 0x1FFFFFFF
def CAN_ERR_DLC : Nat := 8
def CAN_MAX_DLEN : Nat := 8
def CANFD_MAX_DLEN : Nat := 64
def CANFD_BRS : Nat := 0x01
def CANFD_ESI : Nat := 0x02
def CANFD_FDF : Nat := 0x04

def CAN_ERR_LOSTARB : Nat := 0x00000002
def CAN_ERR_CRTL : Nat := 0x00000004
def CAN_ERR_ACK : Nat := 0x00000020
def CAN_ERR_BUSOFF : Nat := 0x00000040
def CAN_ERR_BUSERROR : Nat := 0x00000080
def CAN_ERR_RESTARTED : Nat := 0x00000100
def CAN_ERR_CNT : Nat := 0x00000200
def CAN_ERR_CRTL_RX_WARNING : Nat := 0x04
def CAN_ERR_CRTL_TX_WARNING : Nat := 0x08
def CAN_ERR_CRTL_RX_PASSIVE : Nat := 0x10
def CAN_ERR_CRTL_TX_PASSIVE : Nat := 0x20
def CAN_ERR_CRTL_ACTIVE : Nat := 0x40

def CAN_CTRLMODE_LISTENONLY : Nat := 0x02
def CAN_CTRLMODE_ONE_SHOT : Nat := 0x08
def CAN_CTRLMODE_FD : Nat := 0x20
def CAN_CTRLMODE_FD_NON_ISO : Nat := 0x80

/-! ## Data model -/

/-- The `enum can_state` of `linux/can/netlink.h`, in the order of its values
0 (ERROR_ACTIVE) to 5 (SLEEPING). -/
inductive can_state where
  | ERROR_ACTIVE
  | ERROR_WARNING
  | ERROR_PASSIVE
  | BUS_OFF
  | STOPPED
  | SLEEPING
  deriving DecidableEq, Repr

/-- The integer value of a `can_state`. -/
def can_state.toNat : can_state → Nat
  | .ERROR_ACTIVE => 0
  | .ERROR_WARNING => 1
  | .ERROR_PASSIVE => 2
  | .BUS_OFF => 3
  | .STOPPED => 4
  | .SLEEPING => 5

/-- The `struct can_berr_counter`: the transmit and receive error counters. -/
structure can_berr_counter where
  txerr : Nat
  rxerr : Nat
  deriving DecidableEq, Repr

/-- The `struct kvaser_pciefd_rx_packet`: two header words and the 64-bit
hardware timestamp. -/
structure kvaser_pciefd_rx_packet where
  header0 : Nat
  header1 : Nat
  timestamp : Nat
  deriving DecidableEq, Repr

/-- The macro `KVASER_PCIEFD_PACKET_CHID`. -/
def KVASER_PCIEFD_PACKET_CHID (p : kvaser_pciefd_rx_packet) : Nat :=
  (p.header1 >>> KVASER_PCIEFD_PACKET_CHID_SHIFT) &&& 0x7

/-- The macro `KVASER_PCIEFD_PACKET_TYPE`. -/
def KVASER_PCIEFD_PACKET_TYPE (p : kvaser_pciefd_rx_packet) : Nat :=
  (p.header1 >>> KVASER_PCIEFD_PACKET_TYPE_SHIFT) &&& 0xf

/-- The macro `KVASER_PCIEFD_SPACKET_TXERR_COUNT`. -/
def KVASER_PCIEFD_SPACKET_TXERR_COUNT (p : kvaser_pciefd_rx_packet) : Nat :=
  p.header0 &&& 0xff

/-- The macro `KVASER_PCIEFD_SPACKET_RXERR_COUNT`. -/
def KVASER_PCIEFD_SPACKET_RXERR_COUNT (p : kvaser_pciefd_rx_packet) : Nat :=
  (p.header0 >>> KVASER_PCIEFD_SPACK_RXERR_SHIFT) &&& 0xff

/-! ## Error/status classifier -/

/-- The function `kvaser_pciefd_packet_to_state`: the three out-parameters
`new_state`, `tx_state`, `rx_state` are returned as a triple.  The literal `0`
of the C code is `CAN_STATE_ERROR_ACTIVE`. -/
def kvaser_pciefd_packet_to_state (p : kvaser_pciefd_rx_packet) (bec : can_berr_counter) :
    can_state × can_state × can_state :=
  let new_state :=
    if p.header0 &&& KVASER_PCIEFD_SPACK_BOFF ≠ 0 ∨ p.header0 &&& KVASER_PCIEFD_SPACK_IRM ≠ 0 then
      can_state.BUS_OFF
    else if bec.txerr ≥ 255 ∨ bec.rxerr ≥ 255 then
      can_state.BUS_OFF
    else if p.header1 &&& KVASER_PCIEFD_SPACK_EPLR ≠ 0 then
      can_state.ERROR_PASSIVE
    else if bec.txerr ≥ 128 ∨ bec.rxerr ≥ 128 then
      can_state.ERROR_PASSIVE
    else if p.header1 &&& KVASER_PCIEFD_SPACK_EWLR ≠ 0 then
      can_state.ERROR_WARNING
    else if bec.txerr ≥ 96 ∨ bec.rxerr ≥ 96 then
      can_state.ERROR_WARNING
    else
      can_state.ERROR_ACTIVE
  let tx_state := if bec.txerr ≥ bec.rxerr then new_state else can_state.ERROR_ACTIVE
  let rx_state := if bec.txerr ≤ bec.rxerr then new_state else can_state.ERROR_ACTIVE
  (new_state, tx_state, rx_state)

/-! ## Frames, socket buffers and the per-channel state -/

/-- The `struct canfd_frame`; a classic `struct can_frame` has `can_id`, `len`
and `data` at the same places and is kept in the same record.  `data` is the
payload array as a list of bytes. -/
structure canfd_frame where
  can_id : Nat
  len : Nat
  flags : Nat
  data : List Nat
  deriving DecidableEq, Repr

/-- The part of a `struct sk_buff` the driver touches: whether it holds a CAN FD
frame (`can_is_canfd_skb`), the frame, and the hardware timestamp, a `ktime_t`
(signed 64-bit count of ns). -/
structure sk_buff where
  is_canfd : Bool
  cf : canfd_frame
  hwtstamp : Int
  deriving DecidableEq, Repr

/-- The counters of `struct net_device_stats` the driver updates. -/
structure net_device_stats where
  rx_packets : Nat
  tx_packets : Nat
  rx_bytes : Nat
  tx_bytes : Nat
  rx_errors : Nat
  tx_errors : Nat
  rx_dropped : Nat
  tx_dropped : Nat
  deriving DecidableEq, Repr

/-- The `struct can_device_stats`. -/
structure can_device_stats where
  bus_error : Nat
  error_warning : Nat
  error_passive : Nat
  bus_off : Nat
  arbitration_lost : Nat
  restarts : Nat
  deriving DecidableEq, Repr

/-- One channel: the `struct kvaser_pciefd_can` with the fields of its embedded
`struct can_priv` and of its net device, the channel registers, and the
environment oracles of the device.

* `echo_skb` is the echo slot array addressed by slot index.
* `start_comp`, `flush_comp` are the `done` counters of the two completions.
* `bec_poll_timer` tells whether the poll timer is pending.
* `reg_cmd`, `reg_ctrl`, `reg_irq`, `reg_fifo`, `reg_fifo_last` list the words
  written to the CMD, CTRL, IRQ, FIFO and FIFO_LAST registers, oldest first;
  `reg_ien` and `reg_mode` hold the last value written; `reg_stat` and
  `reg_tx_nr_packets` hold the value the hardware reports on a read.
* `alloc_ok n` tells whether the `n`-th skb allocation on this device succeeds,
  `rx_ok n` whether the `n`-th `netif_rx` accepts the frame; `rx_queue` lists
  the frames `netif_rx` accepted.
* The statistics counters and `err_rep_cnt` are kept unbounded; `cmd_seq` is
  the `u8` of the source and wraps where it is incremented. -/
structure kvaser_pciefd_can where
  state : can_state
  restart_ms : Nat
  ctrlmode : Nat
  echo_skb_max : Nat
  echo_skb : Nat → Option sk_buff
  can_stats : can_device_stats
  stats : net_device_stats
  queue_stopped : Bool
  carrier_ok : Bool
  bec : can_berr_counter
  cmd_seq : Nat
  err_rep_cnt : Int
  echo_idx : Nat
  start_comp : Nat
  flush_comp : Nat
  bec_poll_timer : Bool
  reg_cmd : List Nat
  reg_ctrl : List Nat
  reg_irq : List Nat
  reg_fifo : List Nat
  reg_fifo_last : List Nat
  reg_ien : Nat
  reg_mode : Nat
  reg_stat : Nat
  reg_tx_nr_packets : Nat
  alloc_ok : Nat → Bool
  alloc_cnt : Nat
  rx_ok : Nat → Bool
  rx_cnt : Nat
  rx_queue : List sk_buff

/-- The macro `KVASER_PCIEFD_KCAN_TX_NR_PACKETS_MAX_GET`. -/
def KVASER_PCIEFD_KCAN_TX_NR_PACKETS_MAX_GET (can : kvaser_pciefd_can) : Nat :=
  (can.reg_tx_nr_packets >>> 16) &&& 0xff

/-- The macro `KVASER_PCIEFD_KCAN_TX_NR_PACKETS_CURRENT_GET`. -/
def KVASER_PCIEFD_KCAN_TX_NR_PACKETS_CURRENT_GET (can : kvaser_pciefd_can) : Nat :=
  can.reg_tx_nr_packets &&& 0xff

/-- The `struct kvaser_pciefd`: the channel table, the number of channels, the
timestamp divisor and the DMA memory.  `dma_data b i` is the value of the 32-bit
word at word index `i` from the start of DMA buffer `b`; the buffer proper is
the indices below `KVASER_PCIEFD_DMA_SIZE / 4`, larger indices are the memory
that follows it.  `dma_reads` records, oldest first, the word indices the
consumer has read. -/
structure kvaser_pciefd where
  can : Nat → kvaser_pciefd_can
  nr_channels : Nat
  freq_to_ticks_div : Nat
  dma_data : Nat → Nat → Nat
  dma_reads : List Nat

/-- The `struct kvaser_pciefd_tx_packet`. -/
structure kvaser_pciefd_tx_packet where
  header0 : Nat
  header1 : Nat
  data : List Nat
  deriving DecidableEq, Repr

/-- Result of `ndo_start_xmit`. -/
inductive netdev_tx_t where
  | NETDEV_TX_OK
  | NETDEV_TX_BUSY
  deriving DecidableEq, Repr

/-! ## Linux helpers -/

/-- The macro `DIV_ROUND_UP`. -/
def DIV_ROUND_UP (n d : Nat) : Nat := (n + d - 1) / d

/-- The table `dlc2len` of the CAN device layer. -/
def dlc2len : List Nat := [0, 1, 2, 3, 4, 5, 6, 7, 8, 12, 16, 20, 24, 32, 48, 64]

/-- The helper `can_fd_dlc2len(u8 dlc)`: the argument is truncated to 8 bits by
the call and masked with `0x0F` by the helper. -/
def can_fd_dlc2len (dlc : Nat) : Nat := dlc2len.getD ((dlc % 256) &&& 0x0F) 0

/-- The helper `can_fd_len2dlc(u8 len)` (table `len2dlc`, 15 above 64). -/
def can_fd_len2dlc (len : Nat) : Nat :=
  let len := len % 256
  if len ≤ 8 then len
  else if len ≤ 12 then 9
  else if len ≤ 16 then 10
  else if len ≤ 20 then 11
  else if len ≤ 24 then 12
  else if len ≤ 32 then 13
  else if len ≤ 48 then 14
  else 15

/-- The C `memcpy(dst, src, n)` on byte lists: the first `n` bytes of `dst` are
replaced by the first `n` bytes of `src`. -/
def memcpy (dst src : List Nat) (n : Nat) : List Nat := src.take n ++ dst.drop n

/-- An skb allocation on the device of `can`: consumes one answer of the
oracle `alloc_ok`; the frame of a fresh skb is `cf`. -/
def alloc_skb (can : kvaser_pciefd_can) (is_canfd : Bool) (cf : canfd_frame) :
    Option sk_buff × kvaser_pciefd_can :=
  let ok := can.alloc_ok can.alloc_cnt
  let can := { can with alloc_cnt := can.alloc_cnt + 1 }
  if ok then (some { is_canfd := is_canfd, cf := cf, hwtstamp := 0 }, can) else (none, can)

/-- The helper `alloc_can_skb`: a zeroed classic frame. -/
def alloc_can_skb (can : kvaser_pciefd_can) : Option sk_buff × kvaser_pciefd_can :=
  alloc_skb can false { can_id := 0, len := 0, flags := 0, data := List.replicate CAN_MAX_DLEN 0 }

/-- The helper `alloc_canfd_skb`: a zeroed CAN FD frame whose `flags` are set
to `CANFD_FDF`. -/
def alloc_canfd_skb (can : kvaser_pciefd_can) : Option sk_buff × kvaser_pciefd_can :=
  alloc_skb can true
    { can_id := 0, len := 0, flags := CANFD_FDF, data := List.replicate CANFD_MAX_DLEN 0 }

/-- The helper `alloc_can_err_skb`: a zeroed classic frame with
`can_id = CAN_ERR_FLAG` and `len = CAN_ERR_DLC`. -/
def alloc_can_err_skb (can : kvaser_pciefd_can) : Option sk_buff × kvaser_pciefd_can :=
  alloc_skb can false
    { can_id := CAN_ERR_FLAG, len := CAN_ERR_DLC, flags := 0, data := List.replicate CAN_MAX_DLEN 0 }

/-- The helper `netif_rx`: consumes one answer of the oracle `rx_ok`; an
accepted frame is appended to `rx_queue` and the result is `NET_RX_SUCCESS`,
a refused one is freed and the result is `NET_RX_DROP`. -/
def netif_rx (can : kvaser_pciefd_can) (skb : sk_buff) : Int × kvaser_pciefd_can :=
  let ok := can.rx_ok can.rx_cnt
  let can := { can with rx_cnt := can.rx_cnt + 1 }
  if ok then (NET_RX_SUCCESS, { can with rx_queue := can.rx_queue ++ [skb] })
  else (NET_RX_DROP, can)

/-- The helper `can_put_echo_skb(skb, dev, idx, 0)` for a device with `IFF_ECHO`
and an unshared CAN skb: an index outside the ring or an occupied slot leaves
the ring as it is (the skb is freed), a free slot receives the skb. -/
def can_put_echo_skb (can : kvaser_pciefd_can) (skb : sk_buff) (idx : Nat) : kvaser_pciefd_can :=
  if idx ≥ can.echo_skb_max then can
  else
    match can.echo_skb idx with
    | none => { can with echo_skb := Function.update can.echo_skb idx (some skb) }
    | some _ => can

/-- The helper `can_skb_get_data_len`: the payload length of a frame, 0 for a
classic remote frame. -/
def can_skb_get_data_len (skb : sk_buff) : Nat :=
  if ¬ skb.is_canfd ∧ skb.cf.can_id &&& CAN_RTR_FLAG ≠ 0 then 0 else skb.cf.len

/-- The helper `can_get_echo_skb(dev, idx, NULL)` for looped-back skbs: for an
index inside the ring whose slot holds an skb, the slot is emptied, the skb is
handed to `netif_rx` and its payload length is returned; otherwise the result
is 0 and nothing changes. -/
def can_get_echo_skb (can : kvaser_pciefd_can) (idx : Nat) : Nat × kvaser_pciefd_can :=
  if idx ≥ can.echo_skb_max then (0, can)
  else
    match can.echo_skb idx with
    | none => (0, can)
    | some skb =>
      let can := { can with echo_skb := Function.update can.echo_skb idx none }
      (can_skb_get_data_len skb, (netif_rx can skb).2)

/-- The helper `can_dropped_invalid_skb`: an skb whose frame is longer than its
kind allows is freed and counted in `tx_dropped`. -/
def can_dropped_invalid_skb (can : kvaser_pciefd_can) (skb : sk_buff) : Bool × kvaser_pciefd_can :=
  if skb.cf.len > (if skb.is_canfd then CANFD_MAX_DLEN else CAN_MAX_DLEN) then
    (true, { can with stats := { can.stats with tx_dropped := can.stats.tx_dropped + 1 } })
  else (false, can)

/-- The function `can_dev_dropped_skb` (defined in the source for kernels
before 6.1, with the same body as the kernel's own). -/
def can_dev_dropped_skb (can : kvaser_pciefd_can) (skb : sk_buff) : Bool × kvaser_pciefd_can :=
  if can.ctrlmode &&& CAN_CTRLMODE_LISTENONLY ≠ 0 then
    (true, { can with stats := { can.stats with tx_dropped := can.stats.tx_dropped + 1 } })
  else can_dropped_invalid_skb can skb

/-- The helper `can_update_state_error_stats`. -/
def can_update_state_error_stats (can : kvaser_pciefd_can) (new_state : can_state) :
    kvaser_pciefd_can :=
  if new_state.toNat ≤ can.state.toNat then can
  else
    match new_state with
    | .ERROR_WARNING =>
      { can with can_stats := { can.can_stats with error_warning := can.can_stats.error_warning + 1 } }
    | .ERROR_PASSIVE =>
      { can with can_stats := { can.can_stats with error_passive := can.can_stats.error_passive + 1 } }
    | .BUS_OFF =>
      { can with can_stats := { can.can_stats with bus_off := can.can_stats.bus_off + 1 } }
    | _ => can

/-- The helper `can_tx_state_to_frame`. -/
def can_tx_state_to_frame (state : can_state) : Nat :=
  match state with
  | .ERROR_ACTIVE => CAN_ERR_CRTL_ACTIVE
  | .ERROR_WARNING => CAN_ERR_CRTL_TX_WARNING
  | .ERROR_PASSIVE => CAN_ERR_CRTL_TX_PASSIVE
  | _ => 0

/-- The helper `can_rx_state_to_frame`. -/
def can_rx_state_to_frame (state : can_state) : Nat :=
  match state with
  | .ERROR_ACTIVE => CAN_ERR_CRTL_ACTIVE
  | .ERROR_WARNING => CAN_ERR_CRTL_RX_WARNING
  | .ERROR_PASSIVE => CAN_ERR_CRTL_RX_PASSIVE
  | _ => 0

/-- The maximum of two states by value, as `max(tx_state, rx_state)`. -/
def can_state.max (a b : can_state) : can_state := if a.toNat ≥ b.toNat then a else b

/-- The helper `can_change_state(dev, cf, tx_state, rx_state)`; `cf` is the
frame of the error skb, absent when the pointer is NULL.  An unchanged state
only logs a warning. -/
def can_change_state (can : kvaser_pciefd_can) (cf : Option canfd_frame)
    (tx_state rx_state : can_state) : Option canfd_frame × kvaser_pciefd_can :=
  let new_state := can_state.max tx_state rx_state
  if new_state = can.state then (cf, can)
  else
    let can := can_update_state_error_stats can new_state
    let can := { can with state := new_state }
    match cf with
    | none => (none, can)
    | some cf =>
      if new_state = can_state.BUS_OFF then
        (some { cf with can_id := cf.can_id ||| CAN_ERR_BUSOFF }, can)
      else
        let cf := { cf with can_id := cf.can_id ||| CAN_ERR_CRTL }
        let d1 := cf.data.getD 1 0
        let d1 := d1 ||| (if tx_state.toNat ≥ rx_state.toNat then can_tx_state_to_frame tx_state else 0)
        let d1 := d1 ||| (if tx_state.toNat ≤ rx_state.toNat then can_rx_state_to_frame rx_state else 0)
        (some { cf with data := cf.data.set 1 d1 }, can)

/-- The helper `can_bus_off`: the carrier is switched off (a restart is
scheduled by the device layer when `restart_ms` is set). -/
def can_bus_off (can : kvaser_pciefd_can) : kvaser_pciefd_can :=
  { can with carrier_ok := false }

/-- The helper `netif_stop_queue`. -/
def netif_stop_queue (can : kvaser_pciefd_can) : kvaser_pciefd_can :=
  { can with queue_stopped := true }

/-- The helper `netif_wake_queue`. -/
def netif_wake_queue (can : kvaser_pciefd_can) : kvaser_pciefd_can :=
  { can with queue_stopped := false }

/-- The helper `mod_timer` on the error-counter poll timer. -/
def mod_timer (can : kvaser_pciefd_can) : kvaser_pciefd_can :=
  { can with bec_poll_timer := true }

/-- The helper `complete` on a completion counter (`done` saturates at
`UINT_MAX`). -/
def complete (done : Nat) : Nat := if done = 2 ^ 32 - 1 then done else done + 1

/-- The helper `completion_done`. -/
def completion_done (done : Nat) : Bool := done ≠ 0

/-! ## Commands and mode register -/

/-- Clearing the bits of `mask` in a 32-bit register value (`x &= ~mask`). -/
def clear_bits (x mask : Nat) : Nat := x &&& ((2 ^ 32 - 1) ^^^ mask)

/-- The function `kvaser_pciefd_send_kcan_cmd`: `cmd_seq` is a `u8`, so the
pre-increment wraps at 256; the word written to the CMD register is
`cmd | (cmd_seq << 16)` with the incremented value. -/
def kvaser_pciefd_send_kcan_cmd (can : kvaser_pciefd_can) (cmd : Nat) : kvaser_pciefd_can :=
  let cmd_seq := (can.cmd_seq + 1) % 256
  { can with
    cmd_seq := cmd_seq
    reg_cmd := can.reg_cmd ++ [cmd ||| (cmd_seq <<< KVASER_PCIEFD_KCAN_CMD_SEQ_SHIFT)] }

/-- The function `kvaser_pciefd_kcan_abort_flush_reset`. -/
def kvaser_pciefd_kcan_abort_flush_reset (can : kvaser_pciefd_can) : kvaser_pciefd_can :=
  kvaser_pciefd_send_kcan_cmd can KVASER_PCIEFD_KCAN_CMD_AT

/-- The function `kvaser_pciefd_request_status`. -/
def kvaser_pciefd_request_status (can : kvaser_pciefd_can) : kvaser_pciefd_can :=
  kvaser_pciefd_send_kcan_cmd can KVASER_PCIEFD_KCAN_CMD_SRQ

/-- The function `kvaser_pciefd_enable_err_gen`. -/
def kvaser_pciefd_enable_err_gen (can : kvaser_pciefd_can) : kvaser_pciefd_can :=
  let mode := can.reg_mode
  if mode &&& KVASER_PCIEFD_KCAN_MODE_EPEN = 0 then
    { can with reg_mode := mode ||| KVASER_PCIEFD_KCAN_MODE_EPEN }
  else can

/-- The function `kvaser_pciefd_disable_err_gen`. -/
def kvaser_pciefd_disable_err_gen (can : kvaser_pciefd_can) : kvaser_pciefd_can :=
  { can with reg_mode := clear_bits can.reg_mode KVASER_PCIEFD_KCAN_MODE_EPEN }

/-- The helper `div_u64(u64 dividend, u32 divisor)`: the unsigned quotient.  A
divisor 0, which the C code must not reach, gives 0 here. -/
def div_u64 (dividend divisor : Nat) : Nat := (dividend % 2 ^ 64) / (divisor % 2 ^ 32)

/-- The helper `ns_to_ktime(u64 ns)`: the 64 bits of `ns` read as the signed
`ktime_t` (two's complement). -/
def ns_to_ktime (ns : Nat) : Int :=
  if ns % 2 ^ 64 < 2 ^ 63 then ((ns % 2 ^ 64 : Nat) : Int)
  else ((ns % 2 ^ 64 : Nat) : Int) - 2 ^ 64

/-- The function `kvaser_pciefd_set_skb_timestamp`: the product
`timestamp * 1000` is a `u64` and wraps at `2^64`; `div_u64` divides by the
32-bit `freq_to_ticks_div` (which `kvaser_pciefd_setup_board` makes non-zero),
and the quotient is stored as a `ktime_t`. -/
def kvaser_pciefd_set_skb_timestamp (pcie : kvaser_pciefd) (skb : sk_buff) (timestamp : Nat) :
    sk_buff :=
  { skb with
    hwtstamp := ns_to_ktime (div_u64 ((timestamp * 1000) % 2 ^ 64) pcie.freq_to_ticks_div) }

/-- The function `kvaser_pciefd_start_controller_flush`. -/
def kvaser_pciefd_start_controller_flush (can : kvaser_pciefd_can) : kvaser_pciefd_can :=
  let can := { can with reg_irq := can.reg_irq ++ [2 ^ 32 - 1] }
  let can := { can with reg_ien := KVASER_PCIEFD_KCAN_IRQ_ABD }
  let status := can.reg_stat
  if status &&& KVASER_PCIEFD_KCAN_STAT_IDLE ≠ 0 then
    kvaser_pciefd_kcan_abort_flush_reset can
  else if status &&& KVASER_PCIEFD_KCAN_STAT_RMR = 0 then
    { can with reg_mode := can.reg_mode ||| KVASER_PCIEFD_KCAN_MODE_RM }
  else can

/-- The function `kvaser_pciefd_bec_poll_timer` (the timer has expired when it
runs). -/
def kvaser_pciefd_bec_poll_timer (can : kvaser_pciefd_can) : kvaser_pciefd_can :=
  let can := { can with bec_poll_timer := false }
  let can := kvaser_pciefd_enable_err_gen can
  let can := kvaser_pciefd_request_status can
  { can with err_rep_cnt := 0 }

/-! ## Transmit path -/

/-- The 32-bit word `((u32 *)data)[i]` of a byte array on a little-endian
host. -/
def data_word (data : List Nat) (i : Nat) : Nat :=
  (data.getD (4 * i) 0 % 256) ||| ((data.getD (4 * i + 1) 0 % 256) <<< 8) |||
    ((data.getD (4 * i + 2) 0 % 256) <<< 16) ||| ((data.getD (4 * i + 3) 0 % 256) <<< 24)

/-- The function `kvaser_pciefd_prepare_tx_packet`: returns the number of
payload words and the packet. -/
def kvaser_pciefd_prepare_tx_packet (can : kvaser_pciefd_can) (skb : sk_buff) :
    Nat × kvaser_pciefd_tx_packet :=
  let cf := skb.cf
  let seq := can.echo_idx
  let header0 := 0
  let header1 := 0
  let header1 :=
    if can.ctrlmode &&& CAN_CTRLMODE_ONE_SHOT ≠ 0 then header1 ||| KVASER_PCIEFD_TPACKET_SMS
    else header1
  let header0 :=
    if cf.can_id &&& CAN_RTR_FLAG ≠ 0 then header0 ||| KVASER_PCIEFD_RPACKET_RTR else header0
  let header0 :=
    if cf.can_id &&& CAN_EFF_FLAG ≠ 0 then header0 ||| KVASER_PCIEFD_RPACKET_IDE else header0
  let header0 := header0 ||| (cf.can_id &&& CAN_EFF_MASK)
  let header1 := header1 ||| (can_fd_len2dlc cf.len <<< KVASER_PCIEFD_RPACKET_DLC_SHIFT)
  let header1 := header1 ||| KVASER_PCIEFD_TPACKET_AREQ
  let header1 :=
    if skb.is_canfd then
      let header1 := header1 ||| KVASER_PCIEFD_RPACKET_FDF
      let header1 :=
        if cf.flags &&& CANFD_BRS ≠ 0 then header1 ||| KVASER_PCIEFD_RPACKET_BRS else header1
      if cf.flags &&& CANFD_ESI ≠ 0 then header1 ||| KVASER_PCIEFD_RPACKET_ESI else header1
    else header1
  let header1 := header1 ||| (seq &&& KVASER_PCIEFD_PACKET_SEQ_MASK)
  let packet_size := cf.len
  let data := memcpy (List.replicate 64 0) cf.data packet_size
  (DIV_ROUND_UP packet_size 4, { header0 := header0, header1 := header1, data := data })

/-- The function `kvaser_pciefd_start_xmit`.  The result is `none` when the C
code divides by zero (`echo_skb_max = 0`); otherwise it is the return value
and the new channel state. -/
def kvaser_pciefd_start_xmit (can : kvaser_pciefd_can) (skb : sk_buff) :
    Option (netdev_tx_t × kvaser_pciefd_can) :=
  let d := can_dev_dropped_skb can skb
  if d.1 = true then some (netdev_tx_t.NETDEV_TX_OK, d.2)
  else
    let can : kvaser_pciefd_can := d.2
    let t := kvaser_pciefd_prepare_tx_packet can skb
    let nwords := t.1
    let packet := t.2
    let can : kvaser_pciefd_can := can_put_echo_skb can skb can.echo_idx
    if can.echo_skb_max = 0 then none
    else
      let can : kvaser_pciefd_can := { can with echo_idx := (can.echo_idx + 1) % can.echo_skb_max }
      let can : kvaser_pciefd_can :=
        { can with reg_fifo := can.reg_fifo ++ [packet.header0, packet.header1] }
      let can : kvaser_pciefd_can :=
        if nwords ≠ 0 then
          let data_last := data_word packet.data (nwords - 1)
          { can with
            reg_fifo := can.reg_fifo ++ (List.range (nwords - 1)).map (data_word packet.data)
            reg_fifo_last := can.reg_fifo_last ++ [data_last] }
        else { can with reg_fifo_last := can.reg_fifo_last ++ [0] }
      let count : Nat := KVASER_PCIEFD_KCAN_TX_NR_PACKETS_CURRENT_GET can
      let can : kvaser_pciefd_can :=
        if count ≥ can.echo_skb_max ∨ (can.echo_skb can.echo_idx).isSome then netif_stop_queue can
        else can
      some (netdev_tx_t.NETDEV_TX_OK, can)

/-! ## Receive path: packet handlers -/

/-- The conversion `le32_to_cpu`: the value of a 32-bit little-endian word. -/
def le32_to_cpu (w : Nat) : Nat := w % 2 ^ 32

/-- The conversion of a `u32` to `int` (two's complement). -/
def int_of_u32 (w : Nat) : Int :=
  if w % 2 ^ 32 < 2 ^ 31 then ((w % 2 ^ 32 : Nat) : Int) else ((w % 2 ^ 32 : Nat) : Int) - 2 ^ 32

/-- The addition of two `int`s, wrapping at 32 bits (the kernel is built with
`-fno-strict-overflow`). -/
def int_add (a b : Int) : Int := (a + b + 2 ^ 31) % 2 ^ 32 - 2 ^ 31

/-- The `len` bytes that start at word `pos` of a DMA buffer. -/
def dma_bytes (buffer : Nat → Nat) (pos len : Nat) : List Nat :=
  (List.range len).map fun j => (le32_to_cpu (buffer (pos + j / 4)) >>> (8 * (j % 4))) &&& 0xff

/-- The word indices touched by reading `len` bytes from word `pos` on. -/
def dma_words (pos len : Nat) : List Nat :=
  (List.range (DIV_ROUND_UP len 4)).map fun j => pos + j

/-- Replaces the frame of an skb, when there is an skb and a frame. -/
def with_cf (skb : Option sk_buff) (cf : Option canfd_frame) : Option sk_buff :=
  match skb, cf with
  | some skb, some cf => some { skb with cf := cf }
  | skb, _ => skb

/-- The function `kvaser_pciefd_handle_data_packet`; `data` is the address of
word `pos` of DMA buffer `dma_buf`. -/
def kvaser_pciefd_handle_data_packet (pcie : kvaser_pciefd) (p : kvaser_pciefd_rx_packet)
    (dma_buf pos : Nat) : Int × kvaser_pciefd :=
  let ch_id := KVASER_PCIEFD_PACKET_CHID p
  if ch_id ≥ pcie.nr_channels then (- EIO, pcie)
  else
    let can := pcie.can ch_id
    match (if p.header1 &&& KVASER_PCIEFD_RPACKET_FDF ≠ 0 then alloc_canfd_skb can
           else alloc_can_skb can) with
    | (none, can) =>
      let can : kvaser_pciefd_can :=
        { can with stats := { can.stats with rx_dropped := can.stats.rx_dropped + 1 } }
      (- ENOMEM, { pcie with can := Function.update pcie.can ch_id can })
    | (some skb, can) =>
      let cf := skb.cf
      let cf : canfd_frame :=
        if p.header1 &&& KVASER_PCIEFD_RPACKET_FDF ≠ 0 ∧ p.header1 &&& KVASER_PCIEFD_RPACKET_BRS ≠ 0
        then { cf with flags := cf.flags ||| CANFD_BRS } else cf
      let cf : canfd_frame :=
        if p.header1 &&& KVASER_PCIEFD_RPACKET_FDF ≠ 0 ∧ p.header1 &&& KVASER_PCIEFD_RPACKET_ESI ≠ 0
        then { cf with flags := cf.flags ||| CANFD_ESI } else cf
      let cf : canfd_frame := { cf with can_id := p.header0 &&& CAN_EFF_MASK }
      let cf : canfd_frame :=
        if p.header0 &&& KVASER_PCIEFD_RPACKET_IDE ≠ 0 then
          { cf with can_id := cf.can_id ||| CAN_EFF_FLAG }
        else cf
      let cf : canfd_frame :=
        { cf with len := can_fd_dlc2len (p.header1 >>> KVASER_PCIEFD_RPACKET_DLC_SHIFT) }
      if p.header0 &&& KVASER_PCIEFD_RPACKET_RTR ≠ 0 then
        let cf : canfd_frame := { cf with can_id := cf.can_id ||| CAN_RTR_FLAG }
        let can : kvaser_pciefd_can :=
          { can with stats := { can.stats with rx_packets := can.stats.rx_packets + 1 } }
        let skb := kvaser_pciefd_set_skb_timestamp pcie { skb with cf := cf } p.timestamp
        let r := netif_rx can skb
        (r.1, { pcie with can := Function.update pcie.can ch_id r.2 })
      else
        let cf : canfd_frame :=
          { cf with data := memcpy cf.data (dma_bytes (pcie.dma_data dma_buf) pos cf.len) cf.len }
        let can : kvaser_pciefd_can :=
          { can with stats := { can.stats with rx_bytes := can.stats.rx_bytes + cf.len } }
        let can : kvaser_pciefd_can :=
          { can with stats := { can.stats with rx_packets := can.stats.rx_packets + 1 } }
        let skb := kvaser_pciefd_set_skb_timestamp pcie { skb with cf := cf } p.timestamp
        let r := netif_rx can skb
        (r.1, { pcie with
                can := Function.update pcie.can ch_id r.2
                dma_reads := pcie.dma_reads ++ dma_words pos cf.len })

/-- The function `kvaser_pciefd_change_state`. -/
def kvaser_pciefd_change_state (can : kvaser_pciefd_can) (cf : Option canfd_frame)
    (new_state tx_state rx_state : can_state) : Option canfd_frame × kvaser_pciefd_can :=
  let r := can_change_state can cf tx_state rx_state
  if new_state = can_state.BUS_OFF then
    let can := netif_stop_queue r.2
    if can.restart_ms = 0 then
      let can := kvaser_pciefd_start_controller_flush can
      (r.1, can_bus_off can)
    else (r.1, can)
  else r

/-- The function `kvaser_pciefd_rx_error_frame`; `can->kv_pcie` is passed as
`pcie`. -/
def kvaser_pciefd_rx_error_frame (pcie : kvaser_pciefd) (can : kvaser_pciefd_can)
    (p : kvaser_pciefd_rx_packet) : Int × kvaser_pciefd_can :=
  let old_state := can.state
  let bec : can_berr_counter :=
    { txerr := KVASER_PCIEFD_SPACKET_TXERR_COUNT p, rxerr := KVASER_PCIEFD_SPACKET_RXERR_COUNT p }
  let st := kvaser_pciefd_packet_to_state p bec
  let new_state := st.1
  let tx_state := st.2.1
  let rx_state := st.2.2
  let a := alloc_can_err_skb can
  let skb : Option sk_buff := a.1
  let can : kvaser_pciefd_can := a.2
  let r : Option sk_buff × kvaser_pciefd_can :=
    if new_state ≠ old_state then
      let c := kvaser_pciefd_change_state can (skb.map fun s => s.cf) new_state tx_state rx_state
      let skb := with_cf skb c.1
      let can := c.2
      if old_state = can_state.BUS_OFF ∧ new_state = can_state.ERROR_ACTIVE ∧ can.restart_ms ≠ 0 then
        (skb.map fun s => { s with cf := { s.cf with can_id := s.cf.can_id ||| CAN_ERR_RESTARTED } },
         { can with can_stats := { can.can_stats with restarts := can.can_stats.restarts + 1 } })
      else (skb, can)
    else (skb, can)
  let skb := r.1
  let can := r.2
  let can : kvaser_pciefd_can := { can with err_rep_cnt := can.err_rep_cnt + 1 }
  let can : kvaser_pciefd_can :=
    { can with can_stats := { can.can_stats with bus_error := can.can_stats.bus_error + 1 } }
  let can : kvaser_pciefd_can :=
    if p.header1 &&& KVASER_PCIEFD_EPACK_DIR_TX ≠ 0 then
      { can with stats := { can.stats with tx_errors := can.stats.tx_errors + 1 } }
    else { can with stats := { can.stats with rx_errors := can.stats.rx_errors + 1 } }
  let can : kvaser_pciefd_can := { can with bec := bec }
  match skb with
  | none =>
    (- ENOMEM, { can with stats := { can.stats with rx_dropped := can.stats.rx_dropped + 1 } })
  | some skb =>
    let skb := kvaser_pciefd_set_skb_timestamp pcie skb p.timestamp
    let cf := skb.cf
    let cf : canfd_frame := { cf with can_id := cf.can_id ||| (CAN_ERR_BUSERROR ||| CAN_ERR_CNT) }
    let cf : canfd_frame := { cf with data := cf.data.set 6 bec.txerr }
    let cf : canfd_frame := { cf with data := cf.data.set 7 bec.rxerr }
    (0, (netif_rx can { skb with cf := cf }).2)

/-- The function `kvaser_pciefd_handle_error_packet`.  The cap
`KVASER_PCIEFD_MAX_ERR_REP` is an `unsigned int`, so the `int` count is
converted to unsigned for the comparison. -/
def kvaser_pciefd_handle_error_packet (pcie : kvaser_pciefd) (p : kvaser_pciefd_rx_packet) :
    Int × kvaser_pciefd :=
  let ch_id := KVASER_PCIEFD_PACKET_CHID p
  if ch_id ≥ pcie.nr_channels then (- EIO, pcie)
  else
    let can := pcie.can ch_id
    let can := (kvaser_pciefd_rx_error_frame pcie can p).2
    let can : kvaser_pciefd_can :=
      if can.err_rep_cnt % 2 ^ 32 ≥ KVASER_PCIEFD_MAX_ERR_REP then kvaser_pciefd_disable_err_gen can
      else can
    let can := mod_timer can
    (0, { pcie with can := Function.update pcie.can ch_id can })

/-- The function `kvaser_pciefd_handle_status_resp`; `can->kv_pcie` is passed
as `pcie`. -/
def kvaser_pciefd_handle_status_resp (pcie : kvaser_pciefd) (can : kvaser_pciefd_can)
    (p : kvaser_pciefd_rx_packet) : Int × kvaser_pciefd_can :=
  let old_state := can.state
  let bec : can_berr_counter :=
    { txerr := KVASER_PCIEFD_SPACKET_TXERR_COUNT p, rxerr := KVASER_PCIEFD_SPACKET_RXERR_COUNT p }
  let st := kvaser_pciefd_packet_to_state p bec
  let new_state := st.1
  let tx_state := st.2.1
  let rx_state := st.2.2
  let finish (can : kvaser_pciefd_can) : Int × kvaser_pciefd_can :=
    let can : kvaser_pciefd_can := { can with bec := bec }
    if bec.txerr ≠ 0 ∨ bec.rxerr ≠ 0 then (0, mod_timer can) else (0, can)
  if new_state ≠ old_state then
    match alloc_can_err_skb can with
    | (none, can) =>
      (- ENOMEM, { can with stats := { can.stats with rx_dropped := can.stats.rx_dropped + 1 } })
    | (some skb, can) =>
      let c := kvaser_pciefd_change_state can (some skb.cf) new_state tx_state rx_state
      let cf : canfd_frame := c.1.getD skb.cf
      let can := c.2
      let r : canfd_frame × kvaser_pciefd_can :=
        if old_state = can_state.BUS_OFF ∧ new_state = can_state.ERROR_ACTIVE ∧ can.restart_ms ≠ 0
        then
          ({ cf with can_id := cf.can_id ||| CAN_ERR_RESTARTED },
           { can with can_stats := { can.can_stats with restarts := can.can_stats.restarts + 1 } })
        else (cf, can)
      let cf := r.1
      let can := r.2
      let skb := kvaser_pciefd_set_skb_timestamp pcie { skb with cf := cf } p.timestamp
      let cf := skb.cf
      let cf : canfd_frame := { cf with data := cf.data.set 6 bec.txerr }
      let cf : canfd_frame := { cf with data := cf.data.set 7 bec.rxerr }
      finish (netif_rx can { skb with cf := cf }).2
  else finish can

/-- The function `kvaser_pciefd_handle_status_packet`. -/
def kvaser_pciefd_handle_status_packet (pcie : kvaser_pciefd) (p : kvaser_pciefd_rx_packet) :
    Int × kvaser_pciefd :=
  let ch_id := KVASER_PCIEFD_PACKET_CHID p
  if ch_id ≥ pcie.nr_channels then (- EIO, pcie)
  else
    let can := pcie.can ch_id
    let status := can.reg_stat
    let cmdseq : Nat :=
      (status >>> KVASER_PCIEFD_KCAN_STAT_SEQNO_SHIFT) &&& KVASER_PCIEFD_PACKET_SEQ_MASK
    let can : kvaser_pciefd_can :=
      if p.header0 &&& KVASER_PCIEFD_SPACK_IRM ≠ 0 ∧
          p.header0 &&& KVASER_PCIEFD_SPACK_RMCD ≠ 0 ∧
          p.header1 &&& KVASER_PCIEFD_SPACK_AUTO ≠ 0 ∧
          cmdseq = p.header1 &&& KVASER_PCIEFD_PACKET_SEQ_MASK ∧
          status &&& KVASER_PCIEFD_KCAN_STAT_IDLE ≠ 0 then
        let can : kvaser_pciefd_can :=
          { can with reg_irq := can.reg_irq ++ [KVASER_PCIEFD_KCAN_IRQ_ABD] }
        kvaser_pciefd_kcan_abort_flush_reset can
      else if p.header0 &&& KVASER_PCIEFD_SPACK_IDET ≠ 0 ∧
          p.header0 &&& KVASER_PCIEFD_SPACK_IRM ≠ 0 ∧
          cmdseq = p.header1 &&& KVASER_PCIEFD_PACKET_SEQ_MASK ∧
          status &&& KVASER_PCIEFD_KCAN_STAT_IDLE ≠ 0 then
        let count : Nat := KVASER_PCIEFD_KCAN_TX_NR_PACKETS_CURRENT_GET can
        if count = 0 then
          { can with reg_ctrl := can.reg_ctrl ++ [KVASER_PCIEFD_KCAN_CTRL_EFLUSH] }
        else can
      else if p.header1 &&& KVASER_PCIEFD_SPACK_AUTO = 0 ∧
          cmdseq = p.header1 &&& KVASER_PCIEFD_PACKET_SEQ_MASK then
        let can := (kvaser_pciefd_handle_status_resp pcie can p).2
        if can.state ≠ can_state.BUS_OFF ∧ can.state ≠ can_state.ERROR_ACTIVE then mod_timer can
        else can
      else if p.header0 &&& KVASER_PCIEFD_SPACK_RMCD ≠ 0 ∧
          status &&& KVASER_PCIEFD_KCAN_STAT_BUS_OFF_MASK = 0 then
        if ¬ completion_done can.start_comp then
          { can with start_comp := complete can.start_comp }
        else can
      else can
    (0, { pcie with can := Function.update pcie.can ch_id can })

/-- The function `kvaser_pciefd_handle_nack_packet`; `can->kv_pcie` is passed
as `pcie`. -/
def kvaser_pciefd_handle_nack_packet (pcie : kvaser_pciefd) (can : kvaser_pciefd_can)
    (p : kvaser_pciefd_rx_packet) : kvaser_pciefd_can :=
  let a := alloc_can_err_skb can
  let skb : Option sk_buff := a.1
  let can : kvaser_pciefd_can := a.2
  let can : kvaser_pciefd_can :=
    { can with stats := { can.stats with tx_errors := can.stats.tx_errors + 1 } }
  let r : Option sk_buff × kvaser_pciefd_can :=
    if p.header0 &&& KVASER_PCIEFD_APACKET_ABL ≠ 0 then
      (skb.map fun s => { s with cf := { s.cf with can_id := s.cf.can_id ||| CAN_ERR_LOSTARB } },
       { can with
         can_stats := { can.can_stats with
                        arbitration_lost := can.can_stats.arbitration_lost + 1 } })
    else
      (skb.map fun s => { s with cf := { s.cf with can_id := s.cf.can_id ||| CAN_ERR_ACK } }, can)
  let can := r.2
  match r.1 with
  | some skb =>
    let skb : sk_buff := { skb with cf := { skb.cf with can_id := skb.cf.can_id ||| CAN_ERR_BUSERROR } }
    let skb := kvaser_pciefd_set_skb_timestamp pcie skb p.timestamp
    (netif_rx can skb).2
  | none => { can with stats := { can.stats with rx_dropped := can.stats.rx_dropped + 1 } }

/-- The `else` block of `kvaser_pciefd_handle_ack_packet`, run for an ACK
without the flush flag: the echo slot named by the low byte of header word 0 is
stamped and released, the queue is woken when there is room, and the frame is
counted unless `one_shot_fail` is set. -/
def kvaser_pciefd_handle_ack_packet_echo (pcie : kvaser_pciefd) (can : kvaser_pciefd_can)
    (p : kvaser_pciefd_rx_packet) (one_shot_fail : Bool) : kvaser_pciefd_can :=
  let echo_idx := p.header0 &&& KVASER_PCIEFD_PACKET_SEQ_MASK
  let can : kvaser_pciefd_can :=
    match can.echo_skb echo_idx with
    | some skb =>
      { can with
        echo_skb := Function.update can.echo_skb echo_idx
          (some (kvaser_pciefd_set_skb_timestamp pcie skb p.timestamp)) }
    | none => can
  let g := can_get_echo_skb can echo_idx
  let dlc := g.1
  let can := g.2
  let count : Nat := KVASER_PCIEFD_KCAN_TX_NR_PACKETS_CURRENT_GET can
  let can : kvaser_pciefd_can :=
    if count < can.echo_skb_max ∧ can.queue_stopped = true then netif_wake_queue can
    else can
  if one_shot_fail = false then
    { can with
      stats := { can.stats with
                 tx_bytes := can.stats.tx_bytes + dlc
                 tx_packets := can.stats.tx_packets + 1 } }
  else can

/-- The function `kvaser_pciefd_handle_ack_packet`. -/
def kvaser_pciefd_handle_ack_packet (pcie : kvaser_pciefd) (p : kvaser_pciefd_rx_packet) :
    Int × kvaser_pciefd :=
  let ch_id := KVASER_PCIEFD_PACKET_CHID p
  if ch_id ≥ pcie.nr_channels then (- EIO, pcie)
  else
    let can := pcie.can ch_id
    if p.header0 &&& KVASER_PCIEFD_APACKET_CT ≠ 0 then (0, pcie)
    else
      let one_shot_fail : Bool := decide (p.header0 &&& KVASER_PCIEFD_APACKET_NACK ≠ 0)
      let can : kvaser_pciefd_can :=
        if p.header0 &&& KVASER_PCIEFD_APACKET_NACK ≠ 0 then
          kvaser_pciefd_handle_nack_packet pcie can p
        else can
      let can : kvaser_pciefd_can :=
        if p.header0 &&& KVASER_PCIEFD_APACKET_FLU ≠ 0 then can
        else kvaser_pciefd_handle_ack_packet_echo pcie can p one_shot_fail
      (0, { pcie with can := Function.update pcie.can ch_id can })

/-- The function `kvaser_pciefd_handle_eflush_packet`. -/
def kvaser_pciefd_handle_eflush_packet (pcie : kvaser_pciefd) (p : kvaser_pciefd_rx_packet) :
    Int × kvaser_pciefd :=
  let ch_id := KVASER_PCIEFD_PACKET_CHID p
  if ch_id ≥ pcie.nr_channels then (- EIO, pcie)
  else
    let can := pcie.can ch_id
    let can : kvaser_pciefd_can :=
      if ¬ completion_done can.flush_comp then { can with flush_comp := complete can.flush_comp }
      else can
    (0, { pcie with can := Function.update pcie.can ch_id can })

/-! ## Receive path: the DMA buffer consumer -/

/-- The `switch (type)` of `kvaser_pciefd_read_packet`: for the packet `p`
whose payload starts at word `pos`, the handler result `ret`, the position
after the packet, and the new device state. -/
def kvaser_pciefd_read_packet_switch (pcie : kvaser_pciefd) (p : kvaser_pciefd_rx_packet)
    (dma_buf pos : Nat) : Int × Nat × kvaser_pciefd :=
  let type := KVASER_PCIEFD_PACKET_TYPE p
  if type = KVASER_PCIEFD_PACK_TYPE_DATA then
    let r := kvaser_pciefd_handle_data_packet pcie p dma_buf pos
    if p.header0 &&& KVASER_PCIEFD_RPACKET_RTR = 0 then
      let data_len := can_fd_dlc2len (p.header1 >>> KVASER_PCIEFD_RPACKET_DLC_SHIFT)
      (r.1, pos + DIV_ROUND_UP data_len 4, r.2)
    else (r.1, pos, r.2)
  else if type = KVASER_PCIEFD_PACK_TYPE_ACK then
    let r := kvaser_pciefd_handle_ack_packet pcie p
    (r.1, pos, r.2)
  else if type = KVASER_PCIEFD_PACK_TYPE_STATUS then
    let r := kvaser_pciefd_handle_status_packet pcie p
    (r.1, pos, r.2)
  else if type = KVASER_PCIEFD_PACK_TYPE_ERROR then
    let r := kvaser_pciefd_handle_error_packet pcie p
    (r.1, pos, r.2)
  else if type = KVASER_PCIEFD_PACK_TYPE_EFLUSH_ACK then
    let r := kvaser_pciefd_handle_eflush_packet pcie p
    (r.1, pos, r.2)
  else if type = KVASER_PCIEFD_PACK_TYPE_ACK_DATA ∨ type = KVASER_PCIEFD_PACK_TYPE_BUS_LOAD ∨
      type = KVASER_PCIEFD_PACK_TYPE_EFRAME_ACK ∨ type = KVASER_PCIEFD_PACK_TYPE_TXRQ then
    (0, pos, pcie)
  else (- EIO, pos, pcie)

/-- The packet `kvaser_pciefd_read_packet` parses at word `start_pos`: the two
header words and the 64-bit timestamp (low word first). -/
def kvaser_pciefd_packet_at (pcie : kvaser_pciefd) (start_pos dma_buf : Nat) :
    kvaser_pciefd_rx_packet :=
  let buffer := pcie.dma_data dma_buf
  { header0 := le32_to_cpu (buffer (start_pos + 1))
    header1 := le32_to_cpu (buffer (start_pos + 2))
    timestamp := le32_to_cpu (buffer (start_pos + 3)) + le32_to_cpu (buffer (start_pos + 4)) * 2 ^ 32 }

/-- Records the word indices `idx` as read from the DMA memory. -/
def dma_log (pcie : kvaser_pciefd) (idx : List Nat) : kvaser_pciefd :=
  { pcie with dma_reads := pcie.dma_reads ++ idx }

/-- The number of payload words that follow the timestamp of packet `p` in the
stream as `kvaser_pciefd_read_packet` steps over it: the rounded-up word count
of the data length for a data packet without RTR, none otherwise. -/
def payload_words (p : kvaser_pciefd_rx_packet) : Nat :=
  if KVASER_PCIEFD_PACKET_TYPE p = KVASER_PCIEFD_PACK_TYPE_DATA ∧
      p.header0 &&& KVASER_PCIEFD_RPACKET_RTR = 0 then
    DIV_ROUND_UP (can_fd_dlc2len (p.header1 >>> KVASER_PCIEFD_RPACKET_DLC_SHIFT)) 4
  else 0

/-- The middle part of `kvaser_pciefd_read_packet`, from the read of the header
to the end of the `switch`: the handler result, the position reached, and the
new device state. -/
def kvaser_pciefd_read_packet_body (pcie : kvaser_pciefd) (start_pos dma_buf : Nat) :
    Int × Nat × kvaser_pciefd :=
  let p := kvaser_pciefd_packet_at pcie start_pos dma_buf
  let pcie := dma_log pcie [start_pos + 1, start_pos + 2, start_pos + 3, start_pos + 4]
  kvaser_pciefd_read_packet_switch pcie p dma_buf (start_pos + 5)

/-- The function `kvaser_pciefd_read_packet`: returns the result, the value of
`*start_pos` afterwards, and the new device state.  The size word is read at
`start_pos`, the header and timestamp words at the four following indices. -/
def kvaser_pciefd_read_packet (pcie : kvaser_pciefd) (start_pos dma_buf : Nat) :
    Int × Nat × kvaser_pciefd :=
  let buffer := pcie.dma_data dma_buf
  let size := int_of_u32 (le32_to_cpu (buffer start_pos))
  let pcie := dma_log pcie [start_pos]
  if size = 0 then (0, 0, pcie)
  else
    let r := kvaser_pciefd_read_packet_body pcie start_pos dma_buf
    let ret := r.1
    let pos := r.2.1
    let pcie := r.2.2
    if ret ≠ 0 then (ret, start_pos, pcie)
    else if int_add start_pos size ≠ pos then (- EIO, start_pos, pcie)
    else (ret, pos, pcie)

/-- The `do ... while` loop of `kvaser_pciefd_read_buffer`, entered at position
`pos`, with a bound on the number of iterations; `none` when the bound is
reached before the loop ends. -/
def kvaser_pciefd_read_buffer_loop :
    Nat → kvaser_pciefd → Nat → Nat → Option (Int × kvaser_pciefd)
  | 0, _, _, _ => none
  | fuel + 1, pcie, pos, dma_buf =>
    let r := kvaser_pciefd_read_packet pcie pos dma_buf
    if r.1 = 0 ∧ r.2.1 > 0 ∧ r.2.1 < KVASER_PCIEFD_DMA_SIZE then
      kvaser_pciefd_read_buffer_loop fuel r.2.2 r.2.1 dma_buf
    else some (r.1, r.2.2)

/-- The function `kvaser_pciefd_read_buffer`.  Every iteration that continues
advances the position by at least 5, so 820 iterations always suffice. -/
def kvaser_pciefd_read_buffer (pcie : kvaser_pciefd) (dma_buf : Nat) :
    Option (Int × kvaser_pciefd) :=
  kvaser_pciefd_read_buffer_loop 820 pcie 0 dma_buf

/-! ## Attaching a channel -/

/-- The helper `alloc_candev(sizeof_priv, echo_skb_max)`: a zeroed device in
state STOPPED with an empty echo ring of `echo_skb_max` slots.  The register
values the hardware shows and the oracles of the environment are given. -/
def alloc_candev (echo_skb_max : Nat) (reg_stat reg_tx_nr_packets reg_mode : Nat)
    (alloc_ok rx_ok : Nat → Bool) : kvaser_pciefd_can :=
  { state := can_state.STOPPED
    restart_ms := 0
    ctrlmode := 0
    echo_skb_max := echo_skb_max
    echo_skb := fun _ => none
    can_stats := ⟨0, 0, 0, 0, 0, 0⟩
    stats := ⟨0, 0, 0, 0, 0, 0, 0, 0⟩
    queue_stopped := false
    carrier_ok := true
    bec := ⟨0, 0⟩
    cmd_seq := 0
    err_rep_cnt := 0
    echo_idx := 0
    start_comp := 0
    flush_comp := 0
    bec_poll_timer := false
    reg_cmd := []
    reg_ctrl := []
    reg_irq := []
    reg_fifo := []
    reg_fifo_last := []
    reg_ien := 0
    reg_mode := reg_mode
    reg_stat := reg_stat
    reg_tx_nr_packets := reg_tx_nr_packets
    alloc_ok := alloc_ok
    alloc_cnt := 0
    rx_ok := rx_ok
    rx_cnt := 0
    rx_queue := [] }

/-- The body of the loop of `kvaser_pciefd_setup_can_ctrls` for one channel,
applied to the device `alloc_candev` returned: the result code (0, or
`-ENODEV` when the controller lacks CAN FD) and the channel.  The subtraction
`MAX_GET(can) - 1` is unsigned 32-bit.  The PWM and bus-load registers are not
part of the model. -/
def kvaser_pciefd_setup_can_ctrl (can : kvaser_pciefd_can) : Int × kvaser_pciefd_can :=
  let can : kvaser_pciefd_can := { can with cmd_seq := 0 }
  let can : kvaser_pciefd_can := { can with err_rep_cnt := 0 }
  let can : kvaser_pciefd_can := { can with bec := ⟨0, 0⟩ }
  let can : kvaser_pciefd_can := { can with start_comp := 0, flush_comp := 0 }
  let can : kvaser_pciefd_can := { can with bec_poll_timer := false }
  let can : kvaser_pciefd_can :=
    { can with
      echo_skb_max :=
        min KVASER_PCIEFD_CAN_TX_MAX_COUNT
          ((KVASER_PCIEFD_KCAN_TX_NR_PACKETS_MAX_GET can + 2 ^ 32 - 1) % 2 ^ 32) }
  let can : kvaser_pciefd_can := { can with echo_idx := 0 }
  let status := can.reg_stat
  if status &&& KVASER_PCIEFD_KCAN_STAT_FD = 0 then (- ENODEV, can)
  else
    let can : kvaser_pciefd_can := { can with reg_irq := can.reg_irq ++ [2 ^ 32 - 1] }
    let can : kvaser_pciefd_can := { can with reg_ien := KVASER_PCIEFD_KCAN_IRQ_ABD }
    (0, can)

/-- A channel as `kvaser_pciefd_setup_can_ctrls` leaves it on hardware that
reports CAN FD capability and a Tx FIFO depth of `d` packets, with an
environment in which allocations and `netif_rx` succeed. -/
def attached_can (d : Nat) : kvaser_pciefd_can :=
  (kvaser_pciefd_setup_can_ctrl
    (alloc_candev KVASER_PCIEFD_CAN_TX_MAX_COUNT KVASER_PCIEFD_KCAN_STAT_FD (d <<< 16) 0
      (fun _ => true) (fun _ => true))).2

/-- A device with `n` channels, each attached as `attached_can d`, a timestamp
divisor of 80 (an 80 MHz CAN clock) and the given DMA memory. -/
def attached_pcie (n d : Nat) (dma_data : Nat → Nat → Nat) : kvaser_pciefd :=
  { can := fun _ => attached_can d
    nr_channels := n
    freq_to_ticks_div := 80
    dma_data := dma_data
    dma_reads := [] }

/-! ## Board setup -/

def KVASER_PCIEFD_SYSID_VERSION_NRCHAN_SHIFT : Nat := 24
def KVASER_PCIEFD_SRB_STAT_DMA : Nat := BIT 24

/-- The macro `KVASER_PCIEFD_SYSID_VERSION_NUM_CHANNELS_GET` on the value
`version` read from the version register. -/
def KVASER_PCIEFD_SYSID_VERSION_NUM_CHANNELS_GET (version : Nat) : Nat :=
  ((version % 2 ^ 32) >>> KVASER_PCIEFD_SYSID_VERSION_NRCHAN_SHIFT) &&& 0xff

/-- The function `kvaser_pciefd_setup_board`, for the 32-bit values the
hardware shows in the version register (`version`), the SRB status register
(`srb_stat`) and the CAN frequency register (`canfreq`): the result code (0, or
`-ENODEV` for hardware without DMA) and the device.  The fields `bus_freq` and
`freq` and the loopback register are not part of the model. -/
def kvaser_pciefd_setup_board (pcie : kvaser_pciefd) (version srb_stat canfreq : Nat) :
    Int × kvaser_pciefd :=
  let pcie : kvaser_pciefd :=
    { pcie with
      nr_channels :=
        min KVASER_PCIEFD_MAX_CAN_CHANNELS (KVASER_PCIEFD_SYSID_VERSION_NUM_CHANNELS_GET version) }
  if (srb_stat % 2 ^ 32) &&& KVASER_PCIEFD_SRB_STAT_DMA = 0 then (- ENODEV, pcie)
  else
    let freq := canfreq % 2 ^ 32
    let pcie : kvaser_pciefd := { pcie with freq_to_ticks_div := freq / 1000000 }
    let pcie : kvaser_pciefd :=
      if pcie.freq_to_ticks_div = 0 then { pcie with freq_to_ticks_div := 1 } else pcie
    (0, pcie)

/-! ## Bus on and stop -/

/-- The helper `del_timer` on the error-counter poll timer. -/
def del_timer (can : kvaser_pciefd_can) : kvaser_pciefd_can :=
  { can with bec_poll_timer := false }

/-- The helper `wait_for_completion_timeout` at the moment it returns, for the
value `done` the completion counter has then: with `done = 0` the wait has
timed out and the result is 0; otherwise the result is non-zero (the remaining
jiffies, at least 1, given as 1) and one unit of the completion is consumed
(none at `UINT_MAX`).  The result is the return value and the new counter. -/
def wait_for_completion_timeout (done : Nat) : Nat × Nat :=
  if done = 0 then (0, done)
  else (1, if done = 2 ^ 32 - 1 then done else done - 1)

/-- The macro `KVASER_PCIEFD_KCAN_IEN_ENABLE_ALL`: the mask it writes. -/
def KVASER_PCIEFD_KCAN_IEN_ALL : Nat :=
  KVASER_PCIEFD_KCAN_IRQ_TOF ||| KVASER_PCIEFD_KCAN_IRQ_ABD ||| KVASER_PCIEFD_KCAN_IRQ_TAE |||
    KVASER_PCIEFD_KCAN_IRQ_TAL ||| KVASER_PCIEFD_KCAN_IRQ_FDIC ||| KVASER_PCIEFD_KCAN_IRQ_BPP |||
    KVASER_PCIEFD_KCAN_IRQ_TAR

/-- The function `kvaser_pciefd_setup_controller`. -/
def kvaser_pciefd_setup_controller (can : kvaser_pciefd_can) : kvaser_pciefd_can :=
  let mode := can.reg_mode
  let mode :=
    if can.ctrlmode &&& CAN_CTRLMODE_FD ≠ 0 then
      let mode := clear_bits mode KVASER_PCIEFD_KCAN_MODE_CCM
      if can.ctrlmode &&& CAN_CTRLMODE_FD_NON_ISO ≠ 0 then mode ||| KVASER_PCIEFD_KCAN_MODE_NIFDEN
      else clear_bits mode KVASER_PCIEFD_KCAN_MODE_NIFDEN
    else
      let mode := mode ||| KVASER_PCIEFD_KCAN_MODE_CCM
      clear_bits mode KVASER_PCIEFD_KCAN_MODE_NIFDEN
  let mode :=
    if can.ctrlmode &&& CAN_CTRLMODE_LISTENONLY ≠ 0 then mode ||| KVASER_PCIEFD_KCAN_MODE_LOM
    else clear_bits mode KVASER_PCIEFD_KCAN_MODE_LOM
  let mode := mode ||| KVASER_PCIEFD_KCAN_MODE_EEN
  let mode := mode ||| KVASER_PCIEFD_KCAN_MODE_EPEN
  let mode := clear_bits mode KVASER_PCIEFD_KCAN_MODE_APT
  let mode := clear_bits mode KVASER_PCIEFD_KCAN_MODE_RM
  { can with reg_mode := mode }

/-- The statements of `kvaser_pciefd_bus_on` before its first wait: the poll
timer is deleted and, unless the flush completion is already signalled, a
controller flush is requested. -/
def kvaser_pciefd_bus_on_flush (can : kvaser_pciefd_can) : kvaser_pciefd_can :=
  let can := del_timer can
  if ¬ completion_done can.flush_comp then kvaser_pciefd_start_controller_flush can else can

/-- The statements of `kvaser_pciefd_bus_on` between its two waits: interrupts
disabled and cleared, ABD enabled, reset mode left. -/
def kvaser_pciefd_bus_on_reset (can : kvaser_pciefd_can) : kvaser_pciefd_can :=
  let can : kvaser_pciefd_can := { can with reg_ien := 0 }
  let can : kvaser_pciefd_can := { can with reg_irq := can.reg_irq ++ [2 ^ 32 - 1] }
  let can : kvaser_pciefd_can := { can with reg_ien := KVASER_PCIEFD_KCAN_IRQ_ABD }
  { can with reg_mode := clear_bits can.reg_mode KVASER_PCIEFD_KCAN_MODE_RM }

/-- The statements of `kvaser_pciefd_bus_on` after its second wait. -/
def kvaser_pciefd_bus_on_finish (can : kvaser_pciefd_can) : kvaser_pciefd_can :=
  let can : kvaser_pciefd_can := { can with reg_ien := 0 }
  let can : kvaser_pciefd_can := { can with reg_irq := can.reg_irq ++ [2 ^ 32 - 1] }
  let can : kvaser_pciefd_can := { can with reg_ien := KVASER_PCIEFD_KCAN_IEN_ALL }
  let can := kvaser_pciefd_setup_controller can
  let can : kvaser_pciefd_can := { can with state := can_state.ERROR_ACTIVE }
  let can := netif_wake_queue can
  let can : kvaser_pciefd_can := { can with bec := { can.bec with txerr := 0 } }
  let can : kvaser_pciefd_can := { can with bec := { can.bec with rxerr := 0 } }
  { can with err_rep_cnt := 0 }

/-- The function `kvaser_pciefd_bus_on`.  The caller sleeps in two bounded
waits while the interrupt side runs: `irq1` is what the interrupt side has done
to the channel from the start of the first wait until that wait returns,
`irq2` the same for the second wait.  The result is the return value and the
channel. -/
def kvaser_pciefd_bus_on (can : kvaser_pciefd_can) (irq1 irq2 : kvaser_pciefd_can → kvaser_pciefd_can) :
    Int × kvaser_pciefd_can :=
  let can := kvaser_pciefd_bus_on_flush can
  let can := irq1 can
  let w := wait_for_completion_timeout can.flush_comp
  let can : kvaser_pciefd_can := { can with flush_comp := w.2 }
  if w.1 = 0 then (- ETIMEDOUT, can)
  else
    let can := kvaser_pciefd_bus_on_reset can
    let can := irq2 can
    let w := wait_for_completion_timeout can.start_comp
    let can : kvaser_pciefd_can := { can with start_comp := w.2 }
    if w.1 = 0 then (- ETIMEDOUT, can)
    else (0, kvaser_pciefd_bus_on_finish can)

/-- The helper `can_flush_echo_skb`: every occupied echo slot is freed and
counted in `tx_dropped`. -/
def can_flush_echo_skb (can : kvaser_pciefd_can) : kvaser_pciefd_can :=
  let n := ((List.range can.echo_skb_max).filter fun i => (can.echo_skb i).isSome).length
  { can with
    echo_skb := fun i => if i < can.echo_skb_max then none else can.echo_skb i
    stats := { can.stats with tx_dropped := can.stats.tx_dropped + n } }

/-- The helper `close_candev` (the restart timer is not part of the model). -/
def close_candev (can : kvaser_pciefd_can) : kvaser_pciefd_can :=
  can_flush_echo_skb can

/-- The function `kvaser_pciefd_stop`; `irq` is what the interrupt side has
done to the channel from the start of the wait until the wait returns. -/
def kvaser_pciefd_stop (can : kvaser_pciefd_can) (irq : kvaser_pciefd_can → kvaser_pciefd_can) :
    Int × kvaser_pciefd_can :=
  let can :=
    if ¬ completion_done can.flush_comp then kvaser_pciefd_start_controller_flush can else can
  let can := irq can
  let w := wait_for_completion_timeout can.flush_comp
  let can : kvaser_pciefd_can := { can with flush_comp := w.2 }
  let r : Int × kvaser_pciefd_can :=
    if w.1 = 0 then (- ETIMEDOUT, can)
    else
      let can : kvaser_pciefd_can := { can with reg_ien := 0 }
      (0, del_timer can)
  let can : kvaser_pciefd_can := { r.2 with state := can_state.STOPPED }
  (r.1, close_candev can)

/-! ## Sequences of operations -/

/-- The commands `cmds` sent one after the other through
`kvaser_pciefd_send_kcan_cmd`. -/
def send_kcan_cmds (can : kvaser_pciefd_can) (cmds : List Nat) : kvaser_pciefd_can :=
  cmds.foldl kvaser_pciefd_send_kcan_cmd can

/-- The sequence number carried by a word written to the CMD register. -/
def cmd_word_seq (w : Nat) : Nat :=
  (w >>> KVASER_PCIEFD_KCAN_CMD_SEQ_SHIFT) &&& KVASER_PCIEFD_PACKET_SEQ_MASK

/-- The frames of `frames` submitted one after the other through
`kvaser_pciefd_start_xmit`, with no acknowledgement in between; each frame comes
with the value the `TX_NR_PACKETS` register shows during its submission. -/
def start_xmit_all : kvaser_pciefd_can → List (sk_buff × Nat) → Option kvaser_pciefd_can
  | can, [] => some can
  | can, f :: rest =>
    match kvaser_pciefd_start_xmit { can with reg_tx_nr_packets := f.2 } f.1 with
    | none => none
    | some r => start_xmit_all r.2 rest

/-- The channel at the moment the first wait of `kvaser_pciefd_bus_on`
returns, before the completion is consumed. -/
def bus_on_flush_wait (can : kvaser_pciefd_can) (irq1 : kvaser_pciefd_can → kvaser_pciefd_can) :
    kvaser_pciefd_can :=
  irq1 (kvaser_pciefd_bus_on_flush can)

/-- The channel at the moment the second wait of `kvaser_pciefd_bus_on`
returns, when the first wait has observed its completion. -/
def bus_on_start_wait (can : kvaser_pciefd_can) (irq1 irq2 : kvaser_pciefd_can → kvaser_pciefd_can) :
    kvaser_pciefd_can :=
  irq2 (kvaser_pciefd_bus_on_reset
    { bus_on_flush_wait can irq1 with
      flush_comp := (wait_for_completion_timeout (bus_on_flush_wait can irq1).flush_comp).2 })

/-- What the interrupt side does to channel `ch` of `pcie` when it handles the
status packet `p` while the channel is `can` and the hardware reports `stat` in
the status register of the channel. -/
def status_packet_irq (pcie : kvaser_pciefd) (p : kvaser_pciefd_rx_packet) (ch stat : Nat)
    (can : kvaser_pciefd_can) : kvaser_pciefd_can :=
  (kvaser_pciefd_handle_status_packet
    { pcie with can := Function.update pcie.can ch { can with reg_stat := stat } } p).2.can ch

/-- What the interrupt side does to channel `ch` of `pcie` when it handles the
flush acknowledgement packet `p` while the channel is `can`. -/
def eflush_packet_irq (pcie : kvaser_pciefd) (p : kvaser_pciefd_rx_packet) (ch : Nat)
    (can : kvaser_pciefd_can) : kvaser_pciefd_can :=
  (kvaser_pciefd_handle_eflush_packet
    { pcie with can := Function.update pcie.can ch can } p).2.can ch

/-- The channel after a flush request through
`kvaser_pciefd_start_controller_flush`, at a later moment at which the status
register reads `stat`. -/
def flush_pending (can : kvaser_pciefd_can) (stat : Nat) : kvaser_pciefd_can :=
  { kvaser_pciefd_start_controller_flush can with reg_stat := stat }

/-! ## The received-frame event of a data packet -/

/-- The received-frame event the specification names for an inbound data packet
`p` whose payload starts at word `pos` of DMA buffer `dma_buf`: a CAN FD skb
iff FDF is set, the identifier `header0 & 0x1FFFFFFF` with the EFF flag iff IDE
is set and the RTR flag iff RTR is set, the length the DLC table gives for bits
8..11 of header word 1, for an FD packet the flags FDF, BRS and ESI, for a
packet without RTR the first `len` bytes that follow the timestamp, and the
scaled timestamp. -/
def rx_frame_event (pcie : kvaser_pciefd) (p : kvaser_pciefd_rx_packet) (dma_buf pos : Nat) :
    sk_buff :=
  let fdf : Bool := decide (p.header1 &&& KVASER_PCIEFD_RPACKET_FDF ≠ 0)
  let len := can_fd_dlc2len (p.header1 >>> KVASER_PCIEFD_RPACKET_DLC_SHIFT)
  let zeros := List.replicate (if fdf then CANFD_MAX_DLEN else CAN_MAX_DLEN) 0
  { is_canfd := fdf
    cf :=
      { can_id :=
          if p.header0 &&& KVASER_PCIEFD_RPACKET_RTR ≠ 0 then
            (if p.header0 &&& KVASER_PCIEFD_RPACKET_IDE ≠ 0 then
              (p.header0 &&& CAN_EFF_MASK) ||| CAN_EFF_FLAG
             else p.header0 &&& CAN_EFF_MASK) ||| CAN_RTR_FLAG
          else if p.header0 &&& KVASER_PCIEFD_RPACKET_IDE ≠ 0 then
            (p.header0 &&& CAN_EFF_MASK) ||| CAN_EFF_FLAG
          else p.header0 &&& CAN_EFF_MASK
        len := len
        flags :=
          if fdf then
            CANFD_FDF |||
              (if p.header1 &&& KVASER_PCIEFD_RPACKET_BRS ≠ 0 then CANFD_BRS else 0) |||
              (if p.header1 &&& KVASER_PCIEFD_RPACKET_ESI ≠ 0 then CANFD_ESI else 0)
          else 0
        data :=
          if p.header0 &&& KVASER_PCIEFD_RPACKET_RTR ≠ 0 then zeros
          else memcpy zeros (dma_bytes (pcie.dma_data dma_buf) pos len) len }
    hwtstamp := ns_to_ktime (div_u64 ((p.timestamp * 1000) % 2 ^ 64) pcie.freq_to_ticks_div) }

/-- The channel state in which `kvaser_pciefd_handle_data_packet` calls
`netif_rx` when its allocation succeeded: one allocation consumed, `rx_packets`
increased by 1 and, for a packet without RTR, `rx_bytes` by the length. -/
def rx_counted (can : kvaser_pciefd_can) (p : kvaser_pciefd_rx_packet) : kvaser_pciefd_can :=
  { can with
    alloc_cnt := can.alloc_cnt + 1
    stats :=
      { can.stats with
        rx_bytes := can.stats.rx_bytes +
          (if p.header0 &&& KVASER_PCIEFD_RPACKET_RTR ≠ 0 then 0
           else can_fd_dlc2len (p.header1 >>> KVASER_PCIEFD_RPACKET_DLC_SHIFT))
        rx_packets := can.stats.rx_packets + 1 } }

/-- The error event the specification names for an ACK packet with the no-ack
flag: a classic error frame with the bus-error class, lost arbitration when
ABL is set and no-ack otherwise, stamped with the scaled packet timestamp. -/
def nack_error_event (pcie : kvaser_pciefd) (p : kvaser_pciefd_rx_packet) : sk_buff :=
  { is_canfd := false
    cf :=
      { can_id :=
          CAN_ERR_FLAG |||
            (if p.header0 &&& KVASER_PCIEFD_APACKET_ABL ≠ 0 then CAN_ERR_LOSTARB else CAN_ERR_ACK) |||
            CAN_ERR_BUSERROR
        len := CAN_ERR_DLC
        flags := 0
        data := List.replicate CAN_MAX_DLEN 0 }
    hwtstamp := ns_to_ktime (div_u64 ((p.timestamp * 1000) % 2 ^ 64) pcie.freq_to_ticks_div) }

/-- The channel in which `kvaser_pciefd_handle_nack_packet` hands its error
event to `netif_rx`: one allocation consumed, `tx_errors` increased by 1 and
`arbitration_lost` by 1 when ABL is set. -/
def nack_counted (can : kvaser_pciefd_can) (p : kvaser_pciefd_rx_packet) : kvaser_pciefd_can :=
  { can with
    alloc_cnt := can.alloc_cnt + 1
    stats := { can.stats with tx_errors := can.stats.tx_errors + 1 }
    can_stats :=
      { can.can_stats with
        arbitration_lost := can.can_stats.arbitration_lost +
          (if p.header0 &&& KVASER_PCIEFD_APACKET_ABL ≠ 0 then 1 else 0) } }

/-- The end of `kvaser_pciefd_handle_status_resp`: the error counters of the
packet are stored and the poll timer is armed when one of them is non-zero. -/
def status_resp_finish (bec : can_berr_counter) (can : kvaser_pciefd_can) :
    Int × kvaser_pciefd_can :=
  let can : kvaser_pciefd_can := { can with bec := bec }
  if bec.txerr ≠ 0 ∨ bec.rxerr ≠ 0 then (0, mod_timer can) else (0, can)

/-- The part of `kvaser_pciefd_handle_status_resp` that follows
`kvaser_pciefd_change_state` when the state has changed and the error skb `skb`
was allocated: `c` is the result of `kvaser_pciefd_change_state`; the restart
is counted, the frame is stamped, completed with the counters and handed to
`netif_rx`. -/
def status_resp_deliver (pcie : kvaser_pciefd) (p : kvaser_pciefd_rx_packet)
    (old_state new_state : can_state) (bec : can_berr_counter) (skb : sk_buff)
    (c : Option canfd_frame × kvaser_pciefd_can) : Int × kvaser_pciefd_can :=
  let cf : canfd_frame := c.1.getD skb.cf
  let can := c.2
  let r : canfd_frame × kvaser_pciefd_can :=
    if old_state = can_state.BUS_OFF ∧ new_state = can_state.ERROR_ACTIVE ∧ can.restart_ms ≠ 0
    then
      ({ cf with can_id := cf.can_id ||| CAN_ERR_RESTARTED },
       { can with can_stats := { can.can_stats with restarts := can.can_stats.restarts + 1 } })
    else (cf, can)
  let cf := r.1
  let can := r.2
  let skb := kvaser_pciefd_set_skb_timestamp pcie { skb with cf := cf } p.timestamp
  let cf := skb.cf
  let cf : canfd_frame := { cf with data := cf.data.set 6 bec.txerr }
  let cf : canfd_frame := { cf with data := cf.data.set 7 bec.rxerr }
  status_resp_finish bec (netif_rx can { skb with cf := cf }).2

/-! ## Sample inputs -/

/-- A DMA memory whose buffers all start with the given words and are zero
after them. -/
def dma_of_words (ws : List Nat) : Nat → Nat → Nat := fun _ i => ws.getD i 0

/-- A one-channel device whose DMA buffer starts with one control ACK packet
for channel 0 (five words long) that declares a size of six words. -/
def misframed_pcie : kvaser_pciefd :=
  attached_pcie 1 8 (dma_of_words [6, KVASER_PCIEFD_APACKET_CT, 1 <<< 28, 0, 0])

/-- A one-channel device whose DMA buffer holds a data packet for channel 1
(not a channel of the device) followed by a correctly framed data packet for
channel 0; both are five words long (DLC 0). -/
def bad_channel_pcie : kvaser_pciefd :=
  attached_pcie 1 8 (dma_of_words [5, 0x123, 1 <<< 25, 0, 0, 5, 0x123, 0, 0, 0])

/-- A one-channel device whose DMA buffer holds a packet of the unknown type 7
followed by a correctly framed data packet for channel 0. -/
def unknown_type_pcie : kvaser_pciefd :=
  attached_pcie 1 8 (dma_of_words [5, 0, 7 <<< 28, 0, 0, 5, 0x123, 0, 0, 0])

/-- The packet types `kvaser_pciefd_read_packet` has a `case` for. -/
def known_packet_types : List Nat :=
  [KVASER_PCIEFD_PACK_TYPE_DATA, KVASER_PCIEFD_PACK_TYPE_ACK, KVASER_PCIEFD_PACK_TYPE_STATUS,
   KVASER_PCIEFD_PACK_TYPE_ERROR, KVASER_PCIEFD_PACK_TYPE_EFLUSH_ACK,
   KVASER_PCIEFD_PACK_TYPE_ACK_DATA, KVASER_PCIEFD_PACK_TYPE_BUS_LOAD,
   KVASER_PCIEFD_PACK_TYPE_EFRAME_ACK, KVASER_PCIEFD_PACK_TYPE_TXRQ]

/-- A one-channel device whose 1024-word DMA buffer is filled with five-word
control ACK packets for channel 0, the first at word 0 and the last at word
1020; the memory after the buffer is zero. -/
def overrun_pcie : kvaser_pciefd :=
  attached_pcie 1 8 (fun _ i =>
    if i < 1024 then
      (if i % 5 = 0 then 5 else if i % 5 = 1 then KVASER_PCIEFD_APACKET_CT
       else if i % 5 = 2 then 1 <<< 28 else 0)
    else 0)

/-- A classic frame with identifier 0x123 and two payload bytes. -/
def sample_skb : sk_buff :=
  { is_canfd := false
    cf := { can_id := 0x123, len := 2, flags := 0, data := [0xAA, 0xBB, 0, 0, 0, 0, 0, 0] }
    hwtstamp := 0 }

/-- A one-channel device whose channel 0 has one frame in flight: `sample_skb`
was submitted on an empty ring and sits in echo slot 0. -/
def in_flight_pcie : kvaser_pciefd :=
  { attached_pcie 1 8 (fun _ _ => 0) with
    can := fun _ =>
      match kvaser_pciefd_start_xmit (attached_can 8) sample_skb with
      | some r => r.2
      | none => attached_can 8 }

/-- An ACK packet for channel 0 and echo slot 0 with the flush flag. -/
def flushed_ack : kvaser_pciefd_rx_packet :=
  { header0 := KVASER_PCIEFD_APACKET_FLU, header1 := KVASER_PCIEFD_PACK_TYPE_ACK <<< 28, timestamp := 0 }

/-- An ACK packet for channel 0 and echo slot 0 without flags. -/
def plain_ack : kvaser_pciefd_rx_packet :=
  { header0 := 0, header1 := KVASER_PCIEFD_PACK_TYPE_ACK <<< 28, timestamp := 160 }

/-- The two frames submitted to fill a ring of two echo slots, with the
hardware counts 1 and 2. -/
def two_frames : List (sk_buff × Nat) := [(sample_skb, 1), (sample_skb, 2)]

/-- A channel with two echo slots after `two_frames` were submitted on the
freshly attached channel: both slots are occupied. -/
def full_ring_can : kvaser_pciefd_can :=
  match start_xmit_all (attached_can 3) two_frames with
  | some full => full
  | none => attached_can 3

/-- A one-channel device whose channel 0 is `full_ring_can`, at a moment when the
hardware reports one packet in flight. -/
def full_ring_pcie : kvaser_pciefd :=
  { attached_pcie 1 3 (fun _ _ => 0) with
    can := fun _ => { full_ring_can with reg_tx_nr_packets := 1 } }

/-- A one-channel device whose DMA buffer holds one data packet for channel 0
with FDF clear (a classic frame), DLC 9 and no RTR, followed by three payload
words; the packet declares eight words. -/
def classic_dlc9_pcie : kvaser_pciefd :=
  attached_pcie 1 8
    (dma_of_words [8, 0x123, 9 <<< 8, 0, 0, 0x04030201, 0x08070605, 0x0C0B0A09])

/-- A one-channel device whose DMA buffer holds one data packet for channel 0
with DLC 8 and no RTR (seven words: size, two header words, timestamp 160 ticks,
two payload words). -/
def dlc8_pcie : kvaser_pciefd :=
  attached_pcie 1 8 (dma_of_words [7, 0x123, 8 <<< 8, 160, 0, 0x04030201, 0x08070605])

/-- The words of a control ACK packet for channel 0 followed by a data packet
for channel 0 with DLC 8 and no RTR that declares `size` words. -/
def ack_then_data (size : Nat) : List Nat :=
  [5, KVASER_PCIEFD_APACKET_CT, 1 <<< 28, 0, 0, size, 0x123, 8 <<< 8, 160, 0, 0x04030201, 0x08070605]

/-- A one-channel device with a data packet at word 5 that declares eight words
although it is seven words long. -/
def misdeclared_pcie : kvaser_pciefd :=
  attached_pcie 1 8 (dma_of_words (ack_then_data 8))

/-- A CAN FD frame with a 29-bit identifier, 12 data bytes and bit-rate
switching. -/
def fd_skb : sk_buff :=
  { is_canfd := true
    cf :=
      { can_id := 0x12345678 ||| CAN_EFF_FLAG
        len := 12
        flags := CANFD_BRS
        data := [1, 2, 3, 4, 5, 6, 7, 8, 9, 10, 11, 12] ++ List.replicate 52 0 }
    hwtstamp := 0 }

/-- A one-channel device whose DMA buffers hold, from word 0 on, the payload
words of the packet `kvaser_pciefd_prepare_tx_packet` builds for `fd_skb` on a
channel whose next echo index is 3. -/
def loopback_pcie : kvaser_pciefd :=
  attached_pcie 1 8 (fun _ i =>
    data_word (kvaser_pciefd_prepare_tx_packet { attached_can 8 with echo_idx := 3 } fd_skb).2.data i)

/-- The status packet for channel 0 the controller sends on leaving reset mode:
RMCD set and IRM clear in header word 0, AUTO set and sequence number `seq` in
header word 1. -/
def bus_on_status_packet (seq : Nat) : kvaser_pciefd_rx_packet :=
  { header0 := KVASER_PCIEFD_SPACK_RMCD
    header1 := (KVASER_PCIEFD_PACK_TYPE_STATUS <<< KVASER_PCIEFD_PACKET_TYPE_SHIFT) |||
      KVASER_PCIEFD_SPACK_AUTO ||| seq
    timestamp := 0 }

/-- A status packet for channel 0 with IRM and RMCD clear, AUTO set and
sequence number `seq`. -/
def plain_status_packet (seq : Nat) : kvaser_pciefd_rx_packet :=
  { header0 := 0
    header1 := (KVASER_PCIEFD_PACK_TYPE_STATUS <<< KVASER_PCIEFD_PACKET_TYPE_SHIFT) |||
      KVASER_PCIEFD_SPACK_AUTO ||| seq
    timestamp := 0 }

/-- A flush acknowledgement packet for channel 0. -/
def eflush_ack_packet : kvaser_pciefd_rx_packet :=
  { header0 := 0
    header1 := KVASER_PCIEFD_PACK_TYPE_EFLUSH_ACK <<< KVASER_PCIEFD_PACKET_TYPE_SHIFT
    timestamp := 0 }

/-- A one-channel device with an empty DMA memory. -/
def quiet_pcie : kvaser_pciefd := attached_pcie 1 8 (fun _ _ => 0)

/-- A stopped channel after attach whose controller is idle in reset mode
(status register: FD capable, IDLE, IRM, sequence number 0), with
`cmd_seq = seq`. -/
def idle_can (seq : Nat) : kvaser_pciefd_can :=
  { attached_can 8 with
    cmd_seq := seq
    reg_stat := KVASER_PCIEFD_KCAN_STAT_FD ||| KVASER_PCIEFD_KCAN_STAT_IDLE |||
      KVASER_PCIEFD_KCAN_STAT_IRM }

/-- The interrupt side during the first wait of a bus-on of channel 0: the
flush acknowledgement is handled. -/
def flush_acked : kvaser_pciefd_can → kvaser_pciefd_can :=
  eflush_packet_irq quiet_pcie eflush_ack_packet 0

/-- The status register of a controller that has left reset mode and has
taken the command with sequence number `seq`: FD capable, no other flag. -/
def stat_on_bus (seq : Nat) : Nat :=
  KVASER_PCIEFD_KCAN_STAT_FD ||| (seq <<< KVASER_PCIEFD_KCAN_STAT_SEQNO_SHIFT)

/-- The interrupt side during the second wait of a bus-on of channel 0: the
status packet `p` is handled while the status register reads
`stat_on_bus seq`. -/
def left_reset (seq : Nat) (p : kvaser_pciefd_rx_packet) : kvaser_pciefd_can → kvaser_pciefd_can :=
  status_packet_irq quiet_pcie p 0 (stat_on_bus seq)

/-- A status response for channel 0 (AUTO clear, sequence number 0) that
reports bus-off. -/
def boff_status_packet : kvaser_pciefd_rx_packet :=
  { header0 := KVASER_PCIEFD_SPACK_BOFF
    header1 := KVASER_PCIEFD_PACK_TYPE_STATUS <<< KVASER_PCIEFD_PACKET_TYPE_SHIFT
    timestamp := 0 }

/-- An error packet for channel 0 that reports bus-off. -/
def boff_error_packet : kvaser_pciefd_rx_packet :=
  { header0 := KVASER_PCIEFD_SPACK_BOFF
    header1 := KVASER_PCIEFD_PACK_TYPE_ERROR <<< KVASER_PCIEFD_PACKET_TYPE_SHIFT
    timestamp := 0 }

/-- A one-channel device whose channel is on the bus in ERROR_ACTIVE;
`alloc` tells whether skb allocations succeed. -/
def active_pcie (alloc : Bool) : kvaser_pciefd :=
  { quiet_pcie with
    can := fun _ =>
      { attached_can 8 with state := can_state.ERROR_ACTIVE, alloc_ok := fun _ => alloc } }

/-- An ACK packet for channel 0 and echo slot 0 with the no-ack and the
lost-arbitration flags. -/
def nack_abl_ack : kvaser_pciefd_rx_packet :=
  { header0 := KVASER_PCIEFD_APACKET_NACK ||| KVASER_PCIEFD_APACKET_ABL
    header1 := KVASER_PCIEFD_PACK_TYPE_ACK <<< 28
    timestamp := 160 }

/-- An error packet for channel 0 without flags and with both error counters
0. -/
def plain_error_packet : kvaser_pciefd_rx_packet :=
  { header0 := 0
    header1 := KVASER_PCIEFD_PACK_TYPE_ERROR <<< KVASER_PCIEFD_PACKET_TYPE_SHIFT
    timestamp := 0 }

/-- A one-channel device whose channel is on the bus in ERROR_ACTIVE with
error reporting enabled (mode register: EEN and EPEN) and `cnt` error packets
counted since the last poll. -/
def reporting_pcie (cnt : Int) : kvaser_pciefd :=
  { quiet_pcie with
    can := fun _ =>
      { attached_can 8 with
        state := can_state.ERROR_ACTIVE
        err_rep_cnt := cnt
        reg_mode := KVASER_PCIEFD_KCAN_MODE_EEN ||| KVASER_PCIEFD_KCAN_MODE_EPEN } }

/-- An ACK packet for channel 0 without flags whose sequence byte names the
echo index 200. -/
def stray_ack : kvaser_pciefd_rx_packet :=
  { header0 := 200, header1 := KVASER_PCIEFD_PACK_TYPE_ACK <<< 28, timestamp := 160 }

/-- A one-channel device with 7 echo slots, all empty, where the memory that
lies after the slot array happens to hold a buffer pointer at index 200. -/
def stray_pcie : kvaser_pciefd :=
  { attached_pcie 1 8 (fun _ _ => 0) with
    can := fun _ =>
      { attached_can 8 with echo_skb := fun i => if i = 200 then some sample_skb else none } }

/-- A packet of type ACK that names channel 3. -/
def channel3_ack : kvaser_pciefd_rx_packet :=
  { header0 := 0
    header1 := (KVASER_PCIEFD_PACK_TYPE_ACK <<< 28) ||| (3 <<< KVASER_PCIEFD_PACKET_CHID_SHIFT)
    timestamp := 0 }

/-- A classic remote (RTR) frame that asks for 4 bytes. -/
def rtr_skb : sk_buff :=
  { is_canfd := false
    cf := { can_id := 0x123 ||| CAN_RTR_FLAG, len := 4, flags := 0, data := [0, 0, 0, 0, 0, 0, 0, 0] }
    hwtstamp := 0 }

/-- A one-channel device whose channel 0 has the remote frame `rtr_skb` in
flight in echo slot 0. -/
def rtr_in_flight_pcie : kvaser_pciefd :=
  { attached_pcie 1 8 (fun _ _ => 0) with
    can := fun _ =>
      match kvaser_pciefd_start_xmit (attached_can 8) rtr_skb with
      | some r => r.2
      | none => attached_can 8 }

/-! ## Theorems -/

/-- C1: `kvaser_pciefd_packet_to_state` yields BUS_OFF exactly when the BOFF or
IRM flag of header word 0 is set or one of the counters is at least 255;
otherwise ERROR_PASSIVE exactly when EPLR is set or a counter is at least 128;
otherwise ERROR_WARNING exactly when EWLR is set or a counter is at least 96;
otherwise ERROR_ACTIVE.  This holds for all counter values (in particular for
0..255), and the three sample classifications of the specification follow:
(200, 10, no flags) is ERROR_PASSIVE, (0, 0, bus-off flag) is BUS_OFF and
(50, 50, no flags) is ERROR_ACTIVE. -/
theorem packet_to_state_classification (p : kvaser_pciefd_rx_packet) (bec : can_berr_counter) :
    ((kvaser_pciefd_packet_to_state p bec).1 = can_state.BUS_OFF ↔
        (p.header0 &&& KVASER_PCIEFD_SPACK_BOFF ≠ 0 ∨ p.header0 &&& KVASER_PCIEFD_SPACK_IRM ≠ 0 ∨
          bec.txerr ≥ 255 ∨ bec.rxerr ≥ 255)) ∧
    ((kvaser_pciefd_packet_to_state p bec).1 = can_state.ERROR_PASSIVE ↔
        (¬ (p.header0 &&& KVASER_PCIEFD_SPACK_BOFF ≠ 0 ∨ p.header0 &&& KVASER_PCIEFD_SPACK_IRM ≠ 0 ∨
          bec.txerr ≥ 255 ∨ bec.rxerr ≥ 255) ∧
         (p.header1 &&& KVASER_PCIEFD_SPACK_EPLR ≠ 0 ∨ bec.txerr ≥ 128 ∨ bec.rxerr ≥ 128))) ∧
    ((kvaser_pciefd_packet_to_state p bec).1 = can_state.ERROR_WARNING ↔
        (¬ (p.header0 &&& KVASER_PCIEFD_SPACK_BOFF ≠ 0 ∨ p.header0 &&& KVASER_PCIEFD_SPACK_IRM ≠ 0 ∨
          bec.txerr ≥ 255 ∨ bec.rxerr ≥ 255) ∧
         ¬ (p.header1 &&& KVASER_PCIEFD_SPACK_EPLR ≠ 0 ∨ bec.txerr ≥ 128 ∨ bec.rxerr ≥ 128) ∧
         (p.header1 &&& KVASER_PCIEFD_SPACK_EWLR ≠ 0 ∨ bec.txerr ≥ 96 ∨ bec.rxerr ≥ 96))) ∧
    ((kvaser_pciefd_packet_to_state p bec).1 = can_state.ERROR_ACTIVE ↔
        (¬ (p.header0 &&& KVASER_PCIEFD_SPACK_BOFF ≠ 0 ∨ p.header0 &&& KVASER_PCIEFD_SPACK_IRM ≠ 0 ∨
          bec.txerr ≥ 255 ∨ bec.rxerr ≥ 255) ∧
         ¬ (p.header1 &&& KVASER_PCIEFD_SPACK_EPLR ≠ 0 ∨ bec.txerr ≥ 128 ∨ bec.rxerr ≥ 128) ∧
         ¬ (p.header1 &&& KVASER_PCIEFD_SPACK_EWLR ≠ 0 ∨ bec.txerr ≥ 96 ∨ bec.rxerr ≥ 96))) ∧
    (kvaser_pciefd_packet_to_state ⟨200 ||| (10 <<< 8), 0, 0⟩ ⟨200, 10⟩).1
        = can_state.ERROR_PASSIVE ∧
    (kvaser_pciefd_packet_to_state ⟨KVASER_PCIEFD_SPACK_BOFF, 0, 0⟩ ⟨0, 0⟩).1
        = can_state.BUS_OFF ∧
    (kvaser_pciefd_packet_to_state ⟨50 ||| (50 <<< 8), 0, 0⟩ ⟨50, 50⟩).1
        = can_state.ERROR_ACTIVE := by
  refine ⟨?_, ?_, ?_, ?_, by decide, by decide, by decide⟩
  all_goals simp only [kvaser_pciefd_packet_to_state]
  all_goals split_ifs
  all_goals simp_all
  all_goals omega

/-- C2: when the size word at the cursor is 0, `kvaser_pciefd_read_packet`
returns 0 with the cursor set to 0; no handler runs, so the device state is the
old one with only the read of the size word recorded (every channel is
unchanged); the loop of `kvaser_pciefd_read_buffer` stops there and returns 0. -/
theorem read_packet_zero_size (pcie : kvaser_pciefd) (pos dma_buf fuel : Nat)
    (h : le32_to_cpu (pcie.dma_data dma_buf pos) = 0) :
    kvaser_pciefd_read_packet pcie pos dma_buf = (0, 0, dma_log pcie [pos]) ∧
    (dma_log pcie [pos]).can = pcie.can ∧
    kvaser_pciefd_read_buffer_loop (fuel + 1) pcie pos dma_buf = some (0, dma_log pcie [pos]) := by
  have h1 : kvaser_pciefd_read_packet pcie pos dma_buf = (0, 0, dma_log pcie [pos]) := by
    simp [kvaser_pciefd_read_packet, h, int_of_u32]
  refine ⟨h1, rfl, ?_⟩
  simp [kvaser_pciefd_read_buffer_loop, h1]

/-- Witness for C2: a device whose DMA buffer 0 is all zero, read at cursor 0. -/
theorem read_packet_zero_size_witness :
    le32_to_cpu ((attached_pcie 1 8 (fun _ _ => 0)).dma_data 0 0) = 0 ∧
    kvaser_pciefd_read_buffer_loop (819 + 1) (attached_pcie 1 8 (fun _ _ => 0)) 0 0
      = some (0, dma_log (attached_pcie 1 8 (fun _ _ => 0)) [0]) :=
  ⟨by decide, (read_packet_zero_size (attached_pcie 1 8 (fun _ _ => 0)) 0 0 819 (by decide)).2.2⟩

/-- The position the `switch` of `kvaser_pciefd_read_packet` reaches: the
payload start plus the payload words of the packet. -/
theorem read_packet_switch_pos (pcie : kvaser_pciefd) (p : kvaser_pciefd_rx_packet)
    (dma_buf pos : Nat) :
    (kvaser_pciefd_read_packet_switch pcie p dma_buf pos).2.1 = pos + payload_words p := by
  simp only [kvaser_pciefd_read_packet_switch, payload_words]
  split_ifs <;> simp_all

/-- The position `kvaser_pciefd_read_packet_body` reaches from `start_pos`: one
size word, two header words, two timestamp words and the payload words. -/
theorem read_packet_body_pos (pcie : kvaser_pciefd) (start_pos dma_buf : Nat) :
    (kvaser_pciefd_read_packet_body pcie start_pos dma_buf).2.1
      = start_pos + 5 + payload_words (kvaser_pciefd_packet_at pcie start_pos dma_buf) := by
  simp [kvaser_pciefd_read_packet_body, read_packet_switch_pos]

/-- C3: for a packet with a non-zero size word whose handler succeeds, the
position reached after parsing is `start + 5 + payload words`; if it differs
from `start + declared size`, `kvaser_pciefd_read_packet` returns `-EIO` and
leaves the cursor at `start`, and the loop of `kvaser_pciefd_read_buffer`
returns `-EIO` with the state that packet's handler left: no later packet is
processed. -/
theorem read_packet_framing_error (pcie : kvaser_pciefd) (start dma_buf fuel : Nat)
    (hsize : int_of_u32 (le32_to_cpu (pcie.dma_data dma_buf start)) ≠ 0)
    (hret : (kvaser_pciefd_read_packet_body (dma_log pcie [start]) start dma_buf).1 = 0)
    (hpos : int_add start (int_of_u32 (le32_to_cpu (pcie.dma_data dma_buf start))) ≠
      ((start + 5 + payload_words (kvaser_pciefd_packet_at pcie start dma_buf) : Nat) : Int)) :
    (kvaser_pciefd_read_packet_body (dma_log pcie [start]) start dma_buf).2.1
      = start + 5 + payload_words (kvaser_pciefd_packet_at pcie start dma_buf) ∧
    kvaser_pciefd_read_packet pcie start dma_buf
      = (- EIO, start, (kvaser_pciefd_read_packet_body (dma_log pcie [start]) start dma_buf).2.2) ∧
    kvaser_pciefd_read_buffer_loop (fuel + 1) pcie start dma_buf
      = some (- EIO, (kvaser_pciefd_read_packet_body (dma_log pcie [start]) start dma_buf).2.2) := by
  have hp : (kvaser_pciefd_read_packet_body (dma_log pcie [start]) start dma_buf).2.1
      = start + 5 + payload_words (kvaser_pciefd_packet_at pcie start dma_buf) :=
    read_packet_body_pos _ _ _
  have h1 : kvaser_pciefd_read_packet pcie start dma_buf
      = (- EIO, start, (kvaser_pciefd_read_packet_body (dma_log pcie [start]) start dma_buf).2.2) := by
    unfold kvaser_pciefd_read_packet
    simp only [hsize, hret, hp, if_false, ne_eq, not_true_eq_false]
    rw [if_pos hpos]
  refine ⟨hp, h1, ?_⟩
  simp [kvaser_pciefd_read_buffer_loop, h1, EIO]

/-- Witness for C3: a five-word control ACK that declares six words. -/
theorem read_packet_framing_error_witness :
    int_of_u32 (le32_to_cpu (misframed_pcie.dma_data 0 0)) ≠ 0 ∧
    (kvaser_pciefd_read_packet_body (dma_log misframed_pcie [0]) 0 0).1 = 0 ∧
    kvaser_pciefd_read_buffer_loop (819 + 1) misframed_pcie 0 0
      = some (- EIO, (kvaser_pciefd_read_packet_body (dma_log misframed_pcie [0]) 0 0).2.2) :=
  ⟨by decide, by decide,
    (read_packet_framing_error misframed_pcie 0 0 819 (by decide) (by decide) (by decide)).2.2⟩

/-- C4, as the code behaves on the claim's inputs: in both sample buffers the
first packet fails (invalid channel id, unknown packet type) and
`kvaser_pciefd_read_buffer` returns `-EIO` after reading only the five words of
that packet; the correctly framed data packet at word 5, which
`kvaser_pciefd_read_packet` would accept, is never processed (`rx_packets`
stays 0). -/
theorem read_buffer_not_isolated :
    (kvaser_pciefd_read_buffer bad_channel_pcie 0).map
        (fun r => (r.1, (r.2.can 0).stats.rx_packets, r.2.dma_reads))
      = some (- EIO, 0, [0, 1, 2, 3, 4]) ∧
    (kvaser_pciefd_read_buffer unknown_type_pcie 0).map
        (fun r => (r.1, (r.2.can 0).stats.rx_packets, r.2.dma_reads))
      = some (- EIO, 0, [0, 1, 2, 3, 4]) ∧
    (kvaser_pciefd_read_packet bad_channel_pcie 5 0).1 = 0 ∧
    (kvaser_pciefd_read_packet bad_channel_pcie 5 0).2.1 = 10 ∧
    ((kvaser_pciefd_read_packet bad_channel_pcie 5 0).2.2.can 0).stats.rx_packets = 1 := by
  decide

/-- A packet type without a `case` gives `-EIO` in the `switch`. -/
theorem read_packet_switch_unknown (pcie : kvaser_pciefd) (p : kvaser_pciefd_rx_packet)
    (dma_buf pos : Nat) (h : KVASER_PCIEFD_PACKET_TYPE p ∉ known_packet_types) :
    kvaser_pciefd_read_packet_switch pcie p dma_buf pos = (- EIO, pos, pcie) := by
  simp only [known_packet_types, List.mem_cons, List.mem_singleton, not_or, List.mem_nil_iff,
    or_false] at h
  simp [kvaser_pciefd_read_packet_switch, h]

/-- A packet of a handled type whose channel id is not below `nr_channels` gives
`-EIO` in the `switch` and leaves the device state as it is. -/
theorem read_packet_switch_bad_channel (pcie : kvaser_pciefd) (p : kvaser_pciefd_rx_packet)
    (dma_buf pos : Nat)
    (ht : KVASER_PCIEFD_PACKET_TYPE p ∈
      [KVASER_PCIEFD_PACK_TYPE_DATA, KVASER_PCIEFD_PACK_TYPE_ACK, KVASER_PCIEFD_PACK_TYPE_STATUS,
       KVASER_PCIEFD_PACK_TYPE_ERROR, KVASER_PCIEFD_PACK_TYPE_EFLUSH_ACK])
    (hc : KVASER_PCIEFD_PACKET_CHID p ≥ pcie.nr_channels) :
    (kvaser_pciefd_read_packet_switch pcie p dma_buf pos).1 = - EIO ∧
    (kvaser_pciefd_read_packet_switch pcie p dma_buf pos).2.2 = pcie := by
  simp only [List.mem_cons, List.mem_singleton, List.mem_nil_iff, or_false] at ht
  simp only [kvaser_pciefd_read_packet_switch, kvaser_pciefd_handle_data_packet,
    kvaser_pciefd_handle_ack_packet, kvaser_pciefd_handle_status_packet,
    kvaser_pciefd_handle_error_packet, kvaser_pciefd_handle_eflush_packet, if_pos hc]
  split_ifs <;> simp_all

/-- For a packet of an unknown type, or of a handled type with a channel id that
is not below `nr_channels`, the `switch` gives `-EIO` and changes nothing. -/
theorem read_packet_body_bad (pcie : kvaser_pciefd) (start dma_buf : Nat)
    (hbad : KVASER_PCIEFD_PACKET_TYPE (kvaser_pciefd_packet_at pcie start dma_buf)
        ∉ known_packet_types ∨
      (KVASER_PCIEFD_PACKET_TYPE (kvaser_pciefd_packet_at pcie start dma_buf) ∈
          [KVASER_PCIEFD_PACK_TYPE_DATA, KVASER_PCIEFD_PACK_TYPE_ACK,
           KVASER_PCIEFD_PACK_TYPE_STATUS, KVASER_PCIEFD_PACK_TYPE_ERROR,
           KVASER_PCIEFD_PACK_TYPE_EFLUSH_ACK] ∧
        KVASER_PCIEFD_PACKET_CHID (kvaser_pciefd_packet_at pcie start dma_buf)
          ≥ pcie.nr_channels)) :
    (kvaser_pciefd_read_packet_body (dma_log pcie [start]) start dma_buf).1 = - EIO ∧
    (kvaser_pciefd_read_packet_body (dma_log pcie [start]) start dma_buf).2.2
      = dma_log (dma_log pcie [start]) [start + 1, start + 2, start + 3, start + 4] := by
  rcases hbad with hu | ⟨ht, hc⟩
  · have h := read_packet_switch_unknown
      (dma_log (dma_log pcie [start]) [start + 1, start + 2, start + 3, start + 4])
      (kvaser_pciefd_packet_at pcie start dma_buf) dma_buf (start + 5) hu
    simp only [kvaser_pciefd_read_packet_body]
    exact ⟨congrArg Prod.fst h, congrArg (fun r => r.2.2) h⟩
  · exact read_packet_switch_bad_channel
      (dma_log (dma_log pcie [start]) [start + 1, start + 2, start + 3, start + 4])
      (kvaser_pciefd_packet_at pcie start dma_buf) dma_buf (start + 5) ht hc

/-- C4 (amended): a packet with a non-zero size word that is of an unknown type,
or is a data, ACK, status, error or flush-ACK packet whose channel id is not
below `nr_channels`, is not skipped: `kvaser_pciefd_read_packet` returns `-EIO`
for it and leaves the cursor and every channel unchanged (only the reads of its
five words are recorded), and the loop of `kvaser_pciefd_read_buffer` stops
there and returns `-EIO`, so no later packet of the buffer is processed. -/
theorem read_buffer_stops_on_bad_packet (pcie : kvaser_pciefd) (start dma_buf fuel : Nat)
    (hsize : int_of_u32 (le32_to_cpu (pcie.dma_data dma_buf start)) ≠ 0)
    (hbad : KVASER_PCIEFD_PACKET_TYPE (kvaser_pciefd_packet_at pcie start dma_buf)
        ∉ known_packet_types ∨
      (KVASER_PCIEFD_PACKET_TYPE (kvaser_pciefd_packet_at pcie start dma_buf) ∈
          [KVASER_PCIEFD_PACK_TYPE_DATA, KVASER_PCIEFD_PACK_TYPE_ACK,
           KVASER_PCIEFD_PACK_TYPE_STATUS, KVASER_PCIEFD_PACK_TYPE_ERROR,
           KVASER_PCIEFD_PACK_TYPE_EFLUSH_ACK] ∧
        KVASER_PCIEFD_PACKET_CHID (kvaser_pciefd_packet_at pcie start dma_buf)
          ≥ pcie.nr_channels)) :
    kvaser_pciefd_read_packet pcie start dma_buf
      = (- EIO, start,
         dma_log (dma_log pcie [start]) [start + 1, start + 2, start + 3, start + 4]) ∧
    (dma_log (dma_log pcie [start]) [start + 1, start + 2, start + 3, start + 4]).can = pcie.can ∧
    kvaser_pciefd_read_buffer_loop (fuel + 1) pcie start dma_buf
      = some (- EIO,
          dma_log (dma_log pcie [start]) [start + 1, start + 2, start + 3, start + 4]) := by
  obtain ⟨hr, hs⟩ := read_packet_body_bad pcie start dma_buf hbad
  have hne : (- EIO : Int) ≠ 0 := by decide
  have h1 : kvaser_pciefd_read_packet pcie start dma_buf
      = (- EIO, start,
         dma_log (dma_log pcie [start]) [start + 1, start + 2, start + 3, start + 4]) := by
    unfold kvaser_pciefd_read_packet
    simp only [hsize, if_false, hr, hs]
    rw [if_pos hne]
  refine ⟨h1, rfl, ?_⟩
  simp [kvaser_pciefd_read_buffer_loop, h1, hne]

/-- Witness for C4 (amended): the buffer that starts with a packet of type 7. -/
theorem read_buffer_stops_on_bad_packet_witness :
    int_of_u32 (le32_to_cpu (unknown_type_pcie.dma_data 0 0)) ≠ 0 ∧
    KVASER_PCIEFD_PACKET_TYPE (kvaser_pciefd_packet_at unknown_type_pcie 0 0) ∉ known_packet_types ∧
    kvaser_pciefd_read_buffer_loop (819 + 1) unknown_type_pcie 0 0
      = some (- EIO, dma_log (dma_log unknown_type_pcie [0]) [0 + 1, 0 + 2, 0 + 3, 0 + 4]) :=
  ⟨by decide, by decide,
    (read_buffer_stops_on_bad_packet unknown_type_pcie 0 0 819 (by decide)
      (Or.inl (by decide))).2.2⟩

set_option maxRecDepth 100000 in
/-- C5, at the failing input: on a 1024-word buffer filled with five-word
packets, `kvaser_pciefd_read_buffer` returns 0 after reading the word indices
1024 (second timestamp word of the packet at 1020) and 1025 (the next size
word), both outside the buffer. -/
theorem read_buffer_overrun :
    (kvaser_pciefd_read_buffer overrun_pcie 0).map
        (fun r => (r.1, r.2.dma_reads.drop 1020))
      = some (0, [1020, 1021, 1022, 1023, 1024, 1025]) := by
  decide

/-- The sequence counter after a list of commands. -/
theorem send_kcan_cmds_cmd_seq (cmds : List Nat) (can : kvaser_pciefd_can) :
    (send_kcan_cmds can cmds).cmd_seq = (can.cmd_seq + cmds.length) % 256 ∨
      (cmds = [] ∧ (send_kcan_cmds can cmds).cmd_seq = can.cmd_seq) := by
  induction cmds generalizing can with
  | nil => right; exact ⟨rfl, rfl⟩
  | cons c cs ih =>
    left
    have h := ih (kvaser_pciefd_send_kcan_cmd can c)
    have hstep : (kvaser_pciefd_send_kcan_cmd can c).cmd_seq = (can.cmd_seq + 1) % 256 := rfl
    simp only [send_kcan_cmds, List.foldl_cons, List.length_cons] at h ⊢
    rcases h with h | ⟨hnil, h⟩
    · rw [h, hstep]; omega
    · rw [h, hstep, hnil]; simp

/-- The sequence number read back from a command word built from one of the two
opcodes and an 8-bit sequence number. -/
theorem cmd_word_seq_or (cmd seq : Nat) (hcmd : cmd < 2 ^ 16) (hseq : seq < 256) :
    cmd_word_seq (cmd ||| (seq <<< KVASER_PCIEFD_KCAN_CMD_SEQ_SHIFT)) = seq := by
  simp only [cmd_word_seq, KVASER_PCIEFD_KCAN_CMD_SEQ_SHIFT, KVASER_PCIEFD_PACKET_SEQ_MASK]
  rw [Nat.or_comm, Nat.shiftLeft_eq, Nat.mul_comm, ← Nat.mul_add_lt_is_or hcmd,
    Nat.shiftRight_eq_div_pow]
  have hdiv : (2 ^ 16 * seq + cmd) / 2 ^ 16 = seq := by
    norm_num at hcmd ⊢
    omega
  have hmask : (0xff : Nat) = 2 ^ 8 - 1 := by norm_num
  rw [hdiv, hmask, Nat.and_pow_two_sub_one_eq_mod]
  exact Nat.mod_eq_of_lt (by norm_num; exact hseq)

/-- C6: `kvaser_pciefd_send_kcan_cmd` sets `cmd_seq` to `(cmd_seq + 1) mod 256`
and writes the word `cmd | (new cmd_seq << 16)` to the CMD register, for
RequestStatus (`kvaser_pciefd_request_status`) and AbortFlushReset
(`kvaser_pciefd_kcan_abort_flush_reset`) alike; hence after `N >= 1` commands on
a channel that starts with `cmd_seq = 0`, the counter is `N mod 256` and the
last word written (the `N`-th command) carries the sequence number `N mod 256`. -/
theorem send_kcan_cmd_sequence (can fresh : kvaser_pciefd_can) (cmd : Nat) (cmds : List Nat)
    (hfresh : fresh.cmd_seq = 0) (hne : cmds ≠ [])
    (hcmds : ∀ c ∈ cmds, c = KVASER_PCIEFD_KCAN_CMD_SRQ ∨ c = KVASER_PCIEFD_KCAN_CMD_AT) :
    (kvaser_pciefd_send_kcan_cmd can cmd).cmd_seq = (can.cmd_seq + 1) % 256 ∧
    (kvaser_pciefd_send_kcan_cmd can cmd).reg_cmd
      = can.reg_cmd ++ [cmd ||| (((can.cmd_seq + 1) % 256) <<< 16)] ∧
    kvaser_pciefd_request_status can
      = kvaser_pciefd_send_kcan_cmd can KVASER_PCIEFD_KCAN_CMD_SRQ ∧
    kvaser_pciefd_kcan_abort_flush_reset can
      = kvaser_pciefd_send_kcan_cmd can KVASER_PCIEFD_KCAN_CMD_AT ∧
    (send_kcan_cmds fresh cmds).cmd_seq = cmds.length % 256 ∧
    ∃ w, (send_kcan_cmds fresh cmds).reg_cmd.getLast? = some w ∧
      cmd_word_seq w = cmds.length % 256 := by
  refine ⟨rfl, rfl, rfl, rfl, ?_, ?_⟩
  · rcases send_kcan_cmds_cmd_seq cmds fresh with h | ⟨h, _⟩
    · rw [h, hfresh, Nat.zero_add]
    · exact absurd h hne
  · rcases List.eq_nil_or_concat cmds with h | ⟨init, c, h⟩
    · exact absurd h hne
    · subst h
      have hc := hcmds c (by simp)
      have hlt : c < 2 ^ 16 := by
        rcases hc with hc | hc <;> subst hc <;> decide
      refine ⟨c ||| ((((send_kcan_cmds fresh init).cmd_seq + 1) % 256) <<< 16), ?_, ?_⟩
      · simp [send_kcan_cmds, List.foldl_append, kvaser_pciefd_send_kcan_cmd,
          KVASER_PCIEFD_KCAN_CMD_SEQ_SHIFT]
      · have h16 : (16 : Nat) = KVASER_PCIEFD_KCAN_CMD_SEQ_SHIFT := rfl
        rw [h16, cmd_word_seq_or _ _ hlt (Nat.mod_lt _ (by norm_num))]
        rcases send_kcan_cmds_cmd_seq init fresh with h | ⟨h, h2⟩
        · rw [h, hfresh]; simp only [List.length_concat]; omega
        · rw [h2, hfresh, h]; rfl

/-- Witness for C6: three commands on a freshly attached channel. -/
theorem send_kcan_cmd_sequence_witness :
    (attached_can 8).cmd_seq = 0 ∧
    (send_kcan_cmds (attached_can 8)
      [KVASER_PCIEFD_KCAN_CMD_AT, KVASER_PCIEFD_KCAN_CMD_SRQ, KVASER_PCIEFD_KCAN_CMD_SRQ]).cmd_seq
      = 3 % 256 :=
  ⟨by decide,
    (send_kcan_cmd_sequence (attached_can 8) (attached_can 8) KVASER_PCIEFD_KCAN_CMD_SRQ
      [KVASER_PCIEFD_KCAN_CMD_AT, KVASER_PCIEFD_KCAN_CMD_SRQ, KVASER_PCIEFD_KCAN_CMD_SRQ]
      (by decide) (by decide) (by decide)).2.2.2.2.1⟩

/-- C7, as the code behaves on the claim's input: on a channel with K = 2 echo
slots and an empty ring, after two submissions without acknowledgement (both
slots occupied, ring pointer 0, queue stopped, hardware count 2) a third call of
`kvaser_pciefd_start_xmit` is not refused: it returns `NETDEV_TX_OK`, moves the
ring pointer from 0 to 1 and writes the frame to the FIFO (two header words and
one more FIFO_LAST word). -/
theorem start_xmit_never_refuses :
    (attached_can 3).echo_skb_max = 2 ∧
    (start_xmit_all (attached_can 3) [(sample_skb, 1), (sample_skb, 2)]).map
        (fun full => (full.queue_stopped, (full.echo_skb 0).isSome, (full.echo_skb 1).isSome,
          full.echo_idx, full.reg_fifo.length, full.reg_fifo_last.length))
      = some (true, true, true, 0, 4, 2) ∧
    (start_xmit_all (attached_can 3) [(sample_skb, 1), (sample_skb, 2)]).bind
        (fun full =>
          (kvaser_pciefd_start_xmit { full with reg_tx_nr_packets := 2 } sample_skb).map
            (fun r => (r.1, r.2.echo_idx, r.2.reg_fifo.length, r.2.reg_fifo_last.length)))
      = some (netdev_tx_t.NETDEV_TX_OK, 1, 6, 3) := by
  decide

/-- A submission that is not dropped leaves the channel as it is in
`can_dev_dropped_skb`. -/
theorem can_dev_dropped_skb_false (can : kvaser_pciefd_can) (skb : sk_buff)
    (h : (can_dev_dropped_skb can skb).1 = false) : can_dev_dropped_skb can skb = (false, can) := by
  simp only [can_dev_dropped_skb, can_dropped_invalid_skb] at h ⊢
  split_ifs at h ⊢ <;> simp_all

/-- Whether a submission is dropped depends on the channel only through
`ctrlmode`. -/
theorem can_dev_dropped_skb_congr (can can2 : kvaser_pciefd_can) (skb : sk_buff)
    (h : can2.ctrlmode = can.ctrlmode) :
    (can_dev_dropped_skb can2 skb).1 = (can_dev_dropped_skb can skb).1 := by
  simp only [can_dev_dropped_skb, can_dropped_invalid_skb, h]
  split_ifs <;> rfl

/-- One call of `kvaser_pciefd_start_xmit` that is not dropped, on a channel with
at least one echo slot and the ring pointer inside the ring. -/
theorem start_xmit_step (can : kvaser_pciefd_can) (skb : sk_buff)
    (hK : 0 < can.echo_skb_max) (hidx : can.echo_idx < can.echo_skb_max)
    (hacc : (can_dev_dropped_skb can skb).1 = false) :
    ∃ r, kvaser_pciefd_start_xmit can skb = some (netdev_tx_t.NETDEV_TX_OK, r) ∧
      r.echo_skb_max = can.echo_skb_max ∧ r.ctrlmode = can.ctrlmode ∧
      r.echo_idx = (can.echo_idx + 1) % can.echo_skb_max ∧
      r.echo_skb = (if can.echo_skb can.echo_idx = none then
          Function.update can.echo_skb can.echo_idx (some skb) else can.echo_skb) ∧
      r.queue_stopped = (can.queue_stopped ||
        decide (KVASER_PCIEFD_KCAN_TX_NR_PACKETS_CURRENT_GET can ≥ can.echo_skb_max ∨
          (r.echo_skb r.echo_idx).isSome = true)) := by
  have hd := can_dev_dropped_skb_false can skb hacc
  have hK2 : can.echo_skb_max ≠ 0 := by omega
  have hidx2 : ¬ can.echo_idx ≥ can.echo_skb_max := by omega
  cases hslot : can.echo_skb can.echo_idx with
  | none =>
    simp only [kvaser_pciefd_start_xmit, hd, can_put_echo_skb, hidx2, hslot, if_false, hK2]
    split_ifs <;> refine ⟨_, rfl, ?_⟩ <;>
      simp_all [netif_stop_queue, KVASER_PCIEFD_KCAN_TX_NR_PACKETS_CURRENT_GET]
  | some old =>
    simp only [kvaser_pciefd_start_xmit, hd, can_put_echo_skb, hidx2, hslot, if_false, hK2]
    split_ifs <;> refine ⟨_, rfl, ?_⟩ <;>
      simp_all [netif_stop_queue, KVASER_PCIEFD_KCAN_TX_NR_PACKETS_CURRENT_GET]

/-- The fields `kvaser_pciefd_handle_nack_packet` leaves alone: the echo ring,
the queue state, the registers, the bus state and error counters, the command
sequence and the transmit counters. -/
theorem handle_nack_packet_frame (pcie : kvaser_pciefd) (can : kvaser_pciefd_can)
    (p : kvaser_pciefd_rx_packet) :
    (kvaser_pciefd_handle_nack_packet pcie can p).echo_skb = can.echo_skb ∧
    (kvaser_pciefd_handle_nack_packet pcie can p).echo_skb_max = can.echo_skb_max ∧
    (kvaser_pciefd_handle_nack_packet pcie can p).echo_idx = can.echo_idx ∧
    (kvaser_pciefd_handle_nack_packet pcie can p).queue_stopped = can.queue_stopped ∧
    (kvaser_pciefd_handle_nack_packet pcie can p).reg_tx_nr_packets = can.reg_tx_nr_packets ∧
    (kvaser_pciefd_handle_nack_packet pcie can p).ctrlmode = can.ctrlmode ∧
    (kvaser_pciefd_handle_nack_packet pcie can p).stats.tx_packets = can.stats.tx_packets ∧
    (kvaser_pciefd_handle_nack_packet pcie can p).stats.tx_bytes = can.stats.tx_bytes ∧
    (kvaser_pciefd_handle_nack_packet pcie can p).state = can.state ∧
    (kvaser_pciefd_handle_nack_packet pcie can p).bec = can.bec ∧
    (kvaser_pciefd_handle_nack_packet pcie can p).cmd_seq = can.cmd_seq := by
  simp only [kvaser_pciefd_handle_nack_packet, alloc_can_err_skb, alloc_skb, netif_rx]
  split_ifs <;> simp

/-- The effect of `can_get_echo_skb` on the fields the transmit path uses. -/
theorem can_get_echo_skb_frame (can : kvaser_pciefd_can) (idx : Nat) :
    (can_get_echo_skb can idx).2.echo_skb_max = can.echo_skb_max ∧
    (can_get_echo_skb can idx).2.echo_idx = can.echo_idx ∧
    (can_get_echo_skb can idx).2.queue_stopped = can.queue_stopped ∧
    (can_get_echo_skb can idx).2.reg_tx_nr_packets = can.reg_tx_nr_packets ∧
    (can_get_echo_skb can idx).2.ctrlmode = can.ctrlmode ∧
    (can_get_echo_skb can idx).2.stats = can.stats ∧
    (can_get_echo_skb can idx).2.state = can.state ∧
    (can_get_echo_skb can idx).2.bec = can.bec ∧
    (can_get_echo_skb can idx).2.cmd_seq = can.cmd_seq ∧
    (∀ i, i < can.echo_skb_max →
      (can_get_echo_skb can idx).2.echo_skb i = if i = idx then none else can.echo_skb i) := by
  simp only [can_get_echo_skb, netif_rx]
  by_cases h : idx ≥ can.echo_skb_max
  · simp only [h, if_true, true_and]
    intro i hi
    have : i ≠ idx := by omega
    simp [this]
  · simp only [h, if_false]
    cases hs : can.echo_skb idx with
    | none =>
      simp only [true_and]
      intro i _
      by_cases hi : i = idx
      · simp [hi, hs]
      · simp [hi]
    | some skb =>
      cases can.rx_ok can.rx_cnt <;>
        · simp only [Bool.false_eq_true, if_false, if_true, true_and]
          intro i _
          by_cases hi : i = idx
          · subst hi; simp
          · simp [hi, Function.update_noteq hi]

/-- The length `can_get_echo_skb` reports does not depend on the hardware
timestamp of the skb in the slot. -/
theorem can_get_echo_skb_len_stamp (pcie : kvaser_pciefd) (can : kvaser_pciefd_can) (idx ts : Nat)
    (skb : sk_buff) (hs : can.echo_skb idx = some skb) :
    (can_get_echo_skb
      { can with
        echo_skb := Function.update can.echo_skb idx
          (some (kvaser_pciefd_set_skb_timestamp pcie skb ts)) } idx).1
      = (can_get_echo_skb can idx).1 := by
  simp only [can_get_echo_skb]
  split_ifs
  · rfl
  · simp [hs, can_skb_get_data_len, kvaser_pciefd_set_skb_timestamp]

/-- The effect of the release block of `kvaser_pciefd_handle_ack_packet` on a
channel. -/
theorem handle_ack_packet_echo_spec (pcie : kvaser_pciefd) (can : kvaser_pciefd_can)
    (p : kvaser_pciefd_rx_packet) (osf : Bool) :
    (kvaser_pciefd_handle_ack_packet_echo pcie can p osf).echo_skb_max = can.echo_skb_max ∧
    (kvaser_pciefd_handle_ack_packet_echo pcie can p osf).echo_idx = can.echo_idx ∧
    (kvaser_pciefd_handle_ack_packet_echo pcie can p osf).ctrlmode = can.ctrlmode ∧
    (kvaser_pciefd_handle_ack_packet_echo pcie can p osf).state = can.state ∧
    (kvaser_pciefd_handle_ack_packet_echo pcie can p osf).bec = can.bec ∧
    (kvaser_pciefd_handle_ack_packet_echo pcie can p osf).cmd_seq = can.cmd_seq ∧
    (∀ i, i < can.echo_skb_max →
      (kvaser_pciefd_handle_ack_packet_echo pcie can p osf).echo_skb i
        = if i = p.header0 &&& KVASER_PCIEFD_PACKET_SEQ_MASK then none else can.echo_skb i) ∧
    (kvaser_pciefd_handle_ack_packet_echo pcie can p osf).queue_stopped
      = (can.queue_stopped &&
          !decide (KVASER_PCIEFD_KCAN_TX_NR_PACKETS_CURRENT_GET can < can.echo_skb_max)) ∧
    (kvaser_pciefd_handle_ack_packet_echo pcie can p osf).stats.tx_packets
      = can.stats.tx_packets + (if osf = false then 1 else 0) ∧
    (kvaser_pciefd_handle_ack_packet_echo pcie can p osf).stats.tx_bytes
      = can.stats.tx_bytes + (if osf = false then
          (can_get_echo_skb can (p.header0 &&& KVASER_PCIEFD_PACKET_SEQ_MASK)).1 else 0) := by
  cases hs : can.echo_skb (p.header0 &&& KVASER_PCIEFD_PACKET_SEQ_MASK) with
  | none =>
    obtain ⟨h1, h2, h3, h4, h5, h6, h7, h8, h9, h10⟩ :=
      can_get_echo_skb_frame can (p.header0 &&& KVASER_PCIEFD_PACKET_SEQ_MASK)
    simp only [kvaser_pciefd_handle_ack_packet_echo, hs, netif_wake_queue,
      KVASER_PCIEFD_KCAN_TX_NR_PACKETS_CURRENT_GET] at *
    rcases Bool.eq_false_or_eq_true can.queue_stopped with hq | hq <;>
      split_ifs <;> simp_all
  | some skb =>
    have hl := can_get_echo_skb_len_stamp pcie can _ p.timestamp skb hs
    obtain ⟨h1, h2, h3, h4, h5, h6, h7, h8, h9, h10⟩ :=
      can_get_echo_skb_frame
        { can with
          echo_skb := Function.update can.echo_skb (p.header0 &&& KVASER_PCIEFD_PACKET_SEQ_MASK)
            (some (kvaser_pciefd_set_skb_timestamp pcie skb p.timestamp)) }
        (p.header0 &&& KVASER_PCIEFD_PACKET_SEQ_MASK)
    simp only [kvaser_pciefd_handle_ack_packet_echo, hs, netif_wake_queue,
      KVASER_PCIEFD_KCAN_TX_NR_PACKETS_CURRENT_GET] at *
    rcases Bool.eq_false_or_eq_true can.queue_stopped with hq | hq <;>
      split_ifs <;> simp_all [Function.update_apply]

/-- The counters, the ring and the queue after `kvaser_pciefd_handle_ack_packet`
on a valid channel, in terms of the value `can_get_echo_skb` returns for the
slot the low byte of header word 0 names. -/
theorem handle_ack_packet_effect (pcie : kvaser_pciefd) (p : kvaser_pciefd_rx_packet)
    (hch : KVASER_PCIEFD_PACKET_CHID p < pcie.nr_channels) :
    (kvaser_pciefd_handle_ack_packet pcie p).1 = 0 ∧
    (((kvaser_pciefd_handle_ack_packet pcie p).2.can (KVASER_PCIEFD_PACKET_CHID p)).stats.tx_packets
        = (pcie.can (KVASER_PCIEFD_PACKET_CHID p)).stats.tx_packets + 1 ↔
      (p.header0 &&& KVASER_PCIEFD_APACKET_CT = 0 ∧ p.header0 &&& KVASER_PCIEFD_APACKET_FLU = 0 ∧
        p.header0 &&& KVASER_PCIEFD_APACKET_NACK = 0)) ∧
    ((kvaser_pciefd_handle_ack_packet pcie p).2.can (KVASER_PCIEFD_PACKET_CHID p)).stats.tx_packets
      = (pcie.can (KVASER_PCIEFD_PACKET_CHID p)).stats.tx_packets
        + (if p.header0 &&& KVASER_PCIEFD_APACKET_CT = 0 ∧
              p.header0 &&& KVASER_PCIEFD_APACKET_FLU = 0 ∧
              p.header0 &&& KVASER_PCIEFD_APACKET_NACK = 0 then 1 else 0) ∧
    ((kvaser_pciefd_handle_ack_packet pcie p).2.can (KVASER_PCIEFD_PACKET_CHID p)).stats.tx_bytes
      = (pcie.can (KVASER_PCIEFD_PACKET_CHID p)).stats.tx_bytes
        + (if p.header0 &&& KVASER_PCIEFD_APACKET_CT = 0 ∧
              p.header0 &&& KVASER_PCIEFD_APACKET_FLU = 0 ∧
              p.header0 &&& KVASER_PCIEFD_APACKET_NACK = 0 then
            (can_get_echo_skb (pcie.can (KVASER_PCIEFD_PACKET_CHID p))
              (p.header0 &&& KVASER_PCIEFD_PACKET_SEQ_MASK)).1
           else 0) ∧
    (p.header0 &&& KVASER_PCIEFD_APACKET_CT = 0 → p.header0 &&& KVASER_PCIEFD_APACKET_FLU = 0 →
      (∀ i, i < (pcie.can (KVASER_PCIEFD_PACKET_CHID p)).echo_skb_max →
        ((kvaser_pciefd_handle_ack_packet pcie p).2.can (KVASER_PCIEFD_PACKET_CHID p)).echo_skb i
          = if i = p.header0 &&& KVASER_PCIEFD_PACKET_SEQ_MASK then none
            else (pcie.can (KVASER_PCIEFD_PACKET_CHID p)).echo_skb i) ∧
      ((kvaser_pciefd_handle_ack_packet pcie p).2.can (KVASER_PCIEFD_PACKET_CHID p)).queue_stopped
        = ((pcie.can (KVASER_PCIEFD_PACKET_CHID p)).queue_stopped &&
            !decide (KVASER_PCIEFD_KCAN_TX_NR_PACKETS_CURRENT_GET
                (pcie.can (KVASER_PCIEFD_PACKET_CHID p))
              < (pcie.can (KVASER_PCIEFD_PACKET_CHID p)).echo_skb_max))) := by
  have hch2 : ¬ KVASER_PCIEFD_PACKET_CHID p ≥ pcie.nr_channels := by omega
  by_cases hct : p.header0 &&& KVASER_PCIEFD_APACKET_CT = 0
  · obtain ⟨n1, n2, n3, n4, n5, n6, n7, n8, n9, n10, n11⟩ :=
      handle_nack_packet_frame pcie (pcie.can (KVASER_PCIEFD_PACKET_CHID p)) p
    by_cases hflu : p.header0 &&& KVASER_PCIEFD_APACKET_FLU = 0
    · by_cases hn : p.header0 &&& KVASER_PCIEFD_APACKET_NACK = 0
      · obtain ⟨e1, e2, e3, e4, e5, e6, e7, e8, e9, e10⟩ :=
          handle_ack_packet_echo_spec pcie (pcie.can (KVASER_PCIEFD_PACKET_CHID p)) p false
        simp only [kvaser_pciefd_handle_ack_packet, hch2, hct, hflu, hn, if_false, ne_eq,
          not_true_eq_false, Function.update_same, decide_False]
        simp_all
      · obtain ⟨e1, e2, e3, e4, e5, e6, e7, e8, e9, e10⟩ :=
          handle_ack_packet_echo_spec pcie
            (kvaser_pciefd_handle_nack_packet pcie (pcie.can (KVASER_PCIEFD_PACKET_CHID p)) p) p true
        simp only [kvaser_pciefd_handle_ack_packet, hch2, hct, hflu, hn, if_false, ne_eq,
          not_true_eq_false, not_false_eq_true, if_true, Function.update_same, decide_True]
        simp_all [KVASER_PCIEFD_KCAN_TX_NR_PACKETS_CURRENT_GET]
    · by_cases hn : p.header0 &&& KVASER_PCIEFD_APACKET_NACK = 0 <;>
        · simp only [kvaser_pciefd_handle_ack_packet, hch2, hct, hflu, hn, if_false, ne_eq,
            not_true_eq_false, not_false_eq_true, if_true, Function.update_same]
          simp_all
  · simp only [kvaser_pciefd_handle_ack_packet, hch2, hct, if_false, ne_eq,
      not_false_eq_true, if_true]
    simp_all

/-- The length `can_get_echo_skb` returns: for an occupied slot of the ring the
length field of the frame, 0 for a classic remote frame; 0 for an empty slot
and for an index outside the ring. -/
theorem can_get_echo_skb_len (can : kvaser_pciefd_can) (idx : Nat) :
    (∀ skb, idx < can.echo_skb_max → can.echo_skb idx = some skb →
      (can_get_echo_skb can idx).1
        = if skb.is_canfd = false ∧ skb.cf.can_id &&& CAN_RTR_FLAG ≠ 0 then 0 else skb.cf.len) ∧
    (idx ≥ can.echo_skb_max ∨ can.echo_skb idx = none → (can_get_echo_skb can idx).1 = 0) := by
  constructor
  · intro skb hidx hs
    have h : ¬ idx ≥ can.echo_skb_max := by omega
    simp only [can_get_echo_skb, h, if_false, hs, can_skb_get_data_len]
    rcases Bool.eq_false_or_eq_true skb.is_canfd with hf | hf <;> simp [hf]
  · intro h
    simp only [can_get_echo_skb]
    by_cases hk : idx ≥ can.echo_skb_max
    · simp [hk]
    · rcases h with h | h
      · exact absurd h hk
      · simp [hk, h]

/-- C9, as the code behaves on the claim's input: channel 0 has the classic
remote frame `rtr_skb`, whose length field is 4, in flight in echo slot 0; a
plain ACK (no CT, FLU or NACK flag) for that slot releases it and counts the
transmission, `tx_packets` goes from 0 to 1, but `tx_bytes` stays 0 and does
not grow by the length 4 of the echoed frame. -/
theorem ack_remote_frame_bytes :
    KVASER_PCIEFD_PACKET_CHID plain_ack < rtr_in_flight_pcie.nr_channels ∧
    plain_ack.header0 &&& KVASER_PCIEFD_APACKET_CT = 0 ∧
    plain_ack.header0 &&& KVASER_PCIEFD_APACKET_FLU = 0 ∧
    plain_ack.header0 &&& KVASER_PCIEFD_APACKET_NACK = 0 ∧
    plain_ack.header0 &&& KVASER_PCIEFD_PACKET_SEQ_MASK = 0 ∧
    (rtr_in_flight_pcie.can 0).echo_skb 0 = some rtr_skb ∧
    rtr_skb.cf.len = 4 ∧
    (rtr_in_flight_pcie.can 0).stats.tx_packets = 0 ∧
    (rtr_in_flight_pcie.can 0).stats.tx_bytes = 0 ∧
    (kvaser_pciefd_handle_ack_packet rtr_in_flight_pcie plain_ack).1 = 0 ∧
    ((kvaser_pciefd_handle_ack_packet rtr_in_flight_pcie plain_ack).2.can 0).echo_skb 0 = none ∧
    ((kvaser_pciefd_handle_ack_packet rtr_in_flight_pcie plain_ack).2.can 0).rx_queue.map
        (fun skb => (skb.cf.can_id, skb.cf.len)) = [(0x123 ||| CAN_RTR_FLAG, 4)] ∧
    ((kvaser_pciefd_handle_ack_packet rtr_in_flight_pcie plain_ack).2.can 0).stats.tx_packets = 1 ∧
    ((kvaser_pciefd_handle_ack_packet rtr_in_flight_pcie plain_ack).2.can 0).stats.tx_bytes = 0 := by
  refine ⟨by decide, by decide, by decide, by decide, by decide, by decide, by decide, by decide,
    by decide, by decide, by decide, by decide, by decide, by decide⟩

/-- C9 (amended): for an ACK packet on a valid channel,
`kvaser_pciefd_handle_ack_packet` returns 0 and increases `tx_packets` by 1
exactly when the packet has none of the CT, FLU and NACK flags; otherwise
`tx_packets` and `tx_bytes` are unchanged.  When it counts and the low byte of
header word 0 names an occupied slot of the ring, `tx_bytes` grows by the
length field of the frame in that slot, except that a classic remote frame
counts 0 bytes; for an empty slot, and for an index outside the ring,
`tx_bytes` is unchanged.  Without CT and FLU the ring slot the low byte names
is emptied and the other slots keep their content (for an index outside the
ring every slot keeps its content), and the queue is stopped afterwards
exactly when it was stopped before and the hardware count is not below
`echo_skb_max`: it is woken exactly when the count is below `echo_skb_max`
and the queue was stopped. -/
theorem handle_ack_packet_counts (pcie : kvaser_pciefd) (p : kvaser_pciefd_rx_packet)
    (hch : KVASER_PCIEFD_PACKET_CHID p < pcie.nr_channels) :
    (kvaser_pciefd_handle_ack_packet pcie p).1 = 0 ∧
    (((kvaser_pciefd_handle_ack_packet pcie p).2.can (KVASER_PCIEFD_PACKET_CHID p)).stats.tx_packets
        = (pcie.can (KVASER_PCIEFD_PACKET_CHID p)).stats.tx_packets + 1 ↔
      (p.header0 &&& KVASER_PCIEFD_APACKET_CT = 0 ∧ p.header0 &&& KVASER_PCIEFD_APACKET_FLU = 0 ∧
        p.header0 &&& KVASER_PCIEFD_APACKET_NACK = 0)) ∧
    (¬ (p.header0 &&& KVASER_PCIEFD_APACKET_CT = 0 ∧ p.header0 &&& KVASER_PCIEFD_APACKET_FLU = 0 ∧
        p.header0 &&& KVASER_PCIEFD_APACKET_NACK = 0) →
      ((kvaser_pciefd_handle_ack_packet pcie p).2.can (KVASER_PCIEFD_PACKET_CHID p)).stats.tx_packets
        = (pcie.can (KVASER_PCIEFD_PACKET_CHID p)).stats.tx_packets ∧
      ((kvaser_pciefd_handle_ack_packet pcie p).2.can (KVASER_PCIEFD_PACKET_CHID p)).stats.tx_bytes
        = (pcie.can (KVASER_PCIEFD_PACKET_CHID p)).stats.tx_bytes) ∧
    (p.header0 &&& KVASER_PCIEFD_APACKET_CT = 0 → p.header0 &&& KVASER_PCIEFD_APACKET_FLU = 0 →
      p.header0 &&& KVASER_PCIEFD_APACKET_NACK = 0 →
      (∀ skb : sk_buff,
        p.header0 &&& KVASER_PCIEFD_PACKET_SEQ_MASK
          < (pcie.can (KVASER_PCIEFD_PACKET_CHID p)).echo_skb_max →
        (pcie.can (KVASER_PCIEFD_PACKET_CHID p)).echo_skb
          (p.header0 &&& KVASER_PCIEFD_PACKET_SEQ_MASK) = some skb →
        ((kvaser_pciefd_handle_ack_packet pcie p).2.can
            (KVASER_PCIEFD_PACKET_CHID p)).stats.tx_bytes
          = (pcie.can (KVASER_PCIEFD_PACKET_CHID p)).stats.tx_bytes
            + (if skb.is_canfd = false ∧ skb.cf.can_id &&& CAN_RTR_FLAG ≠ 0 then 0
               else skb.cf.len)) ∧
      (p.header0 &&& KVASER_PCIEFD_PACKET_SEQ_MASK
          ≥ (pcie.can (KVASER_PCIEFD_PACKET_CHID p)).echo_skb_max ∨
        (pcie.can (KVASER_PCIEFD_PACKET_CHID p)).echo_skb
          (p.header0 &&& KVASER_PCIEFD_PACKET_SEQ_MASK) = none →
        ((kvaser_pciefd_handle_ack_packet pcie p).2.can
            (KVASER_PCIEFD_PACKET_CHID p)).stats.tx_bytes
          = (pcie.can (KVASER_PCIEFD_PACKET_CHID p)).stats.tx_bytes)) ∧
    (p.header0 &&& KVASER_PCIEFD_APACKET_CT = 0 → p.header0 &&& KVASER_PCIEFD_APACKET_FLU = 0 →
      (∀ i, i < (pcie.can (KVASER_PCIEFD_PACKET_CHID p)).echo_skb_max →
        ((kvaser_pciefd_handle_ack_packet pcie p).2.can (KVASER_PCIEFD_PACKET_CHID p)).echo_skb i
          = if i = p.header0 &&& KVASER_PCIEFD_PACKET_SEQ_MASK then none
            else (pcie.can (KVASER_PCIEFD_PACKET_CHID p)).echo_skb i) ∧
      (p.header0 &&& KVASER_PCIEFD_PACKET_SEQ_MASK
          ≥ (pcie.can (KVASER_PCIEFD_PACKET_CHID p)).echo_skb_max →
        ∀ i, i < (pcie.can (KVASER_PCIEFD_PACKET_CHID p)).echo_skb_max →
          ((kvaser_pciefd_handle_ack_packet pcie p).2.can (KVASER_PCIEFD_PACKET_CHID p)).echo_skb i
            = (pcie.can (KVASER_PCIEFD_PACKET_CHID p)).echo_skb i) ∧
      ((kvaser_pciefd_handle_ack_packet pcie p).2.can (KVASER_PCIEFD_PACKET_CHID p)).queue_stopped
        = ((pcie.can (KVASER_PCIEFD_PACKET_CHID p)).queue_stopped &&
            !decide (KVASER_PCIEFD_KCAN_TX_NR_PACKETS_CURRENT_GET
                (pcie.can (KVASER_PCIEFD_PACKET_CHID p))
              < (pcie.can (KVASER_PCIEFD_PACKET_CHID p)).echo_skb_max))) := by
  obtain ⟨a1, a2, a3, a4, a5⟩ := handle_ack_packet_effect pcie p hch
  obtain ⟨l1, l2⟩ := can_get_echo_skb_len (pcie.can (KVASER_PCIEFD_PACKET_CHID p))
    (p.header0 &&& KVASER_PCIEFD_PACKET_SEQ_MASK)
  refine ⟨a1, a2, ?_, ?_, ?_⟩
  · intro hn
    rw [a3, a4, if_neg hn, if_neg hn]
    exact ⟨rfl, rfl⟩
  · intro hct hflu hnack
    have hc : p.header0 &&& KVASER_PCIEFD_APACKET_CT = 0 ∧
        p.header0 &&& KVASER_PCIEFD_APACKET_FLU = 0 ∧
        p.header0 &&& KVASER_PCIEFD_APACKET_NACK = 0 := ⟨hct, hflu, hnack⟩
    constructor
    · intro skb hidx hs
      rw [a4, if_pos hc, l1 skb hidx hs]
    · intro h
      rw [a4, if_pos hc, l2 h]
      rfl
  · intro hct hflu
    obtain ⟨r1, r2⟩ := a5 hct hflu
    refine ⟨r1, ?_, r2⟩
    intro hk i hi
    rw [r1 i hi, if_neg (by omega)]

/-- Witness for C9 (amended): a plain ACK for the frame `sample_skb` (length
2) in flight in slot 0 of channel 0; `tx_packets` becomes 1 and `tx_bytes` 2. -/
theorem handle_ack_packet_counts_witness :
    KVASER_PCIEFD_PACKET_CHID plain_ack < in_flight_pcie.nr_channels ∧
    ((kvaser_pciefd_handle_ack_packet in_flight_pcie plain_ack).2.can
        (KVASER_PCIEFD_PACKET_CHID plain_ack)).stats.tx_packets
      = (in_flight_pcie.can (KVASER_PCIEFD_PACKET_CHID plain_ack)).stats.tx_packets + 1 ∧
    ((kvaser_pciefd_handle_ack_packet in_flight_pcie plain_ack).2.can
        (KVASER_PCIEFD_PACKET_CHID plain_ack)).stats.tx_bytes
      = (in_flight_pcie.can (KVASER_PCIEFD_PACKET_CHID plain_ack)).stats.tx_bytes
        + (if sample_skb.is_canfd = false ∧ sample_skb.cf.can_id &&& CAN_RTR_FLAG ≠ 0 then 0
           else sample_skb.cf.len) ∧
    ((kvaser_pciefd_handle_ack_packet in_flight_pcie plain_ack).2.can 0).stats.tx_packets = 1 ∧
    ((kvaser_pciefd_handle_ack_packet in_flight_pcie plain_ack).2.can 0).stats.tx_bytes = 2 :=
  ⟨by decide,
    (handle_ack_packet_counts in_flight_pcie plain_ack (by decide)).2.1.mpr (by decide),
    ((handle_ack_packet_counts in_flight_pcie plain_ack (by decide)).2.2.2.1
      (by decide) (by decide) (by decide)).1 sample_skb (by decide) (by decide),
    by decide, by decide⟩

/-- C10, as the code behaves on the claim's input: channel 0 has a frame in
flight in echo slot 0; after `kvaser_pciefd_handle_ack_packet` has handled an
ACK for channel 0 and slot 0 that carries the flush flag and not the control
flag, slot 0 is still occupied. -/
theorem flush_ack_keeps_slot :
    KVASER_PCIEFD_PACKET_CHID flushed_ack < in_flight_pcie.nr_channels ∧
    flushed_ack.header0 &&& KVASER_PCIEFD_APACKET_FLU ≠ 0 ∧
    flushed_ack.header0 &&& KVASER_PCIEFD_APACKET_CT = 0 ∧
    flushed_ack.header0 &&& KVASER_PCIEFD_PACKET_SEQ_MASK = 0 ∧
    ((in_flight_pcie.can 0).echo_skb 0).isSome = true ∧
    (kvaser_pciefd_handle_ack_packet in_flight_pcie flushed_ack).1 = 0 ∧
    (((kvaser_pciefd_handle_ack_packet in_flight_pcie flushed_ack).2.can 0).echo_skb 0).isSome
      = true := by
  decide

/-- C10 (amended): for an ACK packet on a valid channel that carries the flush
flag and not the control flag, `kvaser_pciefd_handle_ack_packet` returns 0 and
leaves the echo ring, the ring pointer and the queue state as they are, and does
not count the frame as transmitted (`tx_packets` and `tx_bytes` unchanged): the
slot named by the sequence number is not released by this handler. -/
theorem handle_ack_packet_flush (pcie : kvaser_pciefd) (p : kvaser_pciefd_rx_packet)
    (hch : KVASER_PCIEFD_PACKET_CHID p < pcie.nr_channels)
    (hct : p.header0 &&& KVASER_PCIEFD_APACKET_CT = 0)
    (hflu : p.header0 &&& KVASER_PCIEFD_APACKET_FLU ≠ 0) :
    (kvaser_pciefd_handle_ack_packet pcie p).1 = 0 ∧
    ((kvaser_pciefd_handle_ack_packet pcie p).2.can (KVASER_PCIEFD_PACKET_CHID p)).echo_skb
      = (pcie.can (KVASER_PCIEFD_PACKET_CHID p)).echo_skb ∧
    ((kvaser_pciefd_handle_ack_packet pcie p).2.can (KVASER_PCIEFD_PACKET_CHID p)).echo_idx
      = (pcie.can (KVASER_PCIEFD_PACKET_CHID p)).echo_idx ∧
    ((kvaser_pciefd_handle_ack_packet pcie p).2.can (KVASER_PCIEFD_PACKET_CHID p)).queue_stopped
      = (pcie.can (KVASER_PCIEFD_PACKET_CHID p)).queue_stopped ∧
    ((kvaser_pciefd_handle_ack_packet pcie p).2.can (KVASER_PCIEFD_PACKET_CHID p)).stats.tx_packets
      = (pcie.can (KVASER_PCIEFD_PACKET_CHID p)).stats.tx_packets ∧
    ((kvaser_pciefd_handle_ack_packet pcie p).2.can (KVASER_PCIEFD_PACKET_CHID p)).stats.tx_bytes
      = (pcie.can (KVASER_PCIEFD_PACKET_CHID p)).stats.tx_bytes := by
  have hch2 : ¬ KVASER_PCIEFD_PACKET_CHID p ≥ pcie.nr_channels := by omega
  obtain ⟨n1, n2, n3, n4, n5, n6, n7, n8, n9, n10, n11⟩ :=
    handle_nack_packet_frame pcie (pcie.can (KVASER_PCIEFD_PACKET_CHID p)) p
  by_cases hn : p.header0 &&& KVASER_PCIEFD_APACKET_NACK = 0 <;>
    · simp only [kvaser_pciefd_handle_ack_packet, hch2, hct, hflu, hn, if_false, ne_eq,
        not_true_eq_false, not_false_eq_true, if_true, Function.update_same]
      simp_all

/-- Witness for C10 (amended): the flush ACK for the frame in flight. -/
theorem handle_ack_packet_flush_witness :
    KVASER_PCIEFD_PACKET_CHID flushed_ack < in_flight_pcie.nr_channels ∧
    flushed_ack.header0 &&& KVASER_PCIEFD_APACKET_CT = 0 ∧
    flushed_ack.header0 &&& KVASER_PCIEFD_APACKET_FLU ≠ 0 ∧
    ((kvaser_pciefd_handle_ack_packet in_flight_pcie flushed_ack).2.can
        (KVASER_PCIEFD_PACKET_CHID flushed_ack)).echo_skb
      = (in_flight_pcie.can (KVASER_PCIEFD_PACKET_CHID flushed_ack)).echo_skb :=
  ⟨by decide, by decide, by decide,
    (handle_ack_packet_flush in_flight_pcie flushed_ack (by decide) (by decide) (by decide)).2.1⟩

/-- A run of submissions that are not dropped, on a channel with at least one
echo slot and the ring pointer inside the ring: the run completes, the ring
pointer advances by the number of frames modulo `echo_skb_max`, occupied slots
stay occupied, the slot each submission was aimed at is occupied afterwards, a
stopped queue stays stopped, and the queue is stopped when the slot at the
final ring pointer is occupied. -/
theorem start_xmit_all_spec (frames : List (sk_buff × Nat)) (can : kvaser_pciefd_can)
    (hK : 0 < can.echo_skb_max) (hidx : can.echo_idx < can.echo_skb_max)
    (hacc : ∀ f ∈ frames, (can_dev_dropped_skb can f.1).1 = false) :
    ∃ r, start_xmit_all can frames = some r ∧
      r.echo_skb_max = can.echo_skb_max ∧ r.ctrlmode = can.ctrlmode ∧
      r.echo_idx = (can.echo_idx + frames.length) % can.echo_skb_max ∧
      (∀ i, (can.echo_skb i).isSome = true → (r.echo_skb i).isSome = true) ∧
      (∀ t, t < frames.length →
        (r.echo_skb ((can.echo_idx + t) % can.echo_skb_max)).isSome = true) ∧
      (can.queue_stopped = true → r.queue_stopped = true) ∧
      (frames ≠ [] → (r.echo_skb r.echo_idx).isSome = true → r.queue_stopped = true) := by
  induction frames generalizing can with
  | nil =>
    refine ⟨can, rfl, rfl, rfl, ?_, fun i h => h, ?_, fun h => h, fun h => absurd rfl h⟩
    · simp [Nat.mod_eq_of_lt hidx]
    · intro t ht; simp at ht
  | cons f rest ih =>
    have hacc0 : (can_dev_dropped_skb { can with reg_tx_nr_packets := f.2 } f.1).1 = false := by
      have h := can_dev_dropped_skb_congr can { can with reg_tx_nr_packets := f.2 } f.1 rfl
      rw [h]
      exact hacc f (List.mem_cons_self _ _)
    obtain ⟨c1, hc1, hK1, hm1, hi1, hs1, hq1⟩ :=
      start_xmit_step { can with reg_tx_nr_packets := f.2 } f.1 hK hidx hacc0
    simp only at hK1 hm1 hi1 hs1 hq1
    have hidx1 : c1.echo_idx < c1.echo_skb_max := by
      rw [hi1, hK1]; exact Nat.mod_lt _ hK
    have hacc1 : ∀ g ∈ rest, (can_dev_dropped_skb c1 g.1).1 = false := by
      intro g hg
      rw [can_dev_dropped_skb_congr can c1 g.1 hm1]
      exact hacc g (List.mem_cons_of_mem _ hg)
    obtain ⟨r, hr, hrK, hrm, hri, hrmono, hrslots, hrq, hrlast⟩ :=
      ih c1 (by rw [hK1]; exact hK) hidx1 hacc1
    have hmono1 : ∀ i, (can.echo_skb i).isSome = true → (c1.echo_skb i).isSome = true := by
      intro i hi
      rw [hs1]
      split_ifs with h0
      · by_cases hii : i = can.echo_idx
        · subst hii; simp
        · rw [Function.update_noteq hii]; exact hi
      · exact hi
    have hslot1 : (c1.echo_skb can.echo_idx).isSome = true := by
      rw [hs1]
      split_ifs with h0
      · simp
      · cases h : can.echo_skb can.echo_idx with
        | none => exact absurd h h0
        | some v => rfl
    refine ⟨r, ?_, ?_, ?_, ?_, ?_, ?_, ?_, ?_⟩
    · simp only [start_xmit_all, hc1]; exact hr
    · rw [hrK, hK1]
    · rw [hrm, hm1]
    · rw [hri, hi1, hK1, List.length_cons, Nat.mod_add_mod]
      congr 1; omega
    · intro i hi; exact hrmono i (hmono1 i hi)
    · intro t ht
      cases t with
      | zero =>
        rw [Nat.add_zero, Nat.mod_eq_of_lt hidx]
        exact hrmono _ hslot1
      | succ t =>
        have := hrslots t (by simpa using ht)
        rw [hi1, hK1, Nat.mod_add_mod] at this
        rw [show can.echo_idx + (t + 1) = can.echo_idx + 1 + t by omega]
        exact this
    · intro hq
      apply hrq
      rw [hq1]; simp [hq]
    · intro _ hlast
      by_cases hrest : rest = []
      · subst hrest
        simp only [start_xmit_all, Option.some.injEq] at hr
        subst hr
        rw [hq1]
        simp [hlast]
      · exact hrlast hrest hlast

/-- The helper `can_put_echo_skb` keeps the number of echo slots. -/
theorem can_put_echo_skb_max (can : kvaser_pciefd_can) (skb : sk_buff) (idx : Nat) :
    (can_put_echo_skb can skb idx).echo_skb_max = can.echo_skb_max := by
  simp only [can_put_echo_skb]
  split_ifs
  · rfl
  · cases can.echo_skb idx <;> rfl

/-- On a channel with at least one echo slot `kvaser_pciefd_start_xmit` has one
result only, `NETDEV_TX_OK`. -/
theorem start_xmit_ok (can : kvaser_pciefd_can) (skb : sk_buff) (hK : 0 < can.echo_skb_max) :
    ∃ r, kvaser_pciefd_start_xmit can skb = some (netdev_tx_t.NETDEV_TX_OK, r) := by
  by_cases hd : (can_dev_dropped_skb can skb).1 = true
  · exact ⟨(can_dev_dropped_skb can skb).2, by simp [kvaser_pciefd_start_xmit, hd]⟩
  · have hd2 := can_dev_dropped_skb_false can skb (by simpa using hd)
    have hK2 : (can_put_echo_skb can skb can.echo_idx).echo_skb_max ≠ 0 := by
      rw [can_put_echo_skb_max]; omega
    simp only [kvaser_pciefd_start_xmit, hd2, Bool.false_eq_true, if_false, hK2]
    exact ⟨_, rfl⟩

/-- The effect of `kvaser_pciefd_handle_ack_packet` on the channel of an ACK
packet that has a valid channel id and neither the control nor the flush flag. -/
theorem handle_ack_packet_released (pcie : kvaser_pciefd) (p : kvaser_pciefd_rx_packet)
    (hch : KVASER_PCIEFD_PACKET_CHID p < pcie.nr_channels)
    (hct : p.header0 &&& KVASER_PCIEFD_APACKET_CT = 0)
    (hflu : p.header0 &&& KVASER_PCIEFD_APACKET_FLU = 0) :
    ((kvaser_pciefd_handle_ack_packet pcie p).2.can (KVASER_PCIEFD_PACKET_CHID p)).echo_skb_max
      = (pcie.can (KVASER_PCIEFD_PACKET_CHID p)).echo_skb_max ∧
    ((kvaser_pciefd_handle_ack_packet pcie p).2.can (KVASER_PCIEFD_PACKET_CHID p)).echo_idx
      = (pcie.can (KVASER_PCIEFD_PACKET_CHID p)).echo_idx ∧
    ((kvaser_pciefd_handle_ack_packet pcie p).2.can (KVASER_PCIEFD_PACKET_CHID p)).ctrlmode
      = (pcie.can (KVASER_PCIEFD_PACKET_CHID p)).ctrlmode ∧
    (∀ i, i < (pcie.can (KVASER_PCIEFD_PACKET_CHID p)).echo_skb_max →
      ((kvaser_pciefd_handle_ack_packet pcie p).2.can (KVASER_PCIEFD_PACKET_CHID p)).echo_skb i
        = if i = p.header0 &&& KVASER_PCIEFD_PACKET_SEQ_MASK then none
          else (pcie.can (KVASER_PCIEFD_PACKET_CHID p)).echo_skb i) ∧
    ((kvaser_pciefd_handle_ack_packet pcie p).2.can (KVASER_PCIEFD_PACKET_CHID p)).queue_stopped
      = ((pcie.can (KVASER_PCIEFD_PACKET_CHID p)).queue_stopped &&
          !decide (KVASER_PCIEFD_KCAN_TX_NR_PACKETS_CURRENT_GET (pcie.can (KVASER_PCIEFD_PACKET_CHID p))
            < (pcie.can (KVASER_PCIEFD_PACKET_CHID p)).echo_skb_max)) := by
  have hch2 : ¬ KVASER_PCIEFD_PACKET_CHID p ≥ pcie.nr_channels := by omega
  obtain ⟨n1, n2, n3, n4, n5, n6, n7, n8, n9, n10, n11⟩ :=
    handle_nack_packet_frame pcie (pcie.can (KVASER_PCIEFD_PACKET_CHID p)) p
  by_cases hn : p.header0 &&& KVASER_PCIEFD_APACKET_NACK = 0
  · obtain ⟨e1, e2, e3, e4, e5, e6, e7, e8, e9, e10⟩ :=
      handle_ack_packet_echo_spec pcie (pcie.can (KVASER_PCIEFD_PACKET_CHID p)) p false
    simp only [kvaser_pciefd_handle_ack_packet, hch2, hct, hflu, hn, if_false, ne_eq,
      not_true_eq_false, Function.update_same, decide_False]
    simp_all
  · obtain ⟨e1, e2, e3, e4, e5, e6, e7, e8, e9, e10⟩ :=
      handle_ack_packet_echo_spec pcie
        (kvaser_pciefd_handle_nack_packet pcie (pcie.can (KVASER_PCIEFD_PACKET_CHID p)) p) p true
    simp only [kvaser_pciefd_handle_ack_packet, hch2, hct, hflu, hn, if_false, ne_eq,
      not_true_eq_false, not_false_eq_true, if_true, Function.update_same, decide_True]
    simp_all [KVASER_PCIEFD_KCAN_TX_NR_PACKETS_CURRENT_GET]

/-- After as many submissions as there are echo slots, every slot is occupied,
the ring pointer is back where it started and the queue is stopped. -/
theorem start_xmit_all_full (frames : List (sk_buff × Nat)) (can : kvaser_pciefd_can)
    (hK : 0 < can.echo_skb_max) (hidx : can.echo_idx < can.echo_skb_max)
    (hlen : frames.length = can.echo_skb_max)
    (hacc : ∀ f ∈ frames, (can_dev_dropped_skb can f.1).1 = false) :
    ∃ full, start_xmit_all can frames = some full ∧
      full.echo_skb_max = can.echo_skb_max ∧ full.ctrlmode = can.ctrlmode ∧
      full.echo_idx = can.echo_idx ∧
      (∀ i, i < can.echo_skb_max → (full.echo_skb i).isSome = true) ∧
      full.queue_stopped = true := by
  obtain ⟨r, hr, hrK, hrm, hri, _, hrslots, _, hrlast⟩ := start_xmit_all_spec frames can hK hidx hacc
  have hidx' : r.echo_idx = can.echo_idx := by
    rw [hri, hlen, Nat.add_mod_right, Nat.mod_eq_of_lt hidx]
  have hall : ∀ i, i < can.echo_skb_max → (r.echo_skb i).isSome = true := by
    intro i hi
    by_cases h : can.echo_idx ≤ i
    · have := hrslots (i - can.echo_idx) (by omega)
      rwa [show can.echo_idx + (i - can.echo_idx) = i by omega, Nat.mod_eq_of_lt hi] at this
    · have := hrslots (i + can.echo_skb_max - can.echo_idx) (by omega)
      rwa [show can.echo_idx + (i + can.echo_skb_max - can.echo_idx) = i + can.echo_skb_max by omega,
        Nat.add_mod_right, Nat.mod_eq_of_lt hi] at this
  refine ⟨r, hr, hrK, hrm, hidx', hall, ?_⟩
  apply hrlast
  · intro h; rw [h] at hlen; simp at hlen; omega
  · rw [hidx']; exact hall _ hidx

/-- C8: a submission that `kvaser_pciefd_start_xmit` does not drop, made with
`echo_skb_max >= 1`, the ring pointer inside the ring and the slot at the ring
pointer free, returns `NETDEV_TX_OK`, stores the frame in slot `echo_idx`, sets
`echo_idx` to `(echo_idx + 1) mod echo_skb_max` (again inside the ring), and the
queue is stopped by it exactly when the hardware count is at least
`echo_skb_max` or the slot at the new `echo_idx` is occupied (a queue that is
not stopped by it keeps its state).  As many submissions as there are slots,
with no acknowledgement in between (in particular into an empty ring), leave
the queue stopped. -/
theorem start_xmit_accepted (can : kvaser_pciefd_can) (skb : sk_buff)
    (ring : kvaser_pciefd_can) (frames : List (sk_buff × Nat))
    (hK : 0 < can.echo_skb_max) (hidx : can.echo_idx < can.echo_skb_max)
    (hacc : (can_dev_dropped_skb can skb).1 = false)
    (hfree : can.echo_skb can.echo_idx = none)
    (hrK : 0 < ring.echo_skb_max) (hridx : ring.echo_idx < ring.echo_skb_max)
    (hlen : frames.length = ring.echo_skb_max)
    (hracc : ∀ f ∈ frames, (can_dev_dropped_skb ring f.1).1 = false) :
    (∃ r, kvaser_pciefd_start_xmit can skb = some (netdev_tx_t.NETDEV_TX_OK, r) ∧
      r.echo_skb = Function.update can.echo_skb can.echo_idx (some skb) ∧
      r.echo_skb_max = can.echo_skb_max ∧
      r.echo_idx = (can.echo_idx + 1) % can.echo_skb_max ∧
      r.echo_idx < r.echo_skb_max ∧
      r.queue_stopped = (can.queue_stopped ||
        decide (KVASER_PCIEFD_KCAN_TX_NR_PACKETS_CURRENT_GET can ≥ can.echo_skb_max ∨
          (r.echo_skb r.echo_idx).isSome = true))) ∧
    (∃ full, start_xmit_all ring frames = some full ∧ full.queue_stopped = true) := by
  constructor
  · obtain ⟨r, hr, hrK', _, hri, hrs, hrq⟩ := start_xmit_step can skb hK hidx hacc
    refine ⟨r, hr, ?_, hrK', hri, ?_, hrq⟩
    · rw [hrs, if_pos hfree]
    · rw [hri, hrK']; exact Nat.mod_lt _ hK
  · obtain ⟨full, hf, _, _, _, _, hq⟩ := start_xmit_all_full frames ring hrK hridx hlen hracc
    exact ⟨full, hf, hq⟩

/-- Witness for C8: one submission, and two submissions, on a freshly attached
channel with two echo slots. -/
theorem start_xmit_accepted_witness :
    0 < (attached_can 3).echo_skb_max ∧
    (attached_can 3).echo_idx < (attached_can 3).echo_skb_max ∧
    (can_dev_dropped_skb (attached_can 3) sample_skb).1 = false ∧
    (attached_can 3).echo_skb (attached_can 3).echo_idx = none ∧
    [(sample_skb, 1), (sample_skb, 2)].length = (attached_can 3).echo_skb_max ∧
    ∃ full, start_xmit_all (attached_can 3) [(sample_skb, 1), (sample_skb, 2)] = some full ∧
      full.queue_stopped = true :=
  ⟨by decide, by decide, by decide, by decide, by decide,
    (start_xmit_accepted (attached_can 3) sample_skb (attached_can 3)
      [(sample_skb, 1), (sample_skb, 2)] (by decide) (by decide) (by decide) (by decide)
      (by decide) (by decide) (by decide) (by decide)).2⟩

/-- C7 (amended): the driver has no QueueFull result; its back-pressure is the
stopped queue.  Starting from a ring with K = `echo_skb_max >= 1` slots (in
particular an empty one), K submissions with no acknowledgement in between all
return `NETDEV_TX_OK`, leave every slot occupied, the ring pointer where it
started and the send queue stopped.  When the frame in the slot at the ring
pointer is then acknowledged (ACK without CT and FLU whose low byte names that
slot, hardware count below K), the slot is free and the queue is awake again,
and the next submission is stored in that slot and stops the queue again. -/
theorem echo_ring_backpressure (pcie : kvaser_pciefd) (p : kvaser_pciefd_rx_packet)
    (can : kvaser_pciefd_can) (frames : List (sk_buff × Nat)) (extra : sk_buff) (c c2 : Nat)
    (hK : 0 < can.echo_skb_max) (hidx : can.echo_idx < can.echo_skb_max)
    (hlen : frames.length = can.echo_skb_max)
    (hacc : ∀ f ∈ frames, (can_dev_dropped_skb can f.1).1 = false)
    (hextra : (can_dev_dropped_skb can extra).1 = false)
    (hch : KVASER_PCIEFD_PACKET_CHID p < pcie.nr_channels)
    (hct : p.header0 &&& KVASER_PCIEFD_APACKET_CT = 0)
    (hflu : p.header0 &&& KVASER_PCIEFD_APACKET_FLU = 0)
    (hseq : p.header0 &&& KVASER_PCIEFD_PACKET_SEQ_MASK = can.echo_idx)
    (hc : c &&& 0xff < can.echo_skb_max) :
    ∃ full, start_xmit_all can frames = some full ∧
      full.queue_stopped = true ∧
      (∀ i, i < can.echo_skb_max → (full.echo_skb i).isSome = true) ∧
      full.echo_idx = can.echo_idx ∧
      (pcie.can (KVASER_PCIEFD_PACKET_CHID p) = { full with reg_tx_nr_packets := c } →
        ((kvaser_pciefd_handle_ack_packet pcie p).2.can (KVASER_PCIEFD_PACKET_CHID p)).queue_stopped
          = false ∧
        ((kvaser_pciefd_handle_ack_packet pcie p).2.can (KVASER_PCIEFD_PACKET_CHID p)).echo_skb
          can.echo_idx = none ∧
        ∃ again,
          kvaser_pciefd_start_xmit
            { (kvaser_pciefd_handle_ack_packet pcie p).2.can (KVASER_PCIEFD_PACKET_CHID p) with
              reg_tx_nr_packets := c2 } extra
            = some (netdev_tx_t.NETDEV_TX_OK, again) ∧
          again.echo_skb can.echo_idx = some extra ∧ again.queue_stopped = true) := by
  obtain ⟨full, hf, hfK, hfm, hfi, hfall, hfq⟩ := start_xmit_all_full frames can hK hidx hlen hacc
  refine ⟨full, hf, hfq, hfall, hfi, fun hst => ?_⟩
  obtain ⟨a1, a2, a3, a4, a5⟩ := handle_ack_packet_released pcie p hch hct hflu
  rw [hst] at a1 a2 a3 a4 a5
  simp only [KVASER_PCIEFD_KCAN_TX_NR_PACKETS_CURRENT_GET] at a1 a2 a3 a4 a5
  rw [hfK] at a1 a4 a5
  rw [hfi] at a2
  rw [hfm] at a3
  have hq : ((kvaser_pciefd_handle_ack_packet pcie p).2.can
      (KVASER_PCIEFD_PACKET_CHID p)).queue_stopped = false := by
    rw [a5]; simp [hc]
  have hslot : ((kvaser_pciefd_handle_ack_packet pcie p).2.can
      (KVASER_PCIEFD_PACKET_CHID p)).echo_skb can.echo_idx = none := by
    rw [a4 _ hidx, hseq]; simp
  refine ⟨hq, hslot, ?_⟩
  have hacc2 : (can_dev_dropped_skb
      { (kvaser_pciefd_handle_ack_packet pcie p).2.can (KVASER_PCIEFD_PACKET_CHID p) with
        reg_tx_nr_packets := c2 } extra).1 = false := by
    rw [can_dev_dropped_skb_congr can _ extra (by simpa using a3)]
    exact hextra
  obtain ⟨r, hr, hrK, _, hri, hrs, hrq⟩ :=
    start_xmit_step
      { (kvaser_pciefd_handle_ack_packet pcie p).2.can (KVASER_PCIEFD_PACKET_CHID p) with
        reg_tx_nr_packets := c2 } extra (by simpa [a1] using hK) (by simpa [a1, a2] using hidx) hacc2
  simp only [a1, a2, hslot, if_true] at hrK hri hrs hrq
  refine ⟨r, hr, ?_, ?_⟩
  · rw [hrs]; simp
  · rw [hrq, hrs]
    have hlt : r.echo_idx < can.echo_skb_max := by rw [hri]; exact Nat.mod_lt _ hK
    simp only [Bool.or_eq_true, decide_eq_true_eq]
    right; right
    by_cases h : r.echo_idx = can.echo_idx
    · rw [h, Function.update_same]; rfl
    · have h4 := a4 _ hlt
      rw [hseq, if_neg h] at h4
      rw [Function.update_noteq h, h4]
      exact hfall _ hlt

/-- Witness for C7 (amended): a ring of two slots filled by two submissions, the
frame in slot 0 acknowledged, one more submission. -/
theorem echo_ring_backpressure_witness :
    0 < (attached_can 3).echo_skb_max ∧
    (attached_can 3).echo_idx < (attached_can 3).echo_skb_max ∧
    two_frames.length = (attached_can 3).echo_skb_max ∧
    (∀ f ∈ two_frames, (can_dev_dropped_skb (attached_can 3) f.1).1 = false) ∧
    KVASER_PCIEFD_PACKET_CHID plain_ack < full_ring_pcie.nr_channels ∧
    plain_ack.header0 &&& KVASER_PCIEFD_APACKET_CT = 0 ∧
    plain_ack.header0 &&& KVASER_PCIEFD_APACKET_FLU = 0 ∧
    plain_ack.header0 &&& KVASER_PCIEFD_PACKET_SEQ_MASK = (attached_can 3).echo_idx ∧
    1 &&& 0xff < (attached_can 3).echo_skb_max ∧
    full_ring_pcie.can (KVASER_PCIEFD_PACKET_CHID plain_ack)
      = { full_ring_can with reg_tx_nr_packets := 1 } ∧
    full_ring_can.queue_stopped = true ∧
    ((kvaser_pciefd_handle_ack_packet full_ring_pcie plain_ack).2.can
      (KVASER_PCIEFD_PACKET_CHID plain_ack)).queue_stopped = false := by
  have hrun : start_xmit_all (attached_can 3) two_frames = some full_ring_can := rfl
  obtain ⟨full, hf, hq, _, _, hack⟩ :=
    echo_ring_backpressure full_ring_pcie plain_ack (attached_can 3) two_frames sample_skb 1 2
      (by decide) (by decide) (by decide) (by decide) (by decide) (by decide) (by decide)
      (by decide) (by decide) (by decide)
  have hfull : full = full_ring_can := Option.some.inj (hf.symm.trans hrun)
  subst hfull
  exact ⟨by decide, by decide, by decide, by decide, by decide, by decide, by decide, by decide,
    by decide, rfl, hq, (hack rfl).1⟩

/-- A call of `kvaser_pciefd_read_packet` that returns 0 either resets the
cursor to 0 or moves it forward by at least five words. -/
theorem read_packet_advance (pcie : kvaser_pciefd) (pos dma_buf : Nat)
    (h : (kvaser_pciefd_read_packet pcie pos dma_buf).1 = 0) :
    (kvaser_pciefd_read_packet pcie pos dma_buf).2.1 = 0 ∨
      pos + 5 ≤ (kvaser_pciefd_read_packet pcie pos dma_buf).2.1 := by
  have hne : (- EIO : Int) ≠ 0 := by decide
  have hp := read_packet_body_pos (dma_log pcie [pos]) pos dma_buf
  simp only [kvaser_pciefd_read_packet] at h ⊢
  split_ifs at h ⊢ with h1 h2 h3
  · left; rfl
  · exact absurd h h2
  · exact absurd h hne
  · right
    show pos + 5 ≤ (kvaser_pciefd_read_packet_body (dma_log pcie [pos]) pos dma_buf).2.1
    rw [hp]; omega

/-- The loop of `kvaser_pciefd_read_buffer` ends within `fuel` iterations when
`fuel >= 1` and `pos + 5 * fuel >= KVASER_PCIEFD_DMA_SIZE`. -/
theorem read_buffer_loop_isSome (fuel : Nat) (pcie : kvaser_pciefd) (pos dma_buf : Nat)
    (hfuel : 0 < fuel) (hbound : KVASER_PCIEFD_DMA_SIZE ≤ pos + 5 * fuel) :
    (kvaser_pciefd_read_buffer_loop fuel pcie pos dma_buf).isSome = true := by
  induction fuel generalizing pcie pos with
  | zero => omega
  | succ n ih =>
    simp only [kvaser_pciefd_read_buffer_loop]
    split_ifs with hc
    · obtain ⟨h0, hpos, hlt⟩ := hc
      have hadv := read_packet_advance pcie pos dma_buf h0
      have h5 : pos + 5 ≤ (kvaser_pciefd_read_packet pcie pos dma_buf).2.1 := by omega
      apply ih
      · simp only [KVASER_PCIEFD_DMA_SIZE] at hbound hlt; omega
      · simp only [KVASER_PCIEFD_DMA_SIZE] at hbound ⊢; omega
    · rfl

/-- The function `kvaser_pciefd_read_buffer` returns a result for every device
state and buffer. -/
theorem read_buffer_isSome (pcie : kvaser_pciefd) (dma_buf : Nat) :
    (kvaser_pciefd_read_buffer pcie dma_buf).isSome = true :=
  read_buffer_loop_isSome 820 pcie 0 dma_buf (by decide) (by decide)

/-- For a data packet with a valid channel id whose skb allocation succeeds,
`kvaser_pciefd_handle_data_packet` makes exactly one call of `netif_rx`, with the
frame `rx_frame_event` on the channel counted by `rx_counted`; its result is
the result of that call, and the payload words are recorded as read when the
packet has no RTR flag. -/
theorem handle_data_packet_event (pcie : kvaser_pciefd) (p : kvaser_pciefd_rx_packet)
    (dma_buf pos : Nat)
    (hch : KVASER_PCIEFD_PACKET_CHID p < pcie.nr_channels)
    (halloc : (pcie.can (KVASER_PCIEFD_PACKET_CHID p)).alloc_ok
      (pcie.can (KVASER_PCIEFD_PACKET_CHID p)).alloc_cnt = true) :
    kvaser_pciefd_handle_data_packet pcie p dma_buf pos
      = ((netif_rx (rx_counted (pcie.can (KVASER_PCIEFD_PACKET_CHID p)) p)
            (rx_frame_event pcie p dma_buf pos)).1,
         { pcie with
           can := Function.update pcie.can (KVASER_PCIEFD_PACKET_CHID p)
             (netif_rx (rx_counted (pcie.can (KVASER_PCIEFD_PACKET_CHID p)) p)
               (rx_frame_event pcie p dma_buf pos)).2
           dma_reads :=
             if p.header0 &&& KVASER_PCIEFD_RPACKET_RTR ≠ 0 then pcie.dma_reads
             else pcie.dma_reads ++
               dma_words pos (can_fd_dlc2len (p.header1 >>> KVASER_PCIEFD_RPACKET_DLC_SHIFT)) }) := by
  have hch2 : ¬ KVASER_PCIEFD_PACKET_CHID p ≥ pcie.nr_channels := by omega
  simp only [kvaser_pciefd_handle_data_packet, hch2, if_false, alloc_canfd_skb, alloc_can_skb,
    alloc_skb, halloc, if_true, rx_frame_event, rx_counted, kvaser_pciefd_set_skb_timestamp]
  by_cases hf : p.header1 &&& KVASER_PCIEFD_RPACKET_FDF = 0 <;>
  by_cases hr : p.header0 &&& KVASER_PCIEFD_RPACKET_RTR = 0 <;>
  by_cases hi : p.header0 &&& KVASER_PCIEFD_RPACKET_IDE = 0 <;>
  by_cases hb : p.header1 &&& KVASER_PCIEFD_RPACKET_BRS = 0 <;>
  by_cases he : p.header1 &&& KVASER_PCIEFD_RPACKET_ESI = 0 <;>
    simp [hf, hr, hi, hb, he]

/-- The length `kvaser_pciefd_handle_data_packet` decodes depends on bits 8..11
of header word 1 only: it is the entry of `dlc2len` for that 4-bit field. -/
theorem can_fd_dlc2len_header (h1 : Nat) :
    can_fd_dlc2len (h1 >>> KVASER_PCIEFD_RPACKET_DLC_SHIFT)
      = dlc2len.getD ((h1 >>> 8) % 16) 0 := by
  have h15 : (0x0F : Nat) = 2 ^ 4 - 1 := by norm_num
  simp only [can_fd_dlc2len, KVASER_PCIEFD_RPACKET_DLC_SHIFT, h15, Nat.and_pow_two_sub_one_eq_mod]
  congr 1
  omega

/-- C12, at the failing input: a data packet with FDF clear and DLC 9 is accepted
by `kvaser_pciefd_read_buffer` (result 0) and delivered as a classic frame of
length 12 with 12 payload bytes, although a classic frame holds at most 8; the
same holds for the table value of every DLC 9..15, which exceeds 8. -/
theorem classic_dlc_exceeds_8 :
    (kvaser_pciefd_read_buffer classic_dlc9_pcie 0).map
        (fun r => (r.1, (r.2.can 0).rx_queue.map
          (fun skb => (skb.is_canfd, skb.cf.len, skb.cf.data))))
      = some (0, [(false, 12, [1, 2, 3, 4, 5, 6, 7, 8, 9, 10, 11, 12])]) ∧
    (∀ d, 9 ≤ d → d < 16 → 8 < dlc2len.getD d 0) := by
  refine ⟨by decide, ?_⟩
  intro d h9 h16
  interval_cases d <;> decide

/-- C13, as the code behaves on the claim's inputs: the data packet at word 5
of `misdeclared_pcie` has a valid channel id, its allocation succeeds and
`netif_rx` accepts its frame, but its size word says 8 where the packet is
5 + ceil(8/4) = 7 words long: the frame is delivered, the result of
`kvaser_pciefd_read_packet` is `-EIO`, the cursor stays at 5 instead of
advancing to 12, and `kvaser_pciefd_read_buffer` ends with `-EIO`. -/
theorem data_packet_cursor_stays :
    KVASER_PCIEFD_PACKET_TYPE (kvaser_pciefd_packet_at misdeclared_pcie 5 0)
      = KVASER_PCIEFD_PACK_TYPE_DATA ∧
    KVASER_PCIEFD_PACKET_CHID (kvaser_pciefd_packet_at misdeclared_pcie 5 0)
      < misdeclared_pcie.nr_channels ∧
    (misdeclared_pcie.can 0).alloc_ok (misdeclared_pcie.can 0).alloc_cnt = true ∧
    (misdeclared_pcie.can 0).rx_ok (misdeclared_pcie.can 0).rx_cnt = true ∧
    can_fd_dlc2len ((kvaser_pciefd_packet_at misdeclared_pcie 5 0).header1 >>> 8) = 8 ∧
    (kvaser_pciefd_packet_at misdeclared_pcie 5 0).header0 &&& KVASER_PCIEFD_RPACKET_RTR = 0 ∧
    (kvaser_pciefd_read_packet misdeclared_pcie 5 0).1 = - EIO ∧
    (kvaser_pciefd_read_packet misdeclared_pcie 5 0).2.1 = 5 ∧
    ((kvaser_pciefd_read_packet misdeclared_pcie 5 0).2.2.can 0).rx_queue.length = 1 ∧
    (kvaser_pciefd_read_buffer misdeclared_pcie 0).map (fun r => r.1) = some (- EIO) := by
  decide

/-- The payload words of a data packet: none with RTR, the rounded-up word count
of the decoded length otherwise. -/
theorem payload_words_data (p : kvaser_pciefd_rx_packet)
    (ht : KVASER_PCIEFD_PACKET_TYPE p = KVASER_PCIEFD_PACK_TYPE_DATA) :
    payload_words p
      = if p.header0 &&& KVASER_PCIEFD_RPACKET_RTR ≠ 0 then 0
        else DIV_ROUND_UP (can_fd_dlc2len (p.header1 >>> KVASER_PCIEFD_RPACKET_DLC_SHIFT)) 4 := by
  simp only [payload_words, ht, true_and]
  split_ifs <;> simp_all

/-- The result code of `netif_rx`. -/
theorem netif_rx_fst (can : kvaser_pciefd_can) (skb : sk_buff) :
    (netif_rx can skb).1 = if can.rx_ok can.rx_cnt = true then NET_RX_SUCCESS else NET_RX_DROP := by
  simp only [netif_rx]
  split_ifs <;> rfl

/-- The handler result `kvaser_pciefd_read_packet` sees for a data packet with a
valid channel id whose allocation succeeds: the result of `netif_rx`. -/
theorem read_packet_body_data (pcie : kvaser_pciefd) (start dma_buf : Nat)
    (htype : KVASER_PCIEFD_PACKET_TYPE (kvaser_pciefd_packet_at pcie start dma_buf)
      = KVASER_PCIEFD_PACK_TYPE_DATA)
    (hch : KVASER_PCIEFD_PACKET_CHID (kvaser_pciefd_packet_at pcie start dma_buf)
      < pcie.nr_channels)
    (halloc : (pcie.can (KVASER_PCIEFD_PACKET_CHID (kvaser_pciefd_packet_at pcie start dma_buf))).alloc_ok
      (pcie.can (KVASER_PCIEFD_PACKET_CHID (kvaser_pciefd_packet_at pcie start dma_buf))).alloc_cnt
        = true) :
    (kvaser_pciefd_read_packet_body (dma_log pcie [start]) start dma_buf).1
      = if (pcie.can (KVASER_PCIEFD_PACKET_CHID (kvaser_pciefd_packet_at pcie start dma_buf))).rx_ok
            (pcie.can (KVASER_PCIEFD_PACKET_CHID (kvaser_pciefd_packet_at pcie start dma_buf))).rx_cnt
          = true then NET_RX_SUCCESS else NET_RX_DROP := by
  have hp : kvaser_pciefd_packet_at (dma_log pcie [start]) start dma_buf
      = kvaser_pciefd_packet_at pcie start dma_buf := rfl
  have he := handle_data_packet_event
    (dma_log (dma_log pcie [start]) [start + 1, start + 2, start + 3, start + 4])
    (kvaser_pciefd_packet_at pcie start dma_buf) dma_buf (start + 5) hch halloc
  simp only [kvaser_pciefd_read_packet_body, kvaser_pciefd_read_packet_switch, hp, htype, if_true]
  have h1 : (kvaser_pciefd_handle_data_packet
      (dma_log (dma_log pcie [start]) [start + 1, start + 2, start + 3, start + 4])
      (kvaser_pciefd_packet_at pcie start dma_buf) dma_buf (start + 5)).1
        = if (pcie.can (KVASER_PCIEFD_PACKET_CHID (kvaser_pciefd_packet_at pcie start dma_buf))).rx_ok
            (pcie.can (KVASER_PCIEFD_PACKET_CHID (kvaser_pciefd_packet_at pcie start dma_buf))).rx_cnt
          = true then NET_RX_SUCCESS else NET_RX_DROP := by
    rw [he]
    exact netif_rx_fst _ _
  split_ifs at h1 ⊢ <;> simp_all

/-- The first `n` bytes after a `memcpy` of `n` bytes are the bytes copied. -/
theorem memcpy_take (dst src : List Nat) (n : Nat) (h : src.length = n) :
    (memcpy dst src n).take n = src := by
  subst h
  simp [memcpy]

/-- The number of bytes `dma_bytes` reads. -/
theorem dma_bytes_length (buffer : Nat → Nat) (pos len : Nat) :
    (dma_bytes buffer pos len).length = len := by
  simp [dma_bytes]

/-- Distribution of a mask over a bitwise or. -/
theorem or_and_mask (x y z : Nat) : (x ||| y) &&& z = (x &&& z) ||| (y &&& z) := by
  rw [Nat.and_comm, Nat.and_or_distrib_left, Nat.and_comm z x, Nat.and_comm z y]

/-- Masking with a single bit gives zero or that bit. -/
theorem and_bit_cases (a k : Nat) : a &&& 2 ^ k = 0 ∨ a &&& 2 ^ k = 2 ^ k := by
  rw [Nat.and_two_pow]
  cases a.testBit k <;> simp

/-- A 32-bit `can_id` without the error flag is made of its identifier bits,
its EFF flag and its RTR flag. -/
theorem can_id_split (id : Nat) (hid : id < 2 ^ 32) (herr : id &&& CAN_ERR_FLAG = 0) :
    (id &&& CAN_EFF_MASK) ||| (id &&& CAN_EFF_FLAG) ||| (id &&& CAN_RTR_FLAG) = id := by
  simp only [CAN_ERR_FLAG, CAN_EFF_MASK, CAN_EFF_FLAG, CAN_RTR_FLAG] at herr ⊢
  rw [← Nat.and_or_distrib_left, ← Nat.and_or_distrib_left]
  have h1 : id = id &&& (2 ^ 32 - 1) := by
    rw [Nat.and_pow_two_sub_one_eq_mod, Nat.mod_eq_of_lt hid]
  have h2 : (2 ^ 32 - 1 : Nat) = (0x1FFFFFFF ||| 0x80000000 ||| 0x40000000) ||| 0x20000000 := by
    decide
  conv_rhs => rw [h1, h2, Nat.and_or_distrib_left, herr, Nat.or_zero]

/-- The timestamp `kvaser_pciefd_set_skb_timestamp` stores when neither the
product nor the `ktime_t` overflows: the quotient itself. -/
theorem set_skb_timestamp_exact (pcie : kvaser_pciefd) (skb : sk_buff) (ts : Nat)
    (hdiv : pcie.freq_to_ticks_div < 2 ^ 32) (hprod : ts * 1000 < 2 ^ 64)
    (hquot : ts * 1000 / pcie.freq_to_ticks_div < 2 ^ 63) :
    (kvaser_pciefd_set_skb_timestamp pcie skb ts).hwtstamp
      = ((ts * 1000 / pcie.freq_to_ticks_div : Nat) : Int) := by
  have hd32 : pcie.freq_to_ticks_div % 2 ^ 32 = pcie.freq_to_ticks_div := Nat.mod_eq_of_lt hdiv
  have hm : ts * 1000 % 2 ^ 64 = ts * 1000 := Nat.mod_eq_of_lt hprod
  have hq64 : ts * 1000 / pcie.freq_to_ticks_div % 2 ^ 64 = ts * 1000 / pcie.freq_to_ticks_div :=
    Nat.mod_eq_of_lt (lt_trans hquot (by norm_num))
  simp only [kvaser_pciefd_set_skb_timestamp, div_u64, ns_to_ktime, hm, hd32, hq64, if_pos hquot]

/-- The identifier of the frame `rx_frame_event`: the 29 identifier bits of
header word 0, the EFF flag exactly when IDE is set and the RTR flag exactly
when RTR is set. -/
theorem rx_frame_event_can_id (pcie : kvaser_pciefd) (p : kvaser_pciefd_rx_packet)
    (dma_buf pos : Nat) :
    (rx_frame_event pcie p dma_buf pos).cf.can_id &&& CAN_EFF_MASK = p.header0 &&& 0x1FFFFFFF ∧
    ((rx_frame_event pcie p dma_buf pos).cf.can_id &&& CAN_EFF_FLAG ≠ 0 ↔
      p.header0 &&& KVASER_PCIEFD_RPACKET_IDE ≠ 0) ∧
    ((rx_frame_event pcie p dma_buf pos).cf.can_id &&& CAN_RTR_FLAG ≠ 0 ↔
      p.header0 &&& KVASER_PCIEFD_RPACKET_RTR ≠ 0) ∧
    (rx_frame_event pcie p dma_buf pos).cf.can_id &&& CAN_ERR_FLAG = 0 := by
  have mm : (0x1FFFFFFF : Nat) &&& 0x1FFFFFFF = 0x1FFFFFFF := by decide
  have mf : (0x1FFFFFFF : Nat) &&& 0x80000000 = 0 := by decide
  have mr : (0x1FFFFFFF : Nat) &&& 0x40000000 = 0 := by decide
  have me : (0x1FFFFFFF : Nat) &&& 0x20000000 = 0 := by decide
  have fm : (0x80000000 : Nat) &&& 0x1FFFFFFF = 0 := by decide
  have ff : (0x80000000 : Nat) &&& 0x80000000 = 0x80000000 := by decide
  have fr : (0x80000000 : Nat) &&& 0x40000000 = 0 := by decide
  have fe : (0x80000000 : Nat) &&& 0x20000000 = 0 := by decide
  have rm : (0x40000000 : Nat) &&& 0x1FFFFFFF = 0 := by decide
  have rf : (0x40000000 : Nat) &&& 0x80000000 = 0 := by decide
  have rr : (0x40000000 : Nat) &&& 0x40000000 = 0x40000000 := by decide
  have re : (0x40000000 : Nat) &&& 0x20000000 = 0 := by decide
  simp only [rx_frame_event, CAN_EFF_MASK, CAN_EFF_FLAG, CAN_RTR_FLAG, CAN_ERR_FLAG]
  by_cases hr : p.header0 &&& KVASER_PCIEFD_RPACKET_RTR = 0 <;>
  by_cases hi : p.header0 &&& KVASER_PCIEFD_RPACKET_IDE = 0 <;>
    simp only [hr, hi, ne_eq, not_true_eq_false, not_false_eq_true, if_true, if_false,
      or_and_mask, Nat.and_assoc, mm, mf, mr, me, fm, ff, fr, fe, rm, rf, rr, re,
      Nat.and_zero, Nat.or_zero, Nat.zero_or, iff_true, iff_false, true_and, and_true] <;>
    decide

/-- C13 (amended): for a data packet at cursor `start` whose channel id is below
`nr_channels` and whose frame allocation succeeds,
`kvaser_pciefd_handle_data_packet` hands exactly one frame to `netif_rx` on that
channel (`rx_cnt` plus 1; the frame is appended to `rx_queue` when `netif_rx`
accepts it): the frame `rx_frame_event`, whose `can_id` is
`header0 & 0x1FFFFFFF` with the EFF flag exactly when IDE is set and the RTR
flag exactly when RTR is set, whose length is the table value of the DLC field,
whose payload for a packet without RTR is the first `len` bytes after the
timestamp, and which carries the scaled timestamp (the quotient
floor(ticks * 1000 / divisor) itself when neither the product nor the
`ktime_t` overflows); `rx_packets` grows by 1 and `rx_bytes` by `len` (by 0 with
RTR).  When `netif_rx` accepts the frame and the size word is not 0,
`kvaser_pciefd_read_packet` returns 0 and moves the cursor by
5 + ceil(len/4) words (5 with RTR) if the size word declares that count, and
returns `-EIO` with the cursor left at the packet, which ends the loop of
`kvaser_pciefd_read_buffer`, if it declares another count.  For DLC 8, no RTR,
channel 0 this is one frame with 8 payload bytes and the timestamp
160 * 1000 / 80. -/
theorem data_packet_received (pcie : kvaser_pciefd) (start dma_buf : Nat)
    (htype : KVASER_PCIEFD_PACKET_TYPE (kvaser_pciefd_packet_at pcie start dma_buf)
      = KVASER_PCIEFD_PACK_TYPE_DATA)
    (hch : KVASER_PCIEFD_PACKET_CHID (kvaser_pciefd_packet_at pcie start dma_buf)
      < pcie.nr_channels)
    (halloc : (pcie.can (KVASER_PCIEFD_PACKET_CHID (kvaser_pciefd_packet_at pcie start dma_buf))).alloc_ok
      (pcie.can (KVASER_PCIEFD_PACKET_CHID (kvaser_pciefd_packet_at pcie start dma_buf))).alloc_cnt
        = true) :
    ((kvaser_pciefd_handle_data_packet pcie (kvaser_pciefd_packet_at pcie start dma_buf) dma_buf
        (start + 5)).2.can
      (KVASER_PCIEFD_PACKET_CHID (kvaser_pciefd_packet_at pcie start dma_buf))).rx_cnt
      = (pcie.can (KVASER_PCIEFD_PACKET_CHID (kvaser_pciefd_packet_at pcie start dma_buf))).rx_cnt
        + 1 ∧
    ((kvaser_pciefd_handle_data_packet pcie (kvaser_pciefd_packet_at pcie start dma_buf) dma_buf
        (start + 5)).2.can
      (KVASER_PCIEFD_PACKET_CHID (kvaser_pciefd_packet_at pcie start dma_buf))).rx_queue
      = (if (pcie.can (KVASER_PCIEFD_PACKET_CHID (kvaser_pciefd_packet_at pcie start dma_buf))).rx_ok
            (pcie.can (KVASER_PCIEFD_PACKET_CHID (kvaser_pciefd_packet_at pcie start dma_buf))).rx_cnt
            = true then
          (pcie.can (KVASER_PCIEFD_PACKET_CHID (kvaser_pciefd_packet_at pcie start dma_buf))).rx_queue
            ++ [rx_frame_event pcie (kvaser_pciefd_packet_at pcie start dma_buf) dma_buf (start + 5)]
        else
          (pcie.can (KVASER_PCIEFD_PACKET_CHID (kvaser_pciefd_packet_at pcie start dma_buf))).rx_queue) ∧
    ((kvaser_pciefd_handle_data_packet pcie (kvaser_pciefd_packet_at pcie start dma_buf) dma_buf
        (start + 5)).2.can
      (KVASER_PCIEFD_PACKET_CHID (kvaser_pciefd_packet_at pcie start dma_buf))).stats.rx_packets
      = (pcie.can (KVASER_PCIEFD_PACKET_CHID
          (kvaser_pciefd_packet_at pcie start dma_buf))).stats.rx_packets + 1 ∧
    ((kvaser_pciefd_handle_data_packet pcie (kvaser_pciefd_packet_at pcie start dma_buf) dma_buf
        (start + 5)).2.can
      (KVASER_PCIEFD_PACKET_CHID (kvaser_pciefd_packet_at pcie start dma_buf))).stats.rx_bytes
      = (pcie.can (KVASER_PCIEFD_PACKET_CHID
          (kvaser_pciefd_packet_at pcie start dma_buf))).stats.rx_bytes
        + (if (kvaser_pciefd_packet_at pcie start dma_buf).header0 &&& KVASER_PCIEFD_RPACKET_RTR ≠ 0
           then 0
           else can_fd_dlc2len ((kvaser_pciefd_packet_at pcie start dma_buf).header1 >>> 8)) ∧
    ((rx_frame_event pcie (kvaser_pciefd_packet_at pcie start dma_buf) dma_buf
          (start + 5)).cf.can_id &&& CAN_EFF_MASK
        = (kvaser_pciefd_packet_at pcie start dma_buf).header0 &&& 0x1FFFFFFF ∧
      ((rx_frame_event pcie (kvaser_pciefd_packet_at pcie start dma_buf) dma_buf
          (start + 5)).cf.can_id &&& CAN_EFF_FLAG ≠ 0 ↔
        (kvaser_pciefd_packet_at pcie start dma_buf).header0 &&& KVASER_PCIEFD_RPACKET_IDE ≠ 0) ∧
      ((rx_frame_event pcie (kvaser_pciefd_packet_at pcie start dma_buf) dma_buf
          (start + 5)).cf.can_id &&& CAN_RTR_FLAG ≠ 0 ↔
        (kvaser_pciefd_packet_at pcie start dma_buf).header0 &&& KVASER_PCIEFD_RPACKET_RTR ≠ 0) ∧
      (rx_frame_event pcie (kvaser_pciefd_packet_at pcie start dma_buf) dma_buf
          (start + 5)).cf.can_id &&& CAN_ERR_FLAG = 0) ∧
    (rx_frame_event pcie (kvaser_pciefd_packet_at pcie start dma_buf) dma_buf (start + 5)).cf.len
      = dlc2len.getD (((kvaser_pciefd_packet_at pcie start dma_buf).header1 >>> 8) % 16) 0 ∧
    ((kvaser_pciefd_packet_at pcie start dma_buf).header0 &&& KVASER_PCIEFD_RPACKET_RTR = 0 →
      (rx_frame_event pcie (kvaser_pciefd_packet_at pcie start dma_buf) dma_buf
          (start + 5)).cf.data.take
        (can_fd_dlc2len ((kvaser_pciefd_packet_at pcie start dma_buf).header1 >>> 8))
        = dma_bytes (pcie.dma_data dma_buf) (start + 5)
            (can_fd_dlc2len ((kvaser_pciefd_packet_at pcie start dma_buf).header1 >>> 8))) ∧
    ((∀ skb : sk_buff,
      (rx_frame_event pcie (kvaser_pciefd_packet_at pcie start dma_buf) dma_buf (start + 5)).hwtstamp
        = (kvaser_pciefd_set_skb_timestamp pcie skb
            (kvaser_pciefd_packet_at pcie start dma_buf).timestamp).hwtstamp) ∧
      (pcie.freq_to_ticks_div < 2 ^ 32 →
        (kvaser_pciefd_packet_at pcie start dma_buf).timestamp * 1000 < 2 ^ 64 →
        (kvaser_pciefd_packet_at pcie start dma_buf).timestamp * 1000 / pcie.freq_to_ticks_div
          < 2 ^ 63 →
        (rx_frame_event pcie (kvaser_pciefd_packet_at pcie start dma_buf) dma_buf
            (start + 5)).hwtstamp
          = (((kvaser_pciefd_packet_at pcie start dma_buf).timestamp * 1000
              / pcie.freq_to_ticks_div : Nat) : Int))) ∧
    ((pcie.can (KVASER_PCIEFD_PACKET_CHID (kvaser_pciefd_packet_at pcie start dma_buf))).rx_ok
        (pcie.can (KVASER_PCIEFD_PACKET_CHID (kvaser_pciefd_packet_at pcie start dma_buf))).rx_cnt
        = true →
      int_of_u32 (le32_to_cpu (pcie.dma_data dma_buf start)) ≠ 0 →
      int_add start (int_of_u32 (le32_to_cpu (pcie.dma_data dma_buf start)))
        = ((start + 5 +
            (if (kvaser_pciefd_packet_at pcie start dma_buf).header0 &&& KVASER_PCIEFD_RPACKET_RTR ≠ 0
             then 0
             else DIV_ROUND_UP
               (can_fd_dlc2len ((kvaser_pciefd_packet_at pcie start dma_buf).header1 >>> 8)) 4)
            : Nat) : Int) →
      (kvaser_pciefd_read_packet pcie start dma_buf).1 = 0 ∧
      (kvaser_pciefd_read_packet pcie start dma_buf).2.1
        = start + 5 +
            (if (kvaser_pciefd_packet_at pcie start dma_buf).header0 &&& KVASER_PCIEFD_RPACKET_RTR ≠ 0
             then 0
             else DIV_ROUND_UP
               (can_fd_dlc2len ((kvaser_pciefd_packet_at pcie start dma_buf).header1 >>> 8)) 4)) ∧
    ((pcie.can (KVASER_PCIEFD_PACKET_CHID (kvaser_pciefd_packet_at pcie start dma_buf))).rx_ok
        (pcie.can (KVASER_PCIEFD_PACKET_CHID (kvaser_pciefd_packet_at pcie start dma_buf))).rx_cnt
        = true →
      int_of_u32 (le32_to_cpu (pcie.dma_data dma_buf start)) ≠ 0 →
      int_add start (int_of_u32 (le32_to_cpu (pcie.dma_data dma_buf start)))
        ≠ ((start + 5 +
            (if (kvaser_pciefd_packet_at pcie start dma_buf).header0 &&& KVASER_PCIEFD_RPACKET_RTR ≠ 0
             then 0
             else DIV_ROUND_UP
               (can_fd_dlc2len ((kvaser_pciefd_packet_at pcie start dma_buf).header1 >>> 8)) 4)
            : Nat) : Int) →
      (kvaser_pciefd_read_packet pcie start dma_buf).1 = - EIO ∧
      (kvaser_pciefd_read_packet pcie start dma_buf).2.1 = start ∧
      ∀ fuel, (kvaser_pciefd_read_buffer_loop (fuel + 1) pcie start dma_buf).map (fun r => r.1)
        = some (- EIO)) ∧
    (kvaser_pciefd_read_buffer dlc8_pcie 0).map
        (fun r => (r.1, (r.2.can 0).rx_queue.map
          (fun skb => (skb.cf.len, skb.cf.data, skb.hwtstamp))))
      = some (0, [(8, [1, 2, 3, 4, 5, 6, 7, 8], 2000)]) := by
  have he := handle_data_packet_event pcie (kvaser_pciefd_packet_at pcie start dma_buf) dma_buf
    (start + 5) hch halloc
  have hbody : (pcie.can (KVASER_PCIEFD_PACKET_CHID (kvaser_pciefd_packet_at pcie start dma_buf))).rx_ok
        (pcie.can (KVASER_PCIEFD_PACKET_CHID (kvaser_pciefd_packet_at pcie start dma_buf))).rx_cnt
        = true →
      (kvaser_pciefd_read_packet_body (dma_log pcie [start]) start dma_buf).1 = 0 ∧
      (kvaser_pciefd_read_packet_body (dma_log pcie [start]) start dma_buf).2.1
        = start + 5 +
            (if (kvaser_pciefd_packet_at pcie start dma_buf).header0 &&& KVASER_PCIEFD_RPACKET_RTR ≠ 0
             then 0
             else DIV_ROUND_UP
               (can_fd_dlc2len ((kvaser_pciefd_packet_at pcie start dma_buf).header1 >>> 8)) 4) := by
    intro hrx
    have hb := read_packet_body_data pcie start dma_buf htype hch halloc
    rw [if_pos hrx] at hb
    have hpos := read_packet_body_pos (dma_log pcie [start]) start dma_buf
    have hpw := payload_words_data (kvaser_pciefd_packet_at pcie start dma_buf) htype
    have hp : kvaser_pciefd_packet_at (dma_log pcie [start]) start dma_buf
        = kvaser_pciefd_packet_at pcie start dma_buf := rfl
    rw [hp, hpw] at hpos
    simp only [KVASER_PCIEFD_RPACKET_DLC_SHIFT] at hpos
    exact ⟨hb, hpos⟩
  refine ⟨?_, ?_, ?_, ?_, rx_frame_event_can_id _ _ _ _, ?_, ?_, ⟨fun _ => rfl, ?_⟩, ?_, ?_,
    by decide⟩
  · rw [he]; simp only [Function.update_same, netif_rx, rx_counted]; split_ifs <;> rfl
  · rw [he]; simp only [Function.update_same, netif_rx, rx_counted]; split_ifs <;> rfl
  · rw [he]; simp only [Function.update_same, netif_rx, rx_counted]; split_ifs <;> rfl
  · rw [he]; simp only [Function.update_same, netif_rx, rx_counted]
    split_ifs <;> simp_all [KVASER_PCIEFD_RPACKET_DLC_SHIFT]
  · exact can_fd_dlc2len_header _
  · intro hr
    simp only [rx_frame_event, hr, ne_eq, not_true_eq_false, if_false,
      KVASER_PCIEFD_RPACKET_DLC_SHIFT]
    exact memcpy_take _ _ _ (dma_bytes_length _ _ _)
  · intro hdiv hprod hquot
    exact set_skb_timestamp_exact pcie sample_skb _ hdiv hprod hquot
  · intro hrx hsize hframe
    obtain ⟨h0, hpos⟩ := hbody hrx
    simp only [kvaser_pciefd_read_packet, hsize, if_false, h0, ne_eq, not_true_eq_false, hpos,
      hframe, if_true]
    exact ⟨trivial, trivial⟩
  · intro hrx hsize hframe
    obtain ⟨h0, hpos⟩ := hbody hrx
    have h1 : kvaser_pciefd_read_packet pcie start dma_buf
        = (- EIO, start,
            (kvaser_pciefd_read_packet_body (dma_log pcie [start]) start dma_buf).2.2) := by
      unfold kvaser_pciefd_read_packet
      simp only [hsize, h0, hpos, if_false, ne_eq, not_true_eq_false]
      rw [if_pos hframe]
    refine ⟨by rw [h1], by rw [h1], fun fuel => ?_⟩
    simp [kvaser_pciefd_read_buffer_loop, h1, EIO]

/-- Witness for C13 (amended): the data packet with DLC 8 at word 0 of
`dlc8_pcie`, whose frame `netif_rx` accepts and whose size word is 7, moves the
cursor to 7; the same packet at word 5 of `misdeclared_pcie` with the size word
8 gives `-EIO`. -/
theorem data_packet_received_witness :
    KVASER_PCIEFD_PACKET_TYPE (kvaser_pciefd_packet_at dlc8_pcie 0 0)
      = KVASER_PCIEFD_PACK_TYPE_DATA ∧
    KVASER_PCIEFD_PACKET_CHID (kvaser_pciefd_packet_at dlc8_pcie 0 0) < dlc8_pcie.nr_channels ∧
    (dlc8_pcie.can (KVASER_PCIEFD_PACKET_CHID (kvaser_pciefd_packet_at dlc8_pcie 0 0))).alloc_ok
      (dlc8_pcie.can (KVASER_PCIEFD_PACKET_CHID (kvaser_pciefd_packet_at dlc8_pcie 0 0))).alloc_cnt
        = true ∧
    ((kvaser_pciefd_read_packet dlc8_pcie 0 0).1 = 0 ∧
      (kvaser_pciefd_read_packet dlc8_pcie 0 0).2.1
        = 0 + 5 +
            (if (kvaser_pciefd_packet_at dlc8_pcie 0 0).header0 &&& KVASER_PCIEFD_RPACKET_RTR ≠ 0
             then 0
             else DIV_ROUND_UP
               (can_fd_dlc2len ((kvaser_pciefd_packet_at dlc8_pcie 0 0).header1 >>> 8)) 4)) ∧
    (kvaser_pciefd_read_packet dlc8_pcie 0 0).2.1 = 7 ∧
    (kvaser_pciefd_read_packet misdeclared_pcie 5 0).1 = - EIO :=
  ⟨by decide, by decide, by decide,
    (data_packet_received dlc8_pcie 0 0 (by decide) (by decide) (by decide)).2.2.2.2.2.2.2.2.1
      (by decide) (by decide) (by decide),
    by decide,
    ((data_packet_received misdeclared_pcie 5 0 (by decide) (by decide)
      (by decide)).2.2.2.2.2.2.2.2.2.1 (by decide) (by decide) (by decide)).1⟩

/-- Byte `k` of the little-endian word made of four bytes. -/
theorem byte_of_word (b0 b1 b2 b3 k : Nat) (h0 : b0 < 256) (h1 : b1 < 256) (h2 : b2 < 256)
    (h3 : b3 < 256) (hk : k < 4) :
    (((b0 ||| (b1 <<< 8) ||| (b2 <<< 16) ||| (b3 <<< 24)) % 2 ^ 32) >>> (8 * k)) &&& 0xff
      = [b0, b1, b2, b3].getD k 0 := by
  have e1 : b0 ||| (b1 <<< 8) = 2 ^ 8 * b1 + b0 := by
    rw [Nat.or_comm, Nat.shiftLeft_eq, Nat.mul_comm, ← Nat.mul_add_lt_is_or (by norm_num; exact h0)]
  have e2 : (2 ^ 8 * b1 + b0) ||| (b2 <<< 16) = 2 ^ 16 * b2 + (2 ^ 8 * b1 + b0) := by
    rw [Nat.or_comm, Nat.shiftLeft_eq, Nat.mul_comm, ← Nat.mul_add_lt_is_or (by norm_num; omega)]
  have e3 : (2 ^ 16 * b2 + (2 ^ 8 * b1 + b0)) ||| (b3 <<< 24)
      = 2 ^ 24 * b3 + (2 ^ 16 * b2 + (2 ^ 8 * b1 + b0)) := by
    rw [Nat.or_comm, Nat.shiftLeft_eq, Nat.mul_comm, ← Nat.mul_add_lt_is_or (by norm_num; omega)]
  have hmask : (0xff : Nat) = 2 ^ 8 - 1 := by norm_num
  rw [e1, e2, e3, hmask, Nat.and_pow_two_sub_one_eq_mod, Nat.shiftRight_eq_div_pow]
  interval_cases k <;> simp <;> omega

/-- Header word 0 built by `kvaser_pciefd_prepare_tx_packet`: the RTR and IDE
bits follow the RTR and EFF flags of `can_id`, the low 29 bits are the
identifier bits. -/
theorem prepare_tx_packet_header0 (can : kvaser_pciefd_can) (skb : sk_buff) :
    ((kvaser_pciefd_prepare_tx_packet can skb).2.header0 &&& KVASER_PCIEFD_RPACKET_RTR ≠ 0
      ↔ skb.cf.can_id &&& CAN_RTR_FLAG ≠ 0) ∧
    ((kvaser_pciefd_prepare_tx_packet can skb).2.header0 &&& KVASER_PCIEFD_RPACKET_IDE ≠ 0
      ↔ skb.cf.can_id &&& CAN_EFF_FLAG ≠ 0) ∧
    (kvaser_pciefd_prepare_tx_packet can skb).2.header0 &&& CAN_EFF_MASK
      = skb.cf.can_id &&& CAN_EFF_MASK := by
  have m1 : CAN_EFF_MASK &&& KVASER_PCIEFD_RPACKET_RTR = 0 := by decide
  have m2 : CAN_EFF_MASK &&& KVASER_PCIEFD_RPACKET_IDE = 0 := by decide
  have m3 : KVASER_PCIEFD_RPACKET_RTR &&& KVASER_PCIEFD_RPACKET_RTR ≠ 0 := by decide
  have m4 : KVASER_PCIEFD_RPACKET_IDE &&& KVASER_PCIEFD_RPACKET_IDE ≠ 0 := by decide
  have m5 : KVASER_PCIEFD_RPACKET_RTR &&& KVASER_PCIEFD_RPACKET_IDE = 0 := by decide
  have m6 : KVASER_PCIEFD_RPACKET_IDE &&& KVASER_PCIEFD_RPACKET_RTR = 0 := by decide
  have m7 : KVASER_PCIEFD_RPACKET_RTR &&& CAN_EFF_MASK = 0 := by decide
  have m8 : KVASER_PCIEFD_RPACKET_IDE &&& CAN_EFF_MASK = 0 := by decide
  have m9 : (KVASER_PCIEFD_RPACKET_RTR ||| KVASER_PCIEFD_RPACKET_IDE) &&& KVASER_PCIEFD_RPACKET_RTR
      ≠ 0 := by decide
  have m10 : (KVASER_PCIEFD_RPACKET_RTR ||| KVASER_PCIEFD_RPACKET_IDE) &&& KVASER_PCIEFD_RPACKET_IDE
      ≠ 0 := by decide
  have m11 : (KVASER_PCIEFD_RPACKET_RTR ||| KVASER_PCIEFD_RPACKET_IDE) &&& CAN_EFF_MASK = 0 := by
    decide
  have m12 : KVASER_PCIEFD_RPACKET_RTR ≠ 0 := by decide
  have m13 : KVASER_PCIEFD_RPACKET_IDE ≠ 0 := by decide
  simp only [kvaser_pciefd_prepare_tx_packet]
  by_cases hr : skb.cf.can_id &&& CAN_RTR_FLAG = 0 <;>
  by_cases hi : skb.cf.can_id &&& CAN_EFF_FLAG = 0 <;>
    simp [hr, hi, or_and_mask, Nat.and_assoc, m1, m2, m3, m4, m5, m6, m7, m8, m9, m10, m11, m12, m13]

/-- A bit field read by shifting and reducing is the masked word shifted. -/
theorem shift_mod_eq_mask (x k n : Nat) :
    (x >>> k) % 2 ^ n = (x &&& ((2 ^ n - 1) <<< k)) >>> k := by
  apply Nat.eq_of_testBit_eq
  intro i
  simp only [Nat.testBit_mod_two_pow, Nat.testBit_shiftRight, Nat.testBit_and,
    Nat.testBit_shiftLeft, Nat.testBit_two_pow_sub_one]
  simp [Bool.and_comm]

/-- The DLC computed by `can_fd_len2dlc` fits in four bits. -/
theorem can_fd_len2dlc_lt (len : Nat) : can_fd_len2dlc len < 16 := by
  simp only [can_fd_len2dlc]
  split_ifs <;> omega

/-- The bits of a 4-bit DLC shifted to its place in header word 1. -/
theorem dlc_field_bits (d : Nat) (hd : d < 16) :
    (d <<< KVASER_PCIEFD_RPACKET_DLC_SHIFT) &&& KVASER_PCIEFD_RPACKET_FDF = 0 ∧
    (d <<< KVASER_PCIEFD_RPACKET_DLC_SHIFT) &&& KVASER_PCIEFD_RPACKET_BRS = 0 ∧
    (d <<< KVASER_PCIEFD_RPACKET_DLC_SHIFT) &&& KVASER_PCIEFD_RPACKET_ESI = 0 ∧
    (d <<< KVASER_PCIEFD_RPACKET_DLC_SHIFT) &&& 0xff = 0 ∧
    (d <<< KVASER_PCIEFD_RPACKET_DLC_SHIFT) &&& 0xF00 = d <<< 8 ∧
    (d <<< KVASER_PCIEFD_RPACKET_DLC_SHIFT) &&& 0xE000000 = 0 := by
  interval_cases d <;> decide

/-- Header word 1 built by `kvaser_pciefd_prepare_tx_packet`: FDF follows the
kind of the skb, BRS and ESI the flags of an FD frame, bits 8..11 hold the DLC
of the length, the low byte is the echo index, and the channel field is 0. -/
theorem prepare_tx_packet_header1 (can : kvaser_pciefd_can) (skb : sk_buff) :
    ((kvaser_pciefd_prepare_tx_packet can skb).2.header1 &&& KVASER_PCIEFD_RPACKET_FDF ≠ 0
      ↔ skb.is_canfd = true) ∧
    ((kvaser_pciefd_prepare_tx_packet can skb).2.header1 &&& KVASER_PCIEFD_RPACKET_BRS ≠ 0
      ↔ skb.is_canfd = true ∧ skb.cf.flags &&& CANFD_BRS ≠ 0) ∧
    ((kvaser_pciefd_prepare_tx_packet can skb).2.header1 &&& KVASER_PCIEFD_RPACKET_ESI ≠ 0
      ↔ skb.is_canfd = true ∧ skb.cf.flags &&& CANFD_ESI ≠ 0) ∧
    (kvaser_pciefd_prepare_tx_packet can skb).2.header1 &&& 0xff = can.echo_idx % 256 ∧
    (kvaser_pciefd_prepare_tx_packet can skb).2.header1 &&& 0xF00
      = can_fd_len2dlc skb.cf.len <<< 8 ∧
    (kvaser_pciefd_prepare_tx_packet can skb).2.header1 &&& 0xE000000 = 0 := by
  obtain ⟨d1, d2, d3, d4, d5, d6⟩ := dlc_field_bits _ (can_fd_len2dlc_lt skb.cf.len)
  have s1 : KVASER_PCIEFD_PACKET_SEQ_MASK &&& KVASER_PCIEFD_RPACKET_FDF = 0 := by decide
  have s2 : KVASER_PCIEFD_PACKET_SEQ_MASK &&& KVASER_PCIEFD_RPACKET_BRS = 0 := by decide
  have s3 : KVASER_PCIEFD_PACKET_SEQ_MASK &&& KVASER_PCIEFD_RPACKET_ESI = 0 := by decide
  have s4 : KVASER_PCIEFD_PACKET_SEQ_MASK &&& 0xff = 2 ^ 8 - 1 := by decide
  have s5 : KVASER_PCIEFD_PACKET_SEQ_MASK &&& 0xF00 = 0 := by decide
  have s6 : KVASER_PCIEFD_PACKET_SEQ_MASK &&& 0xE000000 = 0 := by decide
  have a1 : KVASER_PCIEFD_TPACKET_AREQ &&& KVASER_PCIEFD_RPACKET_FDF = 0 := by decide
  have a2 : KVASER_PCIEFD_TPACKET_AREQ &&& KVASER_PCIEFD_RPACKET_BRS = 0 := by decide
  have a3 : KVASER_PCIEFD_TPACKET_AREQ &&& KVASER_PCIEFD_RPACKET_ESI = 0 := by decide
  have a4 : KVASER_PCIEFD_TPACKET_AREQ &&& 0xff = 0 := by decide
  have a5 : KVASER_PCIEFD_TPACKET_AREQ &&& 0xF00 = 0 := by decide
  have a6 : KVASER_PCIEFD_TPACKET_AREQ &&& 0xE000000 = 0 := by decide
  have t1 : KVASER_PCIEFD_TPACKET_SMS &&& KVASER_PCIEFD_RPACKET_FDF = 0 := by decide
  have t2 : KVASER_PCIEFD_TPACKET_SMS &&& KVASER_PCIEFD_RPACKET_BRS = 0 := by decide
  have t3 : KVASER_PCIEFD_TPACKET_SMS &&& KVASER_PCIEFD_RPACKET_ESI = 0 := by decide
  have t4 : KVASER_PCIEFD_TPACKET_SMS &&& 0xff = 0 := by decide
  have t5 : KVASER_PCIEFD_TPACKET_SMS &&& 0xF00 = 0 := by decide
  have t6 : KVASER_PCIEFD_TPACKET_SMS &&& 0xE000000 = 0 := by decide
  have f1 : KVASER_PCIEFD_RPACKET_FDF &&& KVASER_PCIEFD_RPACKET_FDF ≠ 0 := by decide
  have f2 : KVASER_PCIEFD_RPACKET_FDF &&& KVASER_PCIEFD_RPACKET_BRS = 0 := by decide
  have f3 : KVASER_PCIEFD_RPACKET_FDF &&& KVASER_PCIEFD_RPACKET_ESI = 0 := by decide
  have f4 : KVASER_PCIEFD_RPACKET_FDF &&& 0xff = 0 := by decide
  have f5 : KVASER_PCIEFD_RPACKET_FDF &&& 0xF00 = 0 := by decide
  have f6 : KVASER_PCIEFD_RPACKET_FDF &&& 0xE000000 = 0 := by decide
  have b1 : KVASER_PCIEFD_RPACKET_BRS &&& KVASER_PCIEFD_RPACKET_FDF = 0 := by decide
  have b2 : KVASER_PCIEFD_RPACKET_BRS &&& KVASER_PCIEFD_RPACKET_BRS ≠ 0 := by decide
  have b3 : KVASER_PCIEFD_RPACKET_BRS &&& KVASER_PCIEFD_RPACKET_ESI = 0 := by decide
  have b4 : KVASER_PCIEFD_RPACKET_BRS &&& 0xff = 0 := by decide
  have b5 : KVASER_PCIEFD_RPACKET_BRS &&& 0xF00 = 0 := by decide
  have b6 : KVASER_PCIEFD_RPACKET_BRS &&& 0xE000000 = 0 := by decide
  have e1 : KVASER_PCIEFD_RPACKET_ESI &&& KVASER_PCIEFD_RPACKET_FDF = 0 := by decide
  have e2 : KVASER_PCIEFD_RPACKET_ESI &&& KVASER_PCIEFD_RPACKET_BRS = 0 := by decide
  have e3 : KVASER_PCIEFD_RPACKET_ESI &&& KVASER_PCIEFD_RPACKET_ESI ≠ 0 := by decide
  have e4 : KVASER_PCIEFD_RPACKET_ESI &&& 0xff = 0 := by decide
  have e5 : KVASER_PCIEFD_RPACKET_ESI &&& 0xF00 = 0 := by decide
  have e6 : KVASER_PCIEFD_RPACKET_ESI &&& 0xE000000 = 0 := by decide
  have n1 : KVASER_PCIEFD_RPACKET_FDF ≠ 0 := by decide
  have n2 : KVASER_PCIEFD_RPACKET_BRS ≠ 0 := by decide
  have n3 : KVASER_PCIEFD_RPACKET_ESI ≠ 0 := by decide
  have hseq : can.echo_idx &&& (2 ^ 8 - 1) = can.echo_idx % 256 := by
    rw [Nat.and_pow_two_sub_one_eq_mod]
  simp only [kvaser_pciefd_prepare_tx_packet]
  by_cases hs : can.ctrlmode &&& CAN_CTRLMODE_ONE_SHOT = 0 <;>
  rcases Bool.eq_false_or_eq_true skb.is_canfd with hf | hf <;>
  by_cases hb : skb.cf.flags &&& CANFD_BRS = 0 <;>
  by_cases he : skb.cf.flags &&& CANFD_ESI = 0 <;>
    simp only [hs, hf, hb, he, or_and_mask, Nat.and_assoc, d1, d2, d3, d4, d5, d6, s1, s2, s3, s4,
      s5, s6, a1, a2, a3, a4, a5, a6, t1, t2, t3, t4, t5, t6, f1, f2, f3, f4, f5, f6, b1, b2, b3,
      b4, b5, b6, e1, e2, e3, e4, e5, e6, Nat.zero_or, Nat.or_zero, Nat.and_zero, hseq,
      if_true, if_false, ne_eq, not_true_eq_false, not_false_eq_true, true_and, false_and,
      and_self, iff_true, iff_false, true_iff, Bool.false_eq_true, n1, n2, n3, and_true,
      Nat.zero_and]

/-- The DLC table gives back every length that has a DLC of its own. -/
theorem dlc2len_len2dlc (len : Nat) (h : len ∈ dlc2len) :
    dlc2len.getD (can_fd_len2dlc len) 0 = len := by
  simp only [dlc2len, List.mem_cons, List.mem_singleton, List.not_mem_nil, or_false] at h
  rcases h with h | h | h | h | h | h | h | h | h | h | h | h | h | h | h | h <;> subst h <;> rfl

/-- The bytes read from DMA words that hold the payload words of a byte
array are the bytes of the array. -/
theorem dma_bytes_of_data_words (buffer : Nat → Nat) (pos len : Nat) (data : List Nat)
    (hdma : ∀ i, i < DIV_ROUND_UP len 4 → buffer (pos + i) = data_word data i) :
    dma_bytes buffer pos len = (List.range len).map (fun j => data.getD j 0 % 256) := by
  simp only [dma_bytes]
  apply List.map_congr_left
  intro j hj
  rw [List.mem_range] at hj
  have hq : j / 4 < DIV_ROUND_UP len 4 := by
    simp only [DIV_ROUND_UP]
    omega
  rw [hdma _ hq]
  simp only [data_word, le32_to_cpu]
  rw [byte_of_word _ _ _ _ _ (Nat.mod_lt _ (by norm_num)) (Nat.mod_lt _ (by norm_num))
    (Nat.mod_lt _ (by norm_num)) (Nat.mod_lt _ (by norm_num)) (Nat.mod_lt _ (by norm_num))]
  obtain ⟨q, r, hr, rfl⟩ : ∃ q r, r < 4 ∧ j = 4 * q + r := ⟨j / 4, j % 4, by omega, by omega⟩
  have h1 : (4 * q + r) / 4 = q := by omega
  have h2 : (4 * q + r) % 4 = r := by omega
  rw [h1, h2]
  interval_cases r <;> simp

/-- The first `len` bytes of the payload array of a prepared packet, as bytes,
are the first `len` bytes of the frame. -/
theorem prepared_data_bytes (can : kvaser_pciefd_can) (skb : sk_buff)
    (hbytes : ∀ b ∈ skb.cf.data, b < 256) (hdata : skb.cf.len ≤ skb.cf.data.length) :
    (List.range skb.cf.len).map
        (fun j => (kvaser_pciefd_prepare_tx_packet can skb).2.data.getD j 0 % 256)
      = skb.cf.data.take skb.cf.len := by
  apply List.ext_getElem
  · simp [List.length_take, hdata]
  · intro j h1 h2
    simp only [List.length_map, List.length_range] at h1
    have hj : j < skb.cf.data.length := by omega
    have hjt : j < (skb.cf.data.take skb.cf.len).length := by
      simp only [List.length_take]; omega
    simp only [List.getElem_map, List.getElem_range, kvaser_pciefd_prepare_tx_packet, memcpy,
      List.getElem_take]
    rw [List.getD_append _ _ _ _ hjt, List.getD_eq_getElem _ _ hjt, List.getElem_take]
    exact Nat.mod_eq_of_lt (hbytes _ (List.getElem_mem _))

/-- The flag byte `CANFD_FDF | (f & (CANFD_BRS | CANFD_ESI))`: its BRS and ESI
bits are those of `f` and its FDF bit is set. -/
theorem fd_flags_bits (f : Nat) :
    (CANFD_FDF ||| (f &&& (CANFD_BRS ||| CANFD_ESI))) &&& CANFD_BRS = f &&& CANFD_BRS ∧
    (CANFD_FDF ||| (f &&& (CANFD_BRS ||| CANFD_ESI))) &&& CANFD_ESI = f &&& CANFD_ESI ∧
    (CANFD_FDF ||| (f &&& (CANFD_BRS ||| CANFD_ESI))) &&& CANFD_FDF ≠ 0 := by
  have eb : CANFD_BRS = 2 ^ 0 := by decide
  have ee : CANFD_ESI = 2 ^ 1 := by decide
  rw [Nat.and_or_distrib_left]
  rcases and_bit_cases f 0 with hb | hb <;>
  rcases and_bit_cases f 1 with he | he <;>
    rw [← eb] at hb <;> rw [← ee] at he <;> rw [hb, he] <;> decide

/-- C11: round trip of the data-frame codec.  For a valid frame (`can_id` a
32-bit word without the error flag, a classic length 0..8 or an FD length of
the DLC table, payload bytes below 256), the packet built by
`kvaser_pciefd_prepare_tx_packet`, read back by
`kvaser_pciefd_handle_data_packet` from a DMA buffer that holds its payload
words, gives a received frame with the same `can_id` (identifier bits, EFF and
RTR flags), the same length, the same kind (FDF: the received skb is a CAN FD
skb, with `CANFD_FDF` set in its flags, exactly when the sent one is), for an
FD frame the same BRS and ESI flags (a classic frame is received with flags
0), and for a frame without RTR the same `len` data bytes; the low byte of
header word 1 is the echo index (mod 256, the index itself below 256). -/
theorem data_codec_round_trip (can : kvaser_pciefd_can) (skb : sk_buff) (pcie : kvaser_pciefd)
    (dma_buf pos ts : Nat)
    (hid : skb.cf.can_id < 2 ^ 32) (herr : skb.cf.can_id &&& CAN_ERR_FLAG = 0)
    (hlen : if skb.is_canfd = true then skb.cf.len ∈ dlc2len else skb.cf.len ≤ CAN_MAX_DLEN)
    (hbytes : ∀ b ∈ skb.cf.data, b < 256) (hdata : skb.cf.len ≤ skb.cf.data.length)
    (hdma : ∀ i, i < DIV_ROUND_UP skb.cf.len 4 →
      pcie.dma_data dma_buf (pos + i)
        = data_word (kvaser_pciefd_prepare_tx_packet can skb).2.data i)
    (hch : 0 < pcie.nr_channels)
    (halloc : (pcie.can 0).alloc_ok (pcie.can 0).alloc_cnt = true)
    (hrx : (pcie.can 0).rx_ok (pcie.can 0).rx_cnt = true) :
    ∃ r : sk_buff,
      ((kvaser_pciefd_handle_data_packet pcie
          ⟨(kvaser_pciefd_prepare_tx_packet can skb).2.header0,
           (kvaser_pciefd_prepare_tx_packet can skb).2.header1, ts⟩ dma_buf pos).2.can 0).rx_queue
        = (pcie.can 0).rx_queue ++ [r] ∧
      r.cf.can_id = skb.cf.can_id ∧
      r.cf.len = skb.cf.len ∧
      r.is_canfd = skb.is_canfd ∧
      r.cf.flags
        = (if skb.is_canfd = true then
            CANFD_FDF ||| (skb.cf.flags &&& (CANFD_BRS ||| CANFD_ESI))
           else 0) ∧
      (r.cf.flags &&& CANFD_FDF ≠ 0 ↔ skb.is_canfd = true) ∧
      r.cf.flags &&& CANFD_BRS = (if skb.is_canfd = true then skb.cf.flags &&& CANFD_BRS else 0) ∧
      r.cf.flags &&& CANFD_ESI = (if skb.is_canfd = true then skb.cf.flags &&& CANFD_ESI else 0) ∧
      (skb.cf.can_id &&& CAN_RTR_FLAG = 0 →
        r.cf.data.take skb.cf.len = skb.cf.data.take skb.cf.len) ∧
      (kvaser_pciefd_prepare_tx_packet can skb).2.header1 &&& 0xff = can.echo_idx % 256 ∧
      (can.echo_idx < 256 →
        (kvaser_pciefd_prepare_tx_packet can skb).2.header1 &&& 0xff = can.echo_idx) := by
  obtain ⟨hR, hI, hM⟩ := prepare_tx_packet_header0 can skb
  obtain ⟨hF, hB, hE, hS, hD, hC⟩ := prepare_tx_packet_header1 can skb
  have hbytes2 := prepared_data_bytes can skb hbytes hdata
  have hdma2 := dma_bytes_of_data_words (pcie.dma_data dma_buf) pos skb.cf.len _ hdma
  generalize (kvaser_pciefd_prepare_tx_packet can skb).2.header0 = h0 at *
  generalize (kvaser_pciefd_prepare_tx_packet can skb).2.header1 = h1 at *
  generalize (kvaser_pciefd_prepare_tx_packet can skb).2.data = tdata at *
  have hchid : KVASER_PCIEFD_PACKET_CHID ⟨h0, h1, ts⟩ = 0 := by
    have h7 : (0x7 : Nat) = 2 ^ 3 - 1 := by norm_num
    have hm : ((2 ^ 3 - 1) <<< 25 : Nat) = 0xE000000 := by decide
    simp only [KVASER_PCIEFD_PACKET_CHID, KVASER_PCIEFD_PACKET_CHID_SHIFT]
    rw [h7, Nat.and_pow_two_sub_one_eq_mod, shift_mod_eq_mask, hm, hC]
    rfl
  have hev := handle_data_packet_event pcie ⟨h0, h1, ts⟩ dma_buf pos
    (by rw [hchid]; exact hch) (by rw [hchid]; exact halloc)
  rw [hchid] at hev
  have hlen2 : can_fd_dlc2len (h1 >>> KVASER_PCIEFD_RPACKET_DLC_SHIFT) = skb.cf.len := by
    have hm : ((2 ^ 4 - 1) <<< 8 : Nat) = 0xF00 := by decide
    have h16 : (16 : Nat) = 2 ^ 4 := by norm_num
    rw [can_fd_dlc2len_header, h16, shift_mod_eq_mask, hm, hD, Nat.shiftLeft_shiftRight]
    apply dlc2len_len2dlc
    rcases Bool.eq_false_or_eq_true skb.is_canfd with hf | hf
    · simpa [hf] using hlen
    · simp only [hf, Bool.false_eq_true, if_false, CAN_MAX_DLEN] at hlen
      interval_cases skb.cf.len <;> decide
  have e31 : CAN_EFF_FLAG = 2 ^ 31 := by decide
  have e30 : CAN_RTR_FLAG = 2 ^ 30 := by decide
  have hsplit := can_id_split skb.cf.can_id hid herr
  have hflags : (rx_frame_event pcie ⟨h0, h1, ts⟩ dma_buf pos).cf.flags
      = (if skb.is_canfd = true then
          CANFD_FDF ||| (skb.cf.flags &&& (CANFD_BRS ||| CANFD_ESI))
         else 0) := by
    have eb : CANFD_BRS = 2 ^ 0 := by decide
    have ee : CANFD_ESI = 2 ^ 1 := by decide
    simp only [rx_frame_event, Nat.and_or_distrib_left]
    rcases Bool.eq_false_or_eq_true skb.is_canfd with hf | hf <;>
    rcases and_bit_cases skb.cf.flags 0 with hb | hb <;>
    rcases and_bit_cases skb.cf.flags 1 with he | he <;>
      rw [← eb] at hb <;> rw [← ee] at he <;>
      simp_all [Nat.or_assoc]
  obtain ⟨hfb, hfe, hff⟩ := fd_flags_bits skb.cf.flags
  refine ⟨rx_frame_event pcie ⟨h0, h1, ts⟩ dma_buf pos, ?_, ?_, ?_, ?_, hflags, ?_, ?_, ?_, ?_,
    hS, ?_⟩
  · rw [hev]
    simp [netif_rx, rx_counted, hrx]
  · simp only [rx_frame_event]
    rcases and_bit_cases skb.cf.can_id 31 with he | he <;>
    rcases and_bit_cases skb.cf.can_id 30 with hr | hr <;>
      rw [← e31] at he <;> rw [← e30] at hr <;>
      simp_all
  · simp only [rx_frame_event]
    exact hlen2
  · simp only [rx_frame_event]
    rcases Bool.eq_false_or_eq_true skb.is_canfd with hf | hf <;> simp_all
  · rw [hflags]
    rcases Bool.eq_false_or_eq_true skb.is_canfd with hf | hf
    · simp only [hf, if_true, iff_true]; exact hff
    · simp [hf]
  · rw [hflags]
    rcases Bool.eq_false_or_eq_true skb.is_canfd with hf | hf
    · simp only [hf, if_true]; exact hfb
    · simp [hf]
  · rw [hflags]
    rcases Bool.eq_false_or_eq_true skb.is_canfd with hf | hf
    · simp only [hf, if_true]; exact hfe
    · simp [hf]
  · intro hrtr
    have hr0 : h0 &&& KVASER_PCIEFD_RPACKET_RTR = 0 := by
      by_contra hne
      exact (hR.mp hne) hrtr
    simp only [rx_frame_event, hr0, ne_eq, not_true_eq_false, if_false, hlen2]
    rw [memcpy_take _ _ _ (dma_bytes_length _ _ _), hdma2, hbytes2]
  · intro h
    rw [hS]
    exact Nat.mod_eq_of_lt h

/-- Witness for C11: the FD frame `fd_skb` (flags BRS) sent with echo index 3
and read back from `loopback_pcie`; the low byte of header word 1 is 3 and the
frame received has the flags FDF and BRS. -/
theorem data_codec_round_trip_witness :
    fd_skb.cf.can_id < 2 ^ 32 ∧ fd_skb.cf.can_id &&& CAN_ERR_FLAG = 0 ∧
    fd_skb.cf.len ∈ dlc2len ∧ (∀ b ∈ fd_skb.cf.data, b < 256) ∧
    fd_skb.cf.len ≤ fd_skb.cf.data.length ∧
    (kvaser_pciefd_prepare_tx_packet { attached_can 8 with echo_idx := 3 } fd_skb).2.header1
      &&& 0xff = 3 ∧
    ((kvaser_pciefd_handle_data_packet loopback_pcie
        ⟨(kvaser_pciefd_prepare_tx_packet { attached_can 8 with echo_idx := 3 } fd_skb).2.header0,
         (kvaser_pciefd_prepare_tx_packet { attached_can 8 with echo_idx := 3 } fd_skb).2.header1,
         160⟩ 0 0).2.can 0).rx_queue.map
      (fun r => (r.is_canfd, r.cf.can_id, r.cf.len, r.cf.flags))
      = [(true, 0x12345678 ||| CAN_EFF_FLAG, 12, CANFD_FDF ||| CANFD_BRS)] :=
  ⟨by decide, by decide, by decide, by decide, by decide,
    (data_codec_round_trip { attached_can 8 with echo_idx := 3 } fd_skb loopback_pcie 0 0 160
      (by decide) (by decide) (by decide) (by decide) (by decide)
      (fun i _ => by rw [Nat.zero_add]; rfl)
      (by decide) (by decide) (by decide)).choose_spec.2.2.2.2.2.2.2.2.2.2 (by decide),
    by decide⟩

/-- What `kvaser_pciefd_start_controller_flush` leaves alone. -/
theorem start_controller_flush_frame (can : kvaser_pciefd_can) :
    (kvaser_pciefd_start_controller_flush can).state = can.state ∧
    (kvaser_pciefd_start_controller_flush can).bec = can.bec ∧
    (kvaser_pciefd_start_controller_flush can).err_rep_cnt = can.err_rep_cnt ∧
    (kvaser_pciefd_start_controller_flush can).queue_stopped = can.queue_stopped ∧
    (kvaser_pciefd_start_controller_flush can).restart_ms = can.restart_ms ∧
    (kvaser_pciefd_start_controller_flush can).flush_comp = can.flush_comp ∧
    (kvaser_pciefd_start_controller_flush can).start_comp = can.start_comp ∧
    (kvaser_pciefd_start_controller_flush can).reg_stat = can.reg_stat ∧
    (kvaser_pciefd_start_controller_flush can).carrier_ok = can.carrier_ok := by
  simp only [kvaser_pciefd_start_controller_flush, kvaser_pciefd_kcan_abort_flush_reset,
    kvaser_pciefd_send_kcan_cmd]
  split_ifs <;> simp

/-- What the statements of `kvaser_pciefd_bus_on` before its first wait leave
alone. -/
theorem bus_on_flush_frame (can : kvaser_pciefd_can) :
    (kvaser_pciefd_bus_on_flush can).state = can.state ∧
    (kvaser_pciefd_bus_on_flush can).bec = can.bec ∧
    (kvaser_pciefd_bus_on_flush can).err_rep_cnt = can.err_rep_cnt ∧
    (kvaser_pciefd_bus_on_flush can).flush_comp = can.flush_comp ∧
    (kvaser_pciefd_bus_on_flush can).reg_stat = can.reg_stat := by
  obtain ⟨h1, h2, h3, -, -, h6, -, h8, -⟩ :=
    start_controller_flush_frame (del_timer can)
  simp only [kvaser_pciefd_bus_on_flush]
  split_ifs
  · exact ⟨rfl, rfl, rfl, rfl, rfl⟩
  · exact ⟨h1, h2, h3, h6, h8⟩

/-- The result of `wait_for_completion_timeout` is non-zero exactly when the
completion is signalled. -/
theorem wait_for_completion_timeout_fst (done : Nat) :
    (wait_for_completion_timeout done).1 = 0 ↔ completion_done done = false := by
  simp only [wait_for_completion_timeout, completion_done]
  split_ifs with h <;> simp [h]

/-- The three results of `kvaser_pciefd_bus_on`, by the completions the two
waits observe. -/
theorem bus_on_cases (can : kvaser_pciefd_can) (irq1 irq2 : kvaser_pciefd_can → kvaser_pciefd_can) :
    (completion_done (bus_on_flush_wait can irq1).flush_comp = false →
      kvaser_pciefd_bus_on can irq1 irq2 = (- ETIMEDOUT, bus_on_flush_wait can irq1)) ∧
    (completion_done (bus_on_flush_wait can irq1).flush_comp = true →
      completion_done (bus_on_start_wait can irq1 irq2).start_comp = false →
      kvaser_pciefd_bus_on can irq1 irq2 = (- ETIMEDOUT, bus_on_start_wait can irq1 irq2)) ∧
    (completion_done (bus_on_flush_wait can irq1).flush_comp = true →
      completion_done (bus_on_start_wait can irq1 irq2).start_comp = true →
      kvaser_pciefd_bus_on can irq1 irq2
        = (0, kvaser_pciefd_bus_on_finish
            { bus_on_start_wait can irq1 irq2 with
              start_comp :=
                (wait_for_completion_timeout (bus_on_start_wait can irq1 irq2).start_comp).2 })) := by
  refine ⟨?_, ?_, ?_⟩
  · intro h
    have hw := (wait_for_completion_timeout_fst _).mpr h
    have h0 : (bus_on_flush_wait can irq1).flush_comp = 0 := by
      simpa [completion_done] using h
    simp only [kvaser_pciefd_bus_on, ← bus_on_flush_wait.eq_1, hw, if_true]
    simp [wait_for_completion_timeout, h0]
    rw [← h0]
  · intro h1 h2
    have hw1 : (wait_for_completion_timeout (bus_on_flush_wait can irq1).flush_comp).1 ≠ 0 := by
      rw [Ne, wait_for_completion_timeout_fst, h1]; simp
    have hw2 := (wait_for_completion_timeout_fst _).mpr h2
    have h0 : (bus_on_start_wait can irq1 irq2).start_comp = 0 := by
      simpa [completion_done] using h2
    simp only [kvaser_pciefd_bus_on, ← bus_on_flush_wait.eq_1, hw1, if_false,
      ← bus_on_start_wait.eq_1, hw2, if_true]
    simp [wait_for_completion_timeout, h0]
    rw [← h0]
  · intro h1 h2
    have hw1 : (wait_for_completion_timeout (bus_on_flush_wait can irq1).flush_comp).1 ≠ 0 := by
      rw [Ne, wait_for_completion_timeout_fst, h1]; simp
    have hw2 : (wait_for_completion_timeout (bus_on_start_wait can irq1 irq2).start_comp).1 ≠ 0 := by
      rw [Ne, wait_for_completion_timeout_fst, h2]; simp
    simp only [kvaser_pciefd_bus_on, ← bus_on_flush_wait.eq_1, hw1, if_false,
      ← bus_on_start_wait.eq_1, hw2]

/-- What the statements of `kvaser_pciefd_bus_on` between its waits leave
alone. -/
theorem bus_on_reset_frame (can : kvaser_pciefd_can) :
    (kvaser_pciefd_bus_on_reset can).state = can.state ∧
    (kvaser_pciefd_bus_on_reset can).bec = can.bec ∧
    (kvaser_pciefd_bus_on_reset can).err_rep_cnt = can.err_rep_cnt ∧
    (kvaser_pciefd_bus_on_reset can).cmd_seq = can.cmd_seq ∧
    (kvaser_pciefd_bus_on_reset can).reg_cmd = can.reg_cmd ∧
    (kvaser_pciefd_bus_on_reset can).reg_stat = can.reg_stat ∧
    (kvaser_pciefd_bus_on_reset can).start_comp = can.start_comp :=
  ⟨rfl, rfl, rfl, rfl, rfl, rfl, rfl⟩

/-- What the statements of `kvaser_pciefd_bus_on` after its second wait
set, and the command state they leave alone. -/
theorem bus_on_finish_spec (can : kvaser_pciefd_can) :
    (kvaser_pciefd_bus_on_finish can).state = can_state.ERROR_ACTIVE ∧
    (kvaser_pciefd_bus_on_finish can).bec = ⟨0, 0⟩ ∧
    (kvaser_pciefd_bus_on_finish can).err_rep_cnt = 0 ∧
    (kvaser_pciefd_bus_on_finish can).queue_stopped = false ∧
    (kvaser_pciefd_bus_on_finish can).cmd_seq = can.cmd_seq ∧
    (kvaser_pciefd_bus_on_finish can).reg_cmd = can.reg_cmd :=
  ⟨rfl, rfl, rfl, rfl, rfl, rfl⟩

/-- C15: `kvaser_pciefd_bus_on` returns 0 exactly when both bounded waits
observe their completion (the flush completion when the first wait returns,
the start completion when the second returns).  On success the state is
ERROR_ACTIVE, the stored error counters are (0,0), `err_rep_cnt` is 0 and the
send queue is resumed.  Otherwise it returns `-ETIMEDOUT`, and the bus state,
the error counters and `err_rep_cnt` are those of before the call, the
interrupt side having left them alone during the waits. -/
theorem bus_on_returns (can : kvaser_pciefd_can) (irq1 irq2 : kvaser_pciefd_can → kvaser_pciefd_can)
    (hq1 : ∀ c, (irq1 c).state = c.state ∧ (irq1 c).bec = c.bec ∧
      (irq1 c).err_rep_cnt = c.err_rep_cnt)
    (hq2 : ∀ c, (irq2 c).state = c.state ∧ (irq2 c).bec = c.bec ∧
      (irq2 c).err_rep_cnt = c.err_rep_cnt) :
    ((kvaser_pciefd_bus_on can irq1 irq2).1 = 0 ↔
      completion_done (bus_on_flush_wait can irq1).flush_comp = true ∧
      completion_done (bus_on_start_wait can irq1 irq2).start_comp = true) ∧
    ((kvaser_pciefd_bus_on can irq1 irq2).1 = 0 →
      (kvaser_pciefd_bus_on can irq1 irq2).2.state = can_state.ERROR_ACTIVE ∧
      (kvaser_pciefd_bus_on can irq1 irq2).2.bec = ⟨0, 0⟩ ∧
      (kvaser_pciefd_bus_on can irq1 irq2).2.err_rep_cnt = 0 ∧
      (kvaser_pciefd_bus_on can irq1 irq2).2.queue_stopped = false) ∧
    ((kvaser_pciefd_bus_on can irq1 irq2).1 ≠ 0 →
      (kvaser_pciefd_bus_on can irq1 irq2).1 = - ETIMEDOUT ∧
      (kvaser_pciefd_bus_on can irq1 irq2).2.state = can.state ∧
      (kvaser_pciefd_bus_on can irq1 irq2).2.bec = can.bec ∧
      (kvaser_pciefd_bus_on can irq1 irq2).2.err_rep_cnt = can.err_rep_cnt) := by
  obtain ⟨hc1, hc2, hc3⟩ := bus_on_cases can irq1 irq2
  obtain ⟨f1, f2, f3, -, -⟩ := bus_on_flush_frame can
  obtain ⟨a1, a2, a3⟩ := hq1 (kvaser_pciefd_bus_on_flush can)
  have hT : (- ETIMEDOUT : Int) ≠ 0 := by decide
  have w1 : (bus_on_flush_wait can irq1).state = can.state ∧
      (bus_on_flush_wait can irq1).bec = can.bec ∧
      (bus_on_flush_wait can irq1).err_rep_cnt = can.err_rep_cnt := by
    simp only [bus_on_flush_wait]
    exact ⟨a1.trans f1, a2.trans f2, a3.trans f3⟩
  have w2 : (bus_on_start_wait can irq1 irq2).state = can.state ∧
      (bus_on_start_wait can irq1 irq2).bec = can.bec ∧
      (bus_on_start_wait can irq1 irq2).err_rep_cnt = can.err_rep_cnt := by
    obtain ⟨b1, b2, b3⟩ := hq2 (kvaser_pciefd_bus_on_reset
      { bus_on_flush_wait can irq1 with
        flush_comp := (wait_for_completion_timeout (bus_on_flush_wait can irq1).flush_comp).2 })
    simp only [bus_on_start_wait]
    exact ⟨b1.trans w1.1, b2.trans w1.2.1, b3.trans w1.2.2⟩
  rcases Bool.eq_false_or_eq_true (completion_done (bus_on_flush_wait can irq1).flush_comp)
    with h1 | h1
  · rcases Bool.eq_false_or_eq_true
      (completion_done (bus_on_start_wait can irq1 irq2).start_comp) with h2 | h2
    · rw [hc3 h1 h2]
      obtain ⟨s1, s2, s3, s4, -, -⟩ := bus_on_finish_spec
        { bus_on_start_wait can irq1 irq2 with
          start_comp :=
            (wait_for_completion_timeout (bus_on_start_wait can irq1 irq2).start_comp).2 }
      exact ⟨⟨fun _ => ⟨h1, h2⟩, fun _ => rfl⟩, fun _ => ⟨s1, s2, s3, s4⟩,
        fun h => absurd rfl h⟩
    · rw [hc2 h1 h2]
      refine ⟨⟨fun h => absurd h hT, fun h => ?_⟩, fun h => absurd h hT,
        fun _ => ⟨rfl, w2.1, w2.2.1, w2.2.2⟩⟩
      rw [h2] at h
      exact absurd h.2 (by decide)
  · rw [hc1 h1]
    refine ⟨⟨fun h => absurd h hT, fun h => ?_⟩, fun h => absurd h hT,
      fun _ => ⟨rfl, w1.1, w1.2.1, w1.2.2⟩⟩
    rw [h1] at h
    exact absurd h.1 (by decide)

/-- The interrupt side handling a flush acknowledgement for channel `ch`
signals the flush completion unless it is already signalled, and changes
nothing else. -/
theorem eflush_packet_irq_eq (pcie : kvaser_pciefd) (p : kvaser_pciefd_rx_packet) (ch : Nat)
    (c : kvaser_pciefd_can) (hch : KVASER_PCIEFD_PACKET_CHID p = ch) (hlt : ch < pcie.nr_channels) :
    eflush_packet_irq pcie p ch c
      = if c.flush_comp = 0 then { c with flush_comp := complete c.flush_comp } else c := by
  subst hch
  have hlt2 : ¬ KVASER_PCIEFD_PACKET_CHID p ≥ pcie.nr_channels := by omega
  simp only [eflush_packet_irq, kvaser_pciefd_handle_eflush_packet, hlt2, if_false,
    Function.update_same, completion_done]
  split_ifs <;> simp_all

/-- The interrupt side handling, for channel `ch`, a status packet with IRM
clear in header word 0 and AUTO set in header word 1: the start completion is
signalled when the packet has RMCD set, the status register shows none of the
bus-off bits and the completion is not signalled yet; nothing else changes. -/
theorem status_packet_irq_eq (pcie : kvaser_pciefd) (p : kvaser_pciefd_rx_packet) (ch stat : Nat)
    (c : kvaser_pciefd_can) (hch : KVASER_PCIEFD_PACKET_CHID p = ch) (hlt : ch < pcie.nr_channels)
    (hirm : p.header0 &&& KVASER_PCIEFD_SPACK_IRM = 0)
    (hauto : p.header1 &&& KVASER_PCIEFD_SPACK_AUTO ≠ 0) :
    status_packet_irq pcie p ch stat c
      = if p.header0 &&& KVASER_PCIEFD_SPACK_RMCD ≠ 0 ∧
            stat &&& KVASER_PCIEFD_KCAN_STAT_BUS_OFF_MASK = 0 ∧ c.start_comp = 0
        then { c with reg_stat := stat, start_comp := complete c.start_comp }
        else { c with reg_stat := stat } := by
  subst hch
  have hlt2 : ¬ KVASER_PCIEFD_PACKET_CHID p ≥ pcie.nr_channels := by omega
  simp only [status_packet_irq, kvaser_pciefd_handle_status_packet, hlt2, if_false,
    Function.update_same, completion_done, hirm, hauto, ne_eq, not_true_eq_false, false_and,
    and_false, not_false_eq_true, true_and]
  split_ifs <;> simp_all

/-- Witness for C15: the bus-on of an idle stopped channel whose flush is
acknowledged during the first wait and whose leaving of reset mode is reported
during the second returns 0 in state ERROR_ACTIVE. -/
theorem bus_on_returns_witness :
    (kvaser_pciefd_bus_on (idle_can 0) flush_acked (left_reset 1 (bus_on_status_packet 1))).1 = 0 ∧
    (kvaser_pciefd_bus_on (idle_can 0) flush_acked (left_reset 1 (bus_on_status_packet 1))).2.state
      = can_state.ERROR_ACTIVE ∧
    (kvaser_pciefd_bus_on (idle_can 0) flush_acked (left_reset 1 (bus_on_status_packet 1))).2.bec
      = ⟨0, 0⟩ ∧
    (kvaser_pciefd_bus_on (idle_can 0) flush_acked (left_reset 1 (bus_on_status_packet 1))).2.err_rep_cnt
      = 0 ∧
    (kvaser_pciefd_bus_on (idle_can 0) flush_acked (left_reset 1 (bus_on_status_packet 1))).2.queue_stopped
      = false :=
  ⟨by decide,
    (bus_on_returns (idle_can 0) flush_acked (left_reset 1 (bus_on_status_packet 1))
      (fun c => by
        rw [flush_acked, eflush_packet_irq_eq quiet_pcie eflush_ack_packet 0 c (by decide) (by decide)]
        split_ifs <;> exact ⟨rfl, rfl, rfl⟩)
      (fun c => by
        rw [left_reset, status_packet_irq_eq quiet_pcie (bus_on_status_packet 1) 0 _ c (by decide)
          (by decide) (by decide) (by decide)]
        split_ifs <;> exact ⟨rfl, rfl, rfl⟩)).2.1 (by decide)⟩

/-- C16, counterexample: the bus-on of the idle stopped channel `idle_can 5`
returns 0 with the error counters (0,0), and `cmd_seq`, 5 before the call, is 6
after it (the abort/flush/reset command of the flush request); on a channel
whose flush completion is already signalled it stays 5. -/
theorem bus_on_keeps_cmd_seq :
    (idle_can 5).cmd_seq = 5 ∧
    (kvaser_pciefd_bus_on (idle_can 5) flush_acked (left_reset 6 (bus_on_status_packet 6))).1 = 0 ∧
    (kvaser_pciefd_bus_on (idle_can 5) flush_acked (left_reset 6 (bus_on_status_packet 6))).2.bec
      = ⟨0, 0⟩ ∧
    (kvaser_pciefd_bus_on (idle_can 5) flush_acked (left_reset 6 (bus_on_status_packet 6))).2.cmd_seq
      = 6 ∧
    (kvaser_pciefd_bus_on { idle_can 5 with flush_comp := 1 } flush_acked
      (left_reset 5 (bus_on_status_packet 5))).1 = 0 ∧
    (kvaser_pciefd_bus_on { idle_can 5 with flush_comp := 1 } flush_acked
      (left_reset 5 (bus_on_status_packet 5))).2.cmd_seq = 5 := by
  refine ⟨by decide, by decide, by decide, by decide, by decide, by decide⟩

/-- The command state after `kvaser_pciefd_start_controller_flush`: the
abort/flush/reset command is sent exactly when the status register shows
IDLE. -/
theorem start_controller_flush_cmd (can : kvaser_pciefd_can) :
    (kvaser_pciefd_start_controller_flush can).cmd_seq
      = (if can.reg_stat &&& KVASER_PCIEFD_KCAN_STAT_IDLE ≠ 0 then (can.cmd_seq + 1) % 256
         else can.cmd_seq) ∧
    (kvaser_pciefd_start_controller_flush can).reg_cmd
      = (if can.reg_stat &&& KVASER_PCIEFD_KCAN_STAT_IDLE ≠ 0 then
          can.reg_cmd ++ [KVASER_PCIEFD_KCAN_CMD_AT |||
            (((can.cmd_seq + 1) % 256) <<< KVASER_PCIEFD_KCAN_CMD_SEQ_SHIFT)]
         else can.reg_cmd) := by
  simp only [kvaser_pciefd_start_controller_flush, kvaser_pciefd_kcan_abort_flush_reset,
    kvaser_pciefd_send_kcan_cmd]
  split_ifs <;> simp

/-- The command state after the statements of `kvaser_pciefd_bus_on` before
its first wait. -/
theorem bus_on_flush_cmd (can : kvaser_pciefd_can) :
    (kvaser_pciefd_bus_on_flush can).cmd_seq
      = (if can.flush_comp = 0 ∧ can.reg_stat &&& KVASER_PCIEFD_KCAN_STAT_IDLE ≠ 0
         then (can.cmd_seq + 1) % 256 else can.cmd_seq) ∧
    (kvaser_pciefd_bus_on_flush can).reg_cmd
      = (if can.flush_comp = 0 ∧ can.reg_stat &&& KVASER_PCIEFD_KCAN_STAT_IDLE ≠ 0 then
          can.reg_cmd ++ [KVASER_PCIEFD_KCAN_CMD_AT |||
            (((can.cmd_seq + 1) % 256) <<< KVASER_PCIEFD_KCAN_CMD_SEQ_SHIFT)]
         else can.reg_cmd) := by
  obtain ⟨h1, h2⟩ := start_controller_flush_cmd (del_timer can)
  simp only [kvaser_pciefd_bus_on_flush, completion_done]
  by_cases h0 : can.flush_comp = 0
  · by_cases hi : can.reg_stat &&& KVASER_PCIEFD_KCAN_STAT_IDLE = 0
    · simp_all [del_timer]
    · simp_all [del_timer]
  · simp [h0, del_timer]

/-- C16 (amended): `kvaser_pciefd_bus_on` does not reset `cmd_seq`.  With an
interrupt side that leaves `cmd_seq` alone during the waits, `cmd_seq` after
the call (successful or not) is the value before it, increased by 1 mod 256
when the flush request sent the abort/flush/reset command (flush completion
not signalled and status register IDLE); a successful call resets the error
counters to (0,0); `cmd_seq` is set to 0 at attach, by
`kvaser_pciefd_setup_can_ctrls`. -/
theorem bus_on_cmd_seq (can : kvaser_pciefd_can) (irq1 irq2 : kvaser_pciefd_can → kvaser_pciefd_can)
    (hq1 : ∀ c, (irq1 c).cmd_seq = c.cmd_seq) (hq2 : ∀ c, (irq2 c).cmd_seq = c.cmd_seq) :
    (kvaser_pciefd_bus_on can irq1 irq2).2.cmd_seq
      = (if can.flush_comp = 0 ∧ can.reg_stat &&& KVASER_PCIEFD_KCAN_STAT_IDLE ≠ 0
         then (can.cmd_seq + 1) % 256 else can.cmd_seq) ∧
    ((kvaser_pciefd_bus_on can irq1 irq2).1 = 0 →
      (kvaser_pciefd_bus_on can irq1 irq2).2.bec = ⟨0, 0⟩) ∧
    (kvaser_pciefd_setup_can_ctrl can).2.cmd_seq = 0 := by
  obtain ⟨hc1, hc2, hc3⟩ := bus_on_cases can irq1 irq2
  obtain ⟨hcmd, -⟩ := bus_on_flush_cmd can
  have hT : (- ETIMEDOUT : Int) ≠ 0 := by decide
  have w1 : (bus_on_flush_wait can irq1).cmd_seq = (kvaser_pciefd_bus_on_flush can).cmd_seq := by
    simp only [bus_on_flush_wait]
    exact hq1 _
  have w2 : (bus_on_start_wait can irq1 irq2).cmd_seq
      = (kvaser_pciefd_bus_on_flush can).cmd_seq := by
    simp only [bus_on_start_wait]
    rw [hq2]
    exact w1
  refine ⟨?_, ?_, ?_⟩
  · rw [← hcmd]
    rcases Bool.eq_false_or_eq_true (completion_done (bus_on_flush_wait can irq1).flush_comp)
      with h1 | h1
    · rcases Bool.eq_false_or_eq_true
        (completion_done (bus_on_start_wait can irq1 irq2).start_comp) with h2 | h2
      · rw [hc3 h1 h2]
        exact w2
      · rw [hc2 h1 h2]
        exact w2
    · rw [hc1 h1]
      exact w1
  · rcases Bool.eq_false_or_eq_true (completion_done (bus_on_flush_wait can irq1).flush_comp)
      with h1 | h1
    · rcases Bool.eq_false_or_eq_true
        (completion_done (bus_on_start_wait can irq1 irq2).start_comp) with h2 | h2
      · rw [hc3 h1 h2]
        intro _
        rfl
      · rw [hc2 h1 h2]
        intro h
        exact absurd h hT
    · rw [hc1 h1]
      intro h
      exact absurd h hT
  · simp only [kvaser_pciefd_setup_can_ctrl]
    split_ifs <;> rfl

/-- Witness for C16 (amended): the bus-on of `idle_can 5`, during which the
interrupt side handles a flush acknowledgement and the status packet of the
controller leaving reset mode. -/
theorem bus_on_cmd_seq_witness :
    (idle_can 5).flush_comp = 0 ∧
    (idle_can 5).reg_stat &&& KVASER_PCIEFD_KCAN_STAT_IDLE ≠ 0 ∧
    (kvaser_pciefd_bus_on (idle_can 5) flush_acked (left_reset 6 (bus_on_status_packet 6))).2.cmd_seq
      = (if (idle_can 5).flush_comp = 0 ∧
            (idle_can 5).reg_stat &&& KVASER_PCIEFD_KCAN_STAT_IDLE ≠ 0
         then ((idle_can 5).cmd_seq + 1) % 256 else (idle_can 5).cmd_seq) :=
  ⟨by decide, by decide,
    (bus_on_cmd_seq (idle_can 5) flush_acked (left_reset 6 (bus_on_status_packet 6))
      (fun c => by
        rw [flush_acked, eflush_packet_irq_eq quiet_pcie eflush_ack_packet 0 c (by decide)
          (by decide)]
        split_ifs <;> rfl)
      (fun c => by
        rw [left_reset, status_packet_irq_eq quiet_pcie (bus_on_status_packet 6) 0 _ c (by decide)
          (by decide) (by decide) (by decide)]
        split_ifs <;> rfl)).1⟩

/-- The helper `can_update_state_error_stats` changes the CAN statistics
only. -/
theorem can_update_state_error_stats_frame (can : kvaser_pciefd_can) (new_state : can_state) :
    ∃ cs, can_update_state_error_stats can new_state = { can with can_stats := cs } := by
  simp only [can_update_state_error_stats]
  split_ifs
  · exact ⟨can.can_stats, rfl⟩
  · cases new_state <;> exact ⟨_, rfl⟩

/-- The helper `can_change_state` changes the CAN statistics and the state
only. -/
theorem can_change_state_frame (can : kvaser_pciefd_can) (cf : Option canfd_frame)
    (tx_state rx_state : can_state) :
    ∃ cs st, (can_change_state can cf tx_state rx_state).2
      = { can with can_stats := cs, state := st } := by
  obtain ⟨cs, hcs⟩ := can_update_state_error_stats_frame can (can_state.max tx_state rx_state)
  simp only [can_change_state, hcs]
  split_ifs <;> cases cf <;>
    first
    | exact ⟨can.can_stats, can.state, rfl⟩
    | exact ⟨cs, can_state.max tx_state rx_state, rfl⟩

/-- C17, counterexample: on the idle channel `idle_can 0` the flush request of
`kvaser_pciefd_bus_on` sends the abort/flush/reset command (`cmd_seq` 0 to 1);
the flush acknowledgement has not arrived (`flush_comp = 0`) and the status
register still shows IDLE.  A further flush request then sends the command
again, from `kvaser_pciefd_stop`, from `kvaser_pciefd_change_state` into
BUS_OFF and from a second `kvaser_pciefd_bus_on` alike: `cmd_seq` is 2 and two
command words have been written. -/
theorem second_flush_request_sends_again :
    ((kvaser_pciefd_bus_on_flush (idle_can 0)).cmd_seq = 1 ∧
      (kvaser_pciefd_bus_on_flush (idle_can 0)).reg_cmd.length = 1 ∧
      (kvaser_pciefd_bus_on_flush (idle_can 0)).flush_comp = 0) ∧
    ((kvaser_pciefd_stop (kvaser_pciefd_bus_on_flush (idle_can 0)) id).2.cmd_seq = 2 ∧
      (kvaser_pciefd_stop (kvaser_pciefd_bus_on_flush (idle_can 0)) id).2.reg_cmd.length = 2) ∧
    ((kvaser_pciefd_change_state (kvaser_pciefd_bus_on_flush (idle_can 0)) none
        can_state.BUS_OFF can_state.BUS_OFF can_state.BUS_OFF).2.cmd_seq = 2 ∧
      (kvaser_pciefd_change_state (kvaser_pciefd_bus_on_flush (idle_can 0)) none
        can_state.BUS_OFF can_state.BUS_OFF can_state.BUS_OFF).2.reg_cmd.length = 2) ∧
    ((kvaser_pciefd_bus_on (kvaser_pciefd_bus_on_flush (idle_can 0)) id id).2.cmd_seq = 2 ∧
      (kvaser_pciefd_bus_on (kvaser_pciefd_bus_on_flush (idle_can 0)) id id).2.reg_cmd.length
        = 2) := by
  refine ⟨by decide, by decide, by decide, by decide⟩

/-- What `kvaser_pciefd_stop` does to the command state, with an interrupt side
that leaves it alone during the wait. -/
theorem stop_cmd (can : kvaser_pciefd_can) (irq : kvaser_pciefd_can → kvaser_pciefd_can)
    (hq : ∀ c, (irq c).cmd_seq = c.cmd_seq ∧ (irq c).reg_cmd = c.reg_cmd) :
    (kvaser_pciefd_stop can irq).2.cmd_seq
      = (if can.flush_comp = 0 ∧ can.reg_stat &&& KVASER_PCIEFD_KCAN_STAT_IDLE ≠ 0
         then (can.cmd_seq + 1) % 256 else can.cmd_seq) ∧
    (kvaser_pciefd_stop can irq).2.reg_cmd
      = (if can.flush_comp = 0 ∧ can.reg_stat &&& KVASER_PCIEFD_KCAN_STAT_IDLE ≠ 0 then
          can.reg_cmd ++ [KVASER_PCIEFD_KCAN_CMD_AT |||
            (((can.cmd_seq + 1) % 256) <<< KVASER_PCIEFD_KCAN_CMD_SEQ_SHIFT)]
         else can.reg_cmd) := by
  obtain ⟨h1, h2⟩ := start_controller_flush_cmd can
  have hs : (kvaser_pciefd_stop can irq).2.cmd_seq
          = (if ¬ completion_done can.flush_comp then kvaser_pciefd_start_controller_flush can
             else can).cmd_seq ∧
      (kvaser_pciefd_stop can irq).2.reg_cmd
          = (if ¬ completion_done can.flush_comp then kvaser_pciefd_start_controller_flush can
             else can).reg_cmd := by
    obtain ⟨q1, q2⟩ := hq (if ¬ completion_done can.flush_comp then
      kvaser_pciefd_start_controller_flush can else can)
    simp only [kvaser_pciefd_stop, close_candev, can_flush_echo_skb, del_timer]
    split_ifs <;> simp_all
  obtain ⟨s1, s2⟩ := hs
  rw [s1, s2]
  simp only [completion_done]
  by_cases h0 : can.flush_comp = 0
  · by_cases hi : can.reg_stat &&& KVASER_PCIEFD_KCAN_STAT_IDLE = 0
    · simp_all
    · simp_all
  · simp [h0]

/-- A field that the interrupt side, the statements of `kvaser_pciefd_bus_on`
after its first wait and the completion counters leave alone has, after the
call, the value the flush request left. -/
theorem bus_on_preserves {α : Type} (f : kvaser_pciefd_can → α) (can : kvaser_pciefd_can)
    (irq1 irq2 : kvaser_pciefd_can → kvaser_pciefd_can)
    (hq1 : ∀ c, f (irq1 c) = f c) (hq2 : ∀ c, f (irq2 c) = f c)
    (hreset : ∀ c, f (kvaser_pciefd_bus_on_reset c) = f c)
    (hfin : ∀ c, f (kvaser_pciefd_bus_on_finish c) = f c)
    (hfc : ∀ (c : kvaser_pciefd_can) (v : Nat), f { c with flush_comp := v } = f c)
    (hsc : ∀ (c : kvaser_pciefd_can) (v : Nat), f { c with start_comp := v } = f c) :
    f (kvaser_pciefd_bus_on can irq1 irq2).2 = f (kvaser_pciefd_bus_on_flush can) := by
  obtain ⟨hc1, hc2, hc3⟩ := bus_on_cases can irq1 irq2
  have w1 : f (bus_on_flush_wait can irq1) = f (kvaser_pciefd_bus_on_flush can) := by
    simp only [bus_on_flush_wait]
    exact hq1 _
  have w2 : f (bus_on_start_wait can irq1 irq2) = f (kvaser_pciefd_bus_on_flush can) := by
    simp only [bus_on_start_wait]
    rw [hq2, hreset, hfc]
    exact w1
  rcases Bool.eq_false_or_eq_true (completion_done (bus_on_flush_wait can irq1).flush_comp)
    with h1 | h1
  · rcases Bool.eq_false_or_eq_true
      (completion_done (bus_on_start_wait can irq1 irq2).start_comp) with h2 | h2
    · rw [hc3 h1 h2]
      simp only []
      rw [hfin, hsc]
      exact w2
    · rw [hc2 h1 h2]
      exact w2
  · rw [hc1 h1]
    exact w1

/-- C17 (amended): the driver keeps no record of an outstanding flush; a flush
request sends the abort/flush/reset command exactly when the status register
it reads shows IDLE.  So after a first request that sent the command
(`cmd_seq` plus 1), a further request made while the status register no longer
shows IDLE (the controller reports the pending abort/flush) sends no second
command, through `kvaser_pciefd_start_controller_flush` directly, through
`kvaser_pciefd_bus_on`, through `kvaser_pciefd_stop` and through
`kvaser_pciefd_change_state` into BUS_OFF alike: over the two requests
`cmd_seq` is increased by exactly 1 (mod 256) and one command word is
written. -/
theorem flush_request_once (can : kvaser_pciefd_can) (stat2 : Nat)
    (irq : kvaser_pciefd_can → kvaser_pciefd_can) (cf : Option canfd_frame)
    (tx_state rx_state : can_state)
    (hidle : can.reg_stat &&& KVASER_PCIEFD_KCAN_STAT_IDLE ≠ 0)
    (hpend : stat2 &&& KVASER_PCIEFD_KCAN_STAT_IDLE = 0)
    (hq : ∀ c, (irq c).cmd_seq = c.cmd_seq ∧ (irq c).reg_cmd = c.reg_cmd) :
    ((flush_pending can stat2).cmd_seq = (can.cmd_seq + 1) % 256 ∧
      (flush_pending can stat2).reg_cmd
        = can.reg_cmd ++ [KVASER_PCIEFD_KCAN_CMD_AT |||
            (((can.cmd_seq + 1) % 256) <<< KVASER_PCIEFD_KCAN_CMD_SEQ_SHIFT)]) ∧
    ((kvaser_pciefd_start_controller_flush (flush_pending can stat2)).cmd_seq
        = (can.cmd_seq + 1) % 256 ∧
      (kvaser_pciefd_start_controller_flush (flush_pending can stat2)).reg_cmd
        = (flush_pending can stat2).reg_cmd) ∧
    ((kvaser_pciefd_bus_on (flush_pending can stat2) irq irq).2.cmd_seq
        = (can.cmd_seq + 1) % 256 ∧
      (kvaser_pciefd_bus_on (flush_pending can stat2) irq irq).2.reg_cmd
        = (flush_pending can stat2).reg_cmd) ∧
    ((kvaser_pciefd_stop (flush_pending can stat2) irq).2.cmd_seq = (can.cmd_seq + 1) % 256 ∧
      (kvaser_pciefd_stop (flush_pending can stat2) irq).2.reg_cmd
        = (flush_pending can stat2).reg_cmd) ∧
    ((kvaser_pciefd_change_state (flush_pending can stat2) cf can_state.BUS_OFF
        tx_state rx_state).2.cmd_seq = (can.cmd_seq + 1) % 256 ∧
      (kvaser_pciefd_change_state (flush_pending can stat2) cf can_state.BUS_OFF
        tx_state rx_state).2.reg_cmd = (flush_pending can stat2).reg_cmd) := by
  obtain ⟨a1, a2⟩ := start_controller_flush_cmd can
  simp only [hidle, ne_eq, not_false_eq_true, if_true] at a1 a2
  have p1 : (flush_pending can stat2).cmd_seq = (can.cmd_seq + 1) % 256 := a1
  have p2 : (flush_pending can stat2).reg_cmd
      = can.reg_cmd ++ [KVASER_PCIEFD_KCAN_CMD_AT |||
          (((can.cmd_seq + 1) % 256) <<< KVASER_PCIEFD_KCAN_CMD_SEQ_SHIFT)] := a2
  have p3 : (flush_pending can stat2).reg_stat &&& KVASER_PCIEFD_KCAN_STAT_IDLE = 0 := hpend
  obtain ⟨b1, b2⟩ := start_controller_flush_cmd (flush_pending can stat2)
  simp only [p3, ne_eq, not_true_eq_false, if_false] at b1 b2
  obtain ⟨c1, c2⟩ := bus_on_flush_cmd (flush_pending can stat2)
  simp only [p3, ne_eq, not_true_eq_false, and_false, if_false] at c1 c2
  obtain ⟨d1, d2⟩ := stop_cmd (flush_pending can stat2) irq hq
  simp only [p3, ne_eq, not_true_eq_false, and_false, if_false] at d1 d2
  have e1 := bus_on_preserves (fun c => c.cmd_seq) (flush_pending can stat2) irq irq
    (fun c => (hq c).1) (fun c => (hq c).1) (fun _ => rfl) (fun _ => rfl) (fun _ _ => rfl)
    (fun _ _ => rfl)
  have e2 := bus_on_preserves (fun c => c.reg_cmd) (flush_pending can stat2) irq irq
    (fun c => (hq c).2) (fun c => (hq c).2) (fun _ => rfl) (fun _ => rfl) (fun _ _ => rfl)
    (fun _ _ => rfl)
  simp only [] at e1 e2
  obtain ⟨cs, st, hr⟩ := can_change_state_frame (flush_pending can stat2) cf tx_state rx_state
  have g : (kvaser_pciefd_change_state (flush_pending can stat2) cf can_state.BUS_OFF
        tx_state rx_state).2.cmd_seq = (flush_pending can stat2).cmd_seq ∧
      (kvaser_pciefd_change_state (flush_pending can stat2) cf can_state.BUS_OFF
        tx_state rx_state).2.reg_cmd = (flush_pending can stat2).reg_cmd := by
    obtain ⟨k1, k2⟩ := start_controller_flush_cmd
      { flush_pending can stat2 with can_stats := cs, state := st, queue_stopped := true }
    simp only [p3, ne_eq, not_true_eq_false, if_false] at k1 k2
    simp only [kvaser_pciefd_change_state, if_true, hr, netif_stop_queue, can_bus_off]
    split_ifs
    · exact ⟨k1, k2⟩
    · exact ⟨rfl, rfl⟩
  exact ⟨⟨p1, p2⟩, ⟨b1.trans p1, b2⟩, ⟨(e1.trans c1).trans p1, e2.trans c2⟩,
    ⟨d1.trans p1, d2⟩, ⟨g.1.trans p1, g.2⟩⟩

/-- Witness for C17 (amended): a flush requested on the idle channel
`idle_can 0`; the status register then shows FD and IRM without IDLE, and
`kvaser_pciefd_stop` runs while the flush acknowledgement arrives. -/
theorem flush_request_once_witness :
    (idle_can 0).reg_stat &&& KVASER_PCIEFD_KCAN_STAT_IDLE ≠ 0 ∧
    (KVASER_PCIEFD_KCAN_STAT_FD ||| KVASER_PCIEFD_KCAN_STAT_IRM) &&&
      KVASER_PCIEFD_KCAN_STAT_IDLE = 0 ∧
    (kvaser_pciefd_stop
      (flush_pending (idle_can 0) (KVASER_PCIEFD_KCAN_STAT_FD ||| KVASER_PCIEFD_KCAN_STAT_IRM))
      flush_acked).2.cmd_seq = ((idle_can 0).cmd_seq + 1) % 256 :=
  ⟨by decide, by decide,
    (flush_request_once (idle_can 0) (KVASER_PCIEFD_KCAN_STAT_FD ||| KVASER_PCIEFD_KCAN_STAT_IRM)
      flush_acked none can_state.BUS_OFF can_state.BUS_OFF (by decide) (by decide)
      (fun c => by
        rw [flush_acked, eflush_packet_irq_eq quiet_pcie eflush_ack_packet 0 c (by decide)
          (by decide)]
        split_ifs <;> exact ⟨rfl, rfl⟩)).2.2.2.1.1⟩

/-- C19, at the failing input: `kvaser_pciefd_handle_status_resp` returns
`-ENOMEM` before `kvaser_pciefd_change_state` when the error frame cannot be
allocated, whatever the new state.  On a channel in ERROR_ACTIVE with failing
allocation, the status response `boff_status_packet` (classified BUS_OFF) is
handled with result 0 and leaves the channel in ERROR_ACTIVE with the queue
running and no flush started; the error packet `boff_error_packet` with the
same flags, and the same status response with a working allocation, put the
channel in BUS_OFF with the queue stopped. -/
theorem status_resp_bus_off_lost :
    (∀ (pcie : kvaser_pciefd) (can : kvaser_pciefd_can) (p : kvaser_pciefd_rx_packet),
      can.alloc_ok can.alloc_cnt = false →
      (kvaser_pciefd_packet_to_state p
        ⟨KVASER_PCIEFD_SPACKET_TXERR_COUNT p, KVASER_PCIEFD_SPACKET_RXERR_COUNT p⟩).1
          ≠ can.state →
      kvaser_pciefd_handle_status_resp pcie can p
        = (- ENOMEM,
           { can with
             alloc_cnt := can.alloc_cnt + 1
             stats := { can.stats with rx_dropped := can.stats.rx_dropped + 1 } })) ∧
    ((kvaser_pciefd_packet_to_state boff_status_packet ⟨0, 0⟩).1 = can_state.BUS_OFF ∧
      (kvaser_pciefd_packet_to_state boff_error_packet ⟨0, 0⟩).1 = can_state.BUS_OFF) ∧
    ((kvaser_pciefd_handle_status_packet (active_pcie false) boff_status_packet).1 = 0 ∧
      ((kvaser_pciefd_handle_status_packet (active_pcie false) boff_status_packet).2.can 0).state
        = can_state.ERROR_ACTIVE ∧
      ((kvaser_pciefd_handle_status_packet (active_pcie false)
        boff_status_packet).2.can 0).queue_stopped = false ∧
      ((kvaser_pciefd_handle_status_packet (active_pcie false) boff_status_packet).2.can 0).reg_irq
        = ((active_pcie false).can 0).reg_irq) ∧
    (((kvaser_pciefd_handle_error_packet (active_pcie false) boff_error_packet).2.can 0).state
        = can_state.BUS_OFF ∧
      ((kvaser_pciefd_handle_error_packet (active_pcie false)
        boff_error_packet).2.can 0).queue_stopped = true) ∧
    (((kvaser_pciefd_handle_status_packet (active_pcie true) boff_status_packet).2.can 0).state
        = can_state.BUS_OFF ∧
      ((kvaser_pciefd_handle_status_packet (active_pcie true)
        boff_status_packet).2.can 0).queue_stopped = true) := by
  refine ⟨?_, by decide, by decide, by decide, by decide⟩
  intro pcie can p halloc hne
  simp only [kvaser_pciefd_handle_status_resp, alloc_can_err_skb, alloc_skb, halloc, hne, ne_eq,
    not_false_eq_true, if_true, Bool.false_eq_true, if_false]

/-- C20: `kvaser_pciefd_handle_status_packet` applies
`kvaser_pciefd_handle_status_resp` only to a packet whose AUTO flag is clear
and whose sequence number (low byte of header word 1) equals the sequence
number the status register of the channel reports.  For a packet with AUTO
set or another sequence number the stored error counters and the bus state of
every channel are unchanged; for a packet with AUTO clear and the same
sequence number that is not a reset detection (IDET and IRM with the
controller idle), the channel is the one `kvaser_pciefd_handle_status_resp`
leaves, with the poll timer armed outside BUS_OFF and ERROR_ACTIVE. -/
theorem status_packet_response_guard (pcie : kvaser_pciefd) (p : kvaser_pciefd_rx_packet)
    (hlt : KVASER_PCIEFD_PACKET_CHID p < pcie.nr_channels) :
    ((p.header1 &&& KVASER_PCIEFD_SPACK_AUTO ≠ 0 ∨
        ((pcie.can (KVASER_PCIEFD_PACKET_CHID p)).reg_stat >>> KVASER_PCIEFD_KCAN_STAT_SEQNO_SHIFT)
          &&& KVASER_PCIEFD_PACKET_SEQ_MASK ≠ p.header1 &&& KVASER_PCIEFD_PACKET_SEQ_MASK) →
      (kvaser_pciefd_handle_status_packet pcie p).1 = 0 ∧
      ∀ ch, ((kvaser_pciefd_handle_status_packet pcie p).2.can ch).bec = (pcie.can ch).bec ∧
        ((kvaser_pciefd_handle_status_packet pcie p).2.can ch).state = (pcie.can ch).state) ∧
    (p.header1 &&& KVASER_PCIEFD_SPACK_AUTO = 0 →
      ((pcie.can (KVASER_PCIEFD_PACKET_CHID p)).reg_stat >>> KVASER_PCIEFD_KCAN_STAT_SEQNO_SHIFT)
        &&& KVASER_PCIEFD_PACKET_SEQ_MASK = p.header1 &&& KVASER_PCIEFD_PACKET_SEQ_MASK →
      ¬ (p.header0 &&& KVASER_PCIEFD_SPACK_IDET ≠ 0 ∧ p.header0 &&& KVASER_PCIEFD_SPACK_IRM ≠ 0 ∧
          (pcie.can (KVASER_PCIEFD_PACKET_CHID p)).reg_stat &&& KVASER_PCIEFD_KCAN_STAT_IDLE ≠ 0) →
      (kvaser_pciefd_handle_status_packet pcie p).2.can (KVASER_PCIEFD_PACKET_CHID p)
        = (if (kvaser_pciefd_handle_status_resp pcie (pcie.can (KVASER_PCIEFD_PACKET_CHID p))
                p).2.state ≠ can_state.BUS_OFF ∧
              (kvaser_pciefd_handle_status_resp pcie (pcie.can (KVASER_PCIEFD_PACKET_CHID p))
                p).2.state ≠ can_state.ERROR_ACTIVE
           then mod_timer (kvaser_pciefd_handle_status_resp pcie
             (pcie.can (KVASER_PCIEFD_PACKET_CHID p)) p).2
           else (kvaser_pciefd_handle_status_resp pcie
             (pcie.can (KVASER_PCIEFD_PACKET_CHID p)) p).2)) := by
  have hlt2 : ¬ KVASER_PCIEFD_PACKET_CHID p ≥ pcie.nr_channels := by omega
  refine ⟨fun hno => ⟨?_, fun ch => ?_⟩, fun hauto hseq hdet => ?_⟩
  · simp only [kvaser_pciefd_handle_status_packet, hlt2, if_false]
  · have h3 : ¬ (p.header1 &&& KVASER_PCIEFD_SPACK_AUTO = 0 ∧
        ((pcie.can (KVASER_PCIEFD_PACKET_CHID p)).reg_stat >>> KVASER_PCIEFD_KCAN_STAT_SEQNO_SHIFT)
          &&& KVASER_PCIEFD_PACKET_SEQ_MASK = p.header1 &&& KVASER_PCIEFD_PACKET_SEQ_MASK) := by
      rintro ⟨h1, h2⟩
      rcases hno with h | h
      · exact h h1
      · exact h h2
    simp only [kvaser_pciefd_handle_status_packet, hlt2, if_false, h3]
    by_cases hch : ch = KVASER_PCIEFD_PACKET_CHID p
    · subst hch
      simp only [Function.update_same, kvaser_pciefd_kcan_abort_flush_reset,
        kvaser_pciefd_send_kcan_cmd]
      split_ifs <;> exact ⟨rfl, rfl⟩
    · simp [Function.update_noteq hch]
  · have h1 : ¬ (p.header0 &&& KVASER_PCIEFD_SPACK_IRM ≠ 0 ∧
        p.header0 &&& KVASER_PCIEFD_SPACK_RMCD ≠ 0 ∧
        p.header1 &&& KVASER_PCIEFD_SPACK_AUTO ≠ 0 ∧
        ((pcie.can (KVASER_PCIEFD_PACKET_CHID p)).reg_stat >>> KVASER_PCIEFD_KCAN_STAT_SEQNO_SHIFT)
          &&& KVASER_PCIEFD_PACKET_SEQ_MASK = p.header1 &&& KVASER_PCIEFD_PACKET_SEQ_MASK ∧
        (pcie.can (KVASER_PCIEFD_PACKET_CHID p)).reg_stat &&& KVASER_PCIEFD_KCAN_STAT_IDLE ≠ 0) := by
      rintro ⟨-, -, h, -⟩
      exact h hauto
    have h2 : ¬ (p.header0 &&& KVASER_PCIEFD_SPACK_IDET ≠ 0 ∧
        p.header0 &&& KVASER_PCIEFD_SPACK_IRM ≠ 0 ∧
        ((pcie.can (KVASER_PCIEFD_PACKET_CHID p)).reg_stat >>> KVASER_PCIEFD_KCAN_STAT_SEQNO_SHIFT)
          &&& KVASER_PCIEFD_PACKET_SEQ_MASK = p.header1 &&& KVASER_PCIEFD_PACKET_SEQ_MASK ∧
        (pcie.can (KVASER_PCIEFD_PACKET_CHID p)).reg_stat &&& KVASER_PCIEFD_KCAN_STAT_IDLE ≠ 0) := by
      rintro ⟨a, b, -, c⟩
      exact hdet ⟨a, b, c⟩
    have h3 : p.header1 &&& KVASER_PCIEFD_SPACK_AUTO = 0 ∧
        ((pcie.can (KVASER_PCIEFD_PACKET_CHID p)).reg_stat >>> KVASER_PCIEFD_KCAN_STAT_SEQNO_SHIFT)
          &&& KVASER_PCIEFD_PACKET_SEQ_MASK = p.header1 &&& KVASER_PCIEFD_PACKET_SEQ_MASK :=
      ⟨hauto, hseq⟩
    simp only [kvaser_pciefd_handle_status_packet, hlt2, if_false, Function.update_same]
    rw [if_neg h1, if_neg h2, if_pos h3]

/-- Witness for C20: the status packet `plain_status_packet 0` (AUTO set) on
`quiet_pcie` leaves the error counters and the bus state of every channel
unchanged. -/
theorem status_packet_response_guard_witness :
    KVASER_PCIEFD_PACKET_CHID (plain_status_packet 0) < quiet_pcie.nr_channels ∧
    (plain_status_packet 0).header1 &&& KVASER_PCIEFD_SPACK_AUTO ≠ 0 ∧
    (kvaser_pciefd_handle_status_packet quiet_pcie (plain_status_packet 0)).1 = 0 ∧
    ∀ ch,
      ((kvaser_pciefd_handle_status_packet quiet_pcie (plain_status_packet 0)).2.can ch).bec
        = (quiet_pcie.can ch).bec ∧
      ((kvaser_pciefd_handle_status_packet quiet_pcie (plain_status_packet 0)).2.can ch).state
        = (quiet_pcie.can ch).state :=
  ⟨by decide, by decide,
    (status_packet_response_guard quiet_pcie (plain_status_packet 0) (by decide)).1
      (Or.inl (by decide))⟩

/-- C21: in every classification by `kvaser_pciefd_packet_to_state`,
`tx_state` is `new_state` when `txerr >= rxerr` and ERROR_ACTIVE (value 0)
otherwise, `rx_state` is `new_state` when `rxerr >= txerr` and ERROR_ACTIVE
otherwise; with equal counters both are `new_state`, and the larger of
`tx_state` and `rx_state` is always `new_state`. -/
theorem packet_to_state_halves (p : kvaser_pciefd_rx_packet) (bec : can_berr_counter) :
    (kvaser_pciefd_packet_to_state p bec).2.1
      = (if bec.txerr ≥ bec.rxerr then (kvaser_pciefd_packet_to_state p bec).1
         else can_state.ERROR_ACTIVE) ∧
    (kvaser_pciefd_packet_to_state p bec).2.2
      = (if bec.rxerr ≥ bec.txerr then (kvaser_pciefd_packet_to_state p bec).1
         else can_state.ERROR_ACTIVE) ∧
    can_state.ERROR_ACTIVE.toNat = 0 ∧
    (bec.txerr = bec.rxerr →
      (kvaser_pciefd_packet_to_state p bec).2.1 = (kvaser_pciefd_packet_to_state p bec).1 ∧
      (kvaser_pciefd_packet_to_state p bec).2.2 = (kvaser_pciefd_packet_to_state p bec).1) ∧
    can_state.max (kvaser_pciefd_packet_to_state p bec).2.1
        (kvaser_pciefd_packet_to_state p bec).2.2
      = (kvaser_pciefd_packet_to_state p bec).1 := by
  have h0 : ∀ s : can_state, can_state.max can_state.ERROR_ACTIVE s = s := by
    intro s; cases s <;> rfl
  have h1 : ∀ s : can_state, can_state.max s can_state.ERROR_ACTIVE = s := by
    intro s; cases s <;> rfl
  have h2 : ∀ s : can_state, can_state.max s s = s := by
    intro s; cases s <;> rfl
  refine ⟨rfl, rfl, rfl, ?_, ?_⟩
  · intro h
    simp [kvaser_pciefd_packet_to_state, h]
  · simp only [kvaser_pciefd_packet_to_state]
    rcases Nat.lt_trichotomy bec.txerr bec.rxerr with h | h | h
    · have a : ¬ bec.txerr ≥ bec.rxerr := by omega
      have b : bec.txerr ≤ bec.rxerr := by omega
      simp only [a, b, if_false, if_true, h0]
    · simp only [h, ge_iff_le, le_refl, if_true, h2]
    · have a : bec.txerr ≥ bec.rxerr := by omega
      have b : ¬ bec.txerr ≤ bec.rxerr := by omega
      simp only [a, b, if_false, if_true, h1]

/-- Witness for C21: the equal counters (130, 130) on a packet without flags;
both halves are the new state ERROR_PASSIVE. -/
theorem packet_to_state_halves_witness :
    (kvaser_pciefd_packet_to_state ⟨0, 0, 0⟩ ⟨130, 130⟩).1 = can_state.ERROR_PASSIVE ∧
    (kvaser_pciefd_packet_to_state ⟨0, 0, 0⟩ ⟨130, 130⟩).2.1
      = (kvaser_pciefd_packet_to_state ⟨0, 0, 0⟩ ⟨130, 130⟩).1 ∧
    (kvaser_pciefd_packet_to_state ⟨0, 0, 0⟩ ⟨130, 130⟩).2.2
      = (kvaser_pciefd_packet_to_state ⟨0, 0, 0⟩ ⟨130, 130⟩).1 :=
  ⟨by decide, (packet_to_state_halves ⟨0, 0, 0⟩ ⟨130, 130⟩).2.2.2.1 rfl⟩

/-- A bitwise or with a non-zero left operand is non-zero. -/
theorem or_ne_zero_left (a b : Nat) (h : a ≠ 0) : a ||| b ≠ 0 := by
  obtain ⟨i, hi⟩ := Nat.ne_zero_implies_bit_true h
  intro h0
  have : (a ||| b).testBit i = true := by rw [Nat.testBit_or, hi]; rfl
  rw [h0] at this
  simp at this

/-- A flag set in a word stays set when further bits are set. -/
theorem flag_or_ne_zero (h f m : Nat) (hm : h &&& m ≠ 0) : (h ||| f) &&& m ≠ 0 := by
  rw [or_and_mask]
  exact or_ne_zero_left _ _ hm

/-- The value of the new state of `kvaser_pciefd_packet_to_state`, level by
level: it is at most 3, at least 3 under the bus-off conditions, at least 2
under those or the error-passive conditions, at least 1 under those or the
error-warning conditions. -/
theorem packet_to_state_level (p : kvaser_pciefd_rx_packet) (b : can_berr_counter) :
    (kvaser_pciefd_packet_to_state p b).1.toNat ≤ 3 ∧
    (3 ≤ (kvaser_pciefd_packet_to_state p b).1.toNat ↔
      ((p.header0 &&& KVASER_PCIEFD_SPACK_BOFF ≠ 0 ∨ p.header0 &&& KVASER_PCIEFD_SPACK_IRM ≠ 0) ∨
        (b.txerr ≥ 255 ∨ b.rxerr ≥ 255))) ∧
    (2 ≤ (kvaser_pciefd_packet_to_state p b).1.toNat ↔
      ((p.header0 &&& KVASER_PCIEFD_SPACK_BOFF ≠ 0 ∨ p.header0 &&& KVASER_PCIEFD_SPACK_IRM ≠ 0) ∨
        (b.txerr ≥ 255 ∨ b.rxerr ≥ 255) ∨ p.header1 &&& KVASER_PCIEFD_SPACK_EPLR ≠ 0 ∨
        (b.txerr ≥ 128 ∨ b.rxerr ≥ 128))) ∧
    (1 ≤ (kvaser_pciefd_packet_to_state p b).1.toNat ↔
      ((p.header0 &&& KVASER_PCIEFD_SPACK_BOFF ≠ 0 ∨ p.header0 &&& KVASER_PCIEFD_SPACK_IRM ≠ 0) ∨
        (b.txerr ≥ 255 ∨ b.rxerr ≥ 255) ∨ p.header1 &&& KVASER_PCIEFD_SPACK_EPLR ≠ 0 ∨
        (b.txerr ≥ 128 ∨ b.rxerr ≥ 128) ∨ p.header1 &&& KVASER_PCIEFD_SPACK_EWLR ≠ 0 ∨
        (b.txerr ≥ 96 ∨ b.rxerr ≥ 96))) := by
  simp only [kvaser_pciefd_packet_to_state]
  split_ifs <;> simp only [can_state.toNat] <;> simp_all

/-- The new state of `kvaser_pciefd_packet_to_state` does not decrease when
each of the four flags BOFF, IRM, EPLR, EWLR that is set stays set and neither
counter decreases. -/
theorem packet_to_state_le (p q : kvaser_pciefd_rx_packet) (b1 b2 : can_berr_counter)
    (hB : p.header0 &&& KVASER_PCIEFD_SPACK_BOFF ≠ 0 → q.header0 &&& KVASER_PCIEFD_SPACK_BOFF ≠ 0)
    (hI : p.header0 &&& KVASER_PCIEFD_SPACK_IRM ≠ 0 → q.header0 &&& KVASER_PCIEFD_SPACK_IRM ≠ 0)
    (hP : p.header1 &&& KVASER_PCIEFD_SPACK_EPLR ≠ 0 → q.header1 &&& KVASER_PCIEFD_SPACK_EPLR ≠ 0)
    (hW : p.header1 &&& KVASER_PCIEFD_SPACK_EWLR ≠ 0 → q.header1 &&& KVASER_PCIEFD_SPACK_EWLR ≠ 0)
    (htx : b1.txerr ≤ b2.txerr) (hrx : b1.rxerr ≤ b2.rxerr) :
    (kvaser_pciefd_packet_to_state p b1).1.toNat ≤ (kvaser_pciefd_packet_to_state q b2).1.toNat := by
  obtain ⟨pm, p3, p2, p1⟩ := packet_to_state_level p b1
  obtain ⟨-, q3, q2, q1⟩ := packet_to_state_level q b2
  have c0 : (p.header0 &&& KVASER_PCIEFD_SPACK_BOFF ≠ 0 ∨ p.header0 &&& KVASER_PCIEFD_SPACK_IRM ≠ 0) →
      (q.header0 &&& KVASER_PCIEFD_SPACK_BOFF ≠ 0 ∨ q.header0 &&& KVASER_PCIEFD_SPACK_IRM ≠ 0) := by
    rintro (h | h)
    · exact Or.inl (hB h)
    · exact Or.inr (hI h)
  have c255 : (b1.txerr ≥ 255 ∨ b1.rxerr ≥ 255) → (b2.txerr ≥ 255 ∨ b2.rxerr ≥ 255) := by omega
  have c128 : (b1.txerr ≥ 128 ∨ b1.rxerr ≥ 128) → (b2.txerr ≥ 128 ∨ b2.rxerr ≥ 128) := by omega
  have c96 : (b1.txerr ≥ 96 ∨ b1.rxerr ≥ 96) → (b2.txerr ≥ 96 ∨ b2.rxerr ≥ 96) := by omega
  have i3 : 3 ≤ (kvaser_pciefd_packet_to_state p b1).1.toNat →
      3 ≤ (kvaser_pciefd_packet_to_state q b2).1.toNat := by
    rw [p3, q3]
    rintro (h | h)
    · exact Or.inl (c0 h)
    · exact Or.inr (c255 h)
  have i2 : 2 ≤ (kvaser_pciefd_packet_to_state p b1).1.toNat →
      2 ≤ (kvaser_pciefd_packet_to_state q b2).1.toNat := by
    rw [p2, q2]
    rintro (h | h | h | h)
    · exact Or.inl (c0 h)
    · exact Or.inr (Or.inl (c255 h))
    · exact Or.inr (Or.inr (Or.inl (hP h)))
    · exact Or.inr (Or.inr (Or.inr (c128 h)))
  have i1 : 1 ≤ (kvaser_pciefd_packet_to_state p b1).1.toNat →
      1 ≤ (kvaser_pciefd_packet_to_state q b2).1.toNat := by
    rw [p1, q1]
    rintro (h | h | h | h | h | h)
    · exact Or.inl (c0 h)
    · exact Or.inr (Or.inl (c255 h))
    · exact Or.inr (Or.inr (Or.inl (hP h)))
    · exact Or.inr (Or.inr (Or.inr (Or.inl (c128 h))))
    · exact Or.inr (Or.inr (Or.inr (Or.inr (Or.inl (hW h)))))
    · exact Or.inr (Or.inr (Or.inr (Or.inr (Or.inr (c96 h)))))
  omega

/-- C22: the classifier is monotone in severity (ERROR_ACTIVE 0 <
ERROR_WARNING 1 < ERROR_PASSIVE 2 < BUS_OFF 3).  For fixed header words and
counters with `tx1 <= tx2` and `rx1 <= rx2` the new state does not decrease;
for fixed counters, setting further bits in the header words (BOFF and IRM in
word 0, EPLR and EWLR in word 1 among them) does not lower it. -/
theorem packet_to_state_monotone (p : kvaser_pciefd_rx_packet) (b1 b2 : can_berr_counter)
    (f0 f1 : Nat) (htx : b1.txerr ≤ b2.txerr) (hrx : b1.rxerr ≤ b2.rxerr) :
    (can_state.ERROR_ACTIVE.toNat < can_state.ERROR_WARNING.toNat ∧
      can_state.ERROR_WARNING.toNat < can_state.ERROR_PASSIVE.toNat ∧
      can_state.ERROR_PASSIVE.toNat < can_state.BUS_OFF.toNat) ∧
    (kvaser_pciefd_packet_to_state p b1).1.toNat ≤ (kvaser_pciefd_packet_to_state p b2).1.toNat ∧
    (kvaser_pciefd_packet_to_state p b1).1.toNat
      ≤ (kvaser_pciefd_packet_to_state
          { p with header0 := p.header0 ||| f0, header1 := p.header1 ||| f1 } b1).1.toNat ∧
    (kvaser_pciefd_packet_to_state p b1).1.toNat
      ≤ (kvaser_pciefd_packet_to_state
          { p with header0 := p.header0 ||| f0, header1 := p.header1 ||| f1 } b2).1.toNat :=
  ⟨⟨by decide, by decide, by decide⟩,
    packet_to_state_le p p b1 b2 id id id id htx hrx,
    packet_to_state_le p _ b1 b1 (flag_or_ne_zero _ _ _) (flag_or_ne_zero _ _ _)
      (flag_or_ne_zero _ _ _) (flag_or_ne_zero _ _ _) (Nat.le_refl _) (Nat.le_refl _),
    packet_to_state_le p _ b1 b2 (flag_or_ne_zero _ _ _) (flag_or_ne_zero _ _ _)
      (flag_or_ne_zero _ _ _) (flag_or_ne_zero _ _ _) htx hrx⟩

/-- Witness for C22: counters (50, 50) against (130, 50), and the flag EWLR
set in header word 1. -/
theorem packet_to_state_monotone_witness :
    (kvaser_pciefd_packet_to_state ⟨0, 0, 0⟩ ⟨50, 50⟩).1.toNat
      ≤ (kvaser_pciefd_packet_to_state ⟨0, 0, 0⟩ ⟨130, 50⟩).1.toNat ∧
    (kvaser_pciefd_packet_to_state ⟨0, 0, 0⟩ ⟨50, 50⟩).1 = can_state.ERROR_ACTIVE ∧
    (kvaser_pciefd_packet_to_state ⟨0, 0, 0⟩ ⟨130, 50⟩).1 = can_state.ERROR_PASSIVE ∧
    (kvaser_pciefd_packet_to_state ⟨0 ||| 0, 0 ||| KVASER_PCIEFD_SPACK_EWLR, 0⟩ ⟨50, 50⟩).1
      = can_state.ERROR_WARNING :=
  ⟨(packet_to_state_monotone ⟨0, 0, 0⟩ ⟨50, 50⟩ ⟨130, 50⟩ 0 KVASER_PCIEFD_SPACK_EWLR
      (by decide) (by decide)).2.1, by decide, by decide, by decide⟩

/-- What `kvaser_pciefd_handle_nack_packet` does: with a successful allocation
it hands `nack_error_event` to `netif_rx` on the channel `nack_counted`; with a
failed one it counts the same errors and a dropped frame. -/
theorem handle_nack_packet_event (pcie : kvaser_pciefd) (can : kvaser_pciefd_can)
    (p : kvaser_pciefd_rx_packet) :
    kvaser_pciefd_handle_nack_packet pcie can p
      = if can.alloc_ok can.alloc_cnt = true then
          (netif_rx (nack_counted can p) (nack_error_event pcie p)).2
        else
          { nack_counted can p with
            stats := { (nack_counted can p).stats with
                       rx_dropped := can.stats.rx_dropped + 1 } } := by
  simp only [kvaser_pciefd_handle_nack_packet, alloc_can_err_skb, alloc_skb, nack_counted,
    nack_error_event, kvaser_pciefd_set_skb_timestamp]
  by_cases ha : can.alloc_ok can.alloc_cnt = true <;>
  by_cases hb : p.header0 &&& KVASER_PCIEFD_APACKET_ABL = 0 <;>
    simp [ha, hb, Nat.or_assoc]

/-- The helper `can_get_echo_skb` leaves the CAN statistics alone and only
appends to `rx_queue`. -/
theorem can_get_echo_skb_rx (can : kvaser_pciefd_can) (idx : Nat) :
    (can_get_echo_skb can idx).2.can_stats = can.can_stats ∧
    ∃ rest, (can_get_echo_skb can idx).2.rx_queue = can.rx_queue ++ rest := by
  simp only [can_get_echo_skb, netif_rx]
  by_cases h : idx ≥ can.echo_skb_max
  · simp only [h, if_true]
    exact ⟨trivial, [], by simp⟩
  · simp only [h, if_false]
    cases hs : can.echo_skb idx with
    | none => exact ⟨rfl, [], by simp⟩
    | some skb =>
      simp only []
      by_cases hr : can.rx_ok can.rx_cnt = true
      · simp only [hr, if_true]
        exact ⟨trivial, [skb], rfl⟩
      · simp only [hr, if_false]
        exact ⟨rfl, [], by simp⟩

/-- What the `else` block of `kvaser_pciefd_handle_ack_packet` leaves alone
after a failed one-shot transmission: the statistics; the frames handed to the
stack so far stay at the head of `rx_queue`. -/
theorem handle_ack_packet_echo_fail (pcie : kvaser_pciefd) (can : kvaser_pciefd_can)
    (p : kvaser_pciefd_rx_packet) :
    (kvaser_pciefd_handle_ack_packet_echo pcie can p true).stats = can.stats ∧
    (kvaser_pciefd_handle_ack_packet_echo pcie can p true).can_stats = can.can_stats ∧
    ∃ rest, (kvaser_pciefd_handle_ack_packet_echo pcie can p true).rx_queue
      = can.rx_queue ++ rest := by
  cases hs : can.echo_skb (p.header0 &&& KVASER_PCIEFD_PACKET_SEQ_MASK) with
  | none =>
    obtain ⟨-, -, -, -, -, h6, -⟩ :=
      can_get_echo_skb_frame can (p.header0 &&& KVASER_PCIEFD_PACKET_SEQ_MASK)
    obtain ⟨g1, rest, g2⟩ := can_get_echo_skb_rx can (p.header0 &&& KVASER_PCIEFD_PACKET_SEQ_MASK)
    simp only [kvaser_pciefd_handle_ack_packet_echo, hs, netif_wake_queue,
      KVASER_PCIEFD_KCAN_TX_NR_PACKETS_CURRENT_GET]
    refine ⟨?_, ?_, rest, ?_⟩ <;> split_ifs <;> simp_all
  | some skb =>
    obtain ⟨-, -, -, -, -, h6, -⟩ :=
      can_get_echo_skb_frame
        { can with
          echo_skb := Function.update can.echo_skb (p.header0 &&& KVASER_PCIEFD_PACKET_SEQ_MASK)
            (some (kvaser_pciefd_set_skb_timestamp pcie skb p.timestamp)) }
        (p.header0 &&& KVASER_PCIEFD_PACKET_SEQ_MASK)
    obtain ⟨g1, rest, g2⟩ := can_get_echo_skb_rx
        { can with
          echo_skb := Function.update can.echo_skb (p.header0 &&& KVASER_PCIEFD_PACKET_SEQ_MASK)
            (some (kvaser_pciefd_set_skb_timestamp pcie skb p.timestamp)) }
        (p.header0 &&& KVASER_PCIEFD_PACKET_SEQ_MASK)
    simp only [kvaser_pciefd_handle_ack_packet_echo, hs, netif_wake_queue,
      KVASER_PCIEFD_KCAN_TX_NR_PACKETS_CURRENT_GET]
    refine ⟨?_, ?_, rest, ?_⟩ <;> split_ifs <;> simp_all

/-- The channel `kvaser_pciefd_handle_ack_packet` leaves for an ACK packet with
NACK and without CT: the one of `kvaser_pciefd_handle_nack_packet`, followed by
the release of the echo slot unless the packet was flushed. -/
theorem handle_ack_packet_nack (pcie : kvaser_pciefd) (p : kvaser_pciefd_rx_packet)
    (hch : KVASER_PCIEFD_PACKET_CHID p < pcie.nr_channels)
    (hct : p.header0 &&& KVASER_PCIEFD_APACKET_CT = 0)
    (hnack : p.header0 &&& KVASER_PCIEFD_APACKET_NACK ≠ 0) :
    (kvaser_pciefd_handle_ack_packet pcie p).1 = 0 ∧
    (kvaser_pciefd_handle_ack_packet pcie p).2.can (KVASER_PCIEFD_PACKET_CHID p)
      = if p.header0 &&& KVASER_PCIEFD_APACKET_FLU ≠ 0 then
          kvaser_pciefd_handle_nack_packet pcie (pcie.can (KVASER_PCIEFD_PACKET_CHID p)) p
        else
          kvaser_pciefd_handle_ack_packet_echo pcie
            (kvaser_pciefd_handle_nack_packet pcie (pcie.can (KVASER_PCIEFD_PACKET_CHID p)) p)
            p true := by
  have hch2 : ¬ KVASER_PCIEFD_PACKET_CHID p ≥ pcie.nr_channels := by omega
  simp only [kvaser_pciefd_handle_ack_packet, hch2, if_false, hct, ne_eq, not_true_eq_false,
    hnack, not_false_eq_true, if_true, decide_True, Function.update_same, true_and]

/-- C23: for an ACK packet on a valid channel with the no-ack flag and without
the control flag, `kvaser_pciefd_handle_ack_packet` returns 0 and counts a
transmit error (`tx_errors` plus 1, `arbitration_lost` plus 1 exactly when ABL
is set); `tx_packets`, the bus state and the stored error counters are
unchanged.  When the error frame can be allocated, the event
`nack_error_event` is handed to `netif_rx` (it follows the frames already in
`rx_queue` when `netif_rx` accepts it): an error frame with the bus-error
class, with lost arbitration exactly when ABL is set and with no-ack exactly
when it is clear. -/
theorem nack_packet_effect (pcie : kvaser_pciefd) (p : kvaser_pciefd_rx_packet)
    (hch : KVASER_PCIEFD_PACKET_CHID p < pcie.nr_channels)
    (hct : p.header0 &&& KVASER_PCIEFD_APACKET_CT = 0)
    (hnack : p.header0 &&& KVASER_PCIEFD_APACKET_NACK ≠ 0) :
    (kvaser_pciefd_handle_ack_packet pcie p).1 = 0 ∧
    ((kvaser_pciefd_handle_ack_packet pcie p).2.can (KVASER_PCIEFD_PACKET_CHID p)).stats.tx_errors
      = (pcie.can (KVASER_PCIEFD_PACKET_CHID p)).stats.tx_errors + 1 ∧
    ((kvaser_pciefd_handle_ack_packet pcie p).2.can
        (KVASER_PCIEFD_PACKET_CHID p)).can_stats.arbitration_lost
      = (pcie.can (KVASER_PCIEFD_PACKET_CHID p)).can_stats.arbitration_lost
        + (if p.header0 &&& KVASER_PCIEFD_APACKET_ABL ≠ 0 then 1 else 0) ∧
    ((kvaser_pciefd_handle_ack_packet pcie p).2.can (KVASER_PCIEFD_PACKET_CHID p)).stats.tx_packets
      = (pcie.can (KVASER_PCIEFD_PACKET_CHID p)).stats.tx_packets ∧
    ((kvaser_pciefd_handle_ack_packet pcie p).2.can (KVASER_PCIEFD_PACKET_CHID p)).state
      = (pcie.can (KVASER_PCIEFD_PACKET_CHID p)).state ∧
    ((kvaser_pciefd_handle_ack_packet pcie p).2.can (KVASER_PCIEFD_PACKET_CHID p)).bec
      = (pcie.can (KVASER_PCIEFD_PACKET_CHID p)).bec ∧
    ((pcie.can (KVASER_PCIEFD_PACKET_CHID p)).alloc_ok
        (pcie.can (KVASER_PCIEFD_PACKET_CHID p)).alloc_cnt = true →
      kvaser_pciefd_handle_nack_packet pcie (pcie.can (KVASER_PCIEFD_PACKET_CHID p)) p
        = (netif_rx (nack_counted (pcie.can (KVASER_PCIEFD_PACKET_CHID p)) p)
            (nack_error_event pcie p)).2 ∧
      ((pcie.can (KVASER_PCIEFD_PACKET_CHID p)).rx_ok
          (pcie.can (KVASER_PCIEFD_PACKET_CHID p)).rx_cnt = true →
        ∃ rest,
          ((kvaser_pciefd_handle_ack_packet pcie p).2.can (KVASER_PCIEFD_PACKET_CHID p)).rx_queue
            = (pcie.can (KVASER_PCIEFD_PACKET_CHID p)).rx_queue
              ++ nack_error_event pcie p :: rest)) ∧
    ((nack_error_event pcie p).cf.can_id &&& CAN_ERR_FLAG ≠ 0 ∧
      (nack_error_event pcie p).cf.can_id &&& CAN_ERR_BUSERROR ≠ 0 ∧
      ((nack_error_event pcie p).cf.can_id &&& CAN_ERR_LOSTARB ≠ 0 ↔
        p.header0 &&& KVASER_PCIEFD_APACKET_ABL ≠ 0) ∧
      ((nack_error_event pcie p).cf.can_id &&& CAN_ERR_ACK ≠ 0 ↔
        p.header0 &&& KVASER_PCIEFD_APACKET_ABL = 0)) := by
  obtain ⟨hr, hc⟩ := handle_ack_packet_nack pcie p hch hct hnack
  have hn := handle_nack_packet_event pcie (pcie.can (KVASER_PCIEFD_PACKET_CHID p)) p
  obtain ⟨-, -, -, -, -, -, n7, -, n9, n10, -⟩ :=
    handle_nack_packet_frame pcie (pcie.can (KVASER_PCIEFD_PACKET_CHID p)) p
  obtain ⟨e1, e2, rest, e3⟩ := handle_ack_packet_echo_fail pcie
    (kvaser_pciefd_handle_nack_packet pcie (pcie.can (KVASER_PCIEFD_PACKET_CHID p)) p) p
  obtain ⟨-, -, -, s4, s5, -, -, -, s9, -⟩ := handle_ack_packet_echo_spec pcie
    (kvaser_pciefd_handle_nack_packet pcie (pcie.can (KVASER_PCIEFD_PACKET_CHID p)) p) p true
  have t1 : (kvaser_pciefd_handle_nack_packet pcie
      (pcie.can (KVASER_PCIEFD_PACKET_CHID p)) p).stats.tx_errors
      = (pcie.can (KVASER_PCIEFD_PACKET_CHID p)).stats.tx_errors + 1 := by
    rw [hn]
    simp only [netif_rx, nack_counted]
    split_ifs <;> rfl
  have t2 : (kvaser_pciefd_handle_nack_packet pcie
      (pcie.can (KVASER_PCIEFD_PACKET_CHID p)) p).can_stats.arbitration_lost
      = (pcie.can (KVASER_PCIEFD_PACKET_CHID p)).can_stats.arbitration_lost
        + (if p.header0 &&& KVASER_PCIEFD_APACKET_ABL ≠ 0 then 1 else 0) := by
    rw [hn]
    simp only [netif_rx, nack_counted]
    split_ifs <;> rfl
  have hc2 : (kvaser_pciefd_handle_ack_packet pcie p).2.can (KVASER_PCIEFD_PACKET_CHID p)
        = kvaser_pciefd_handle_nack_packet pcie (pcie.can (KVASER_PCIEFD_PACKET_CHID p)) p ∨
      (kvaser_pciefd_handle_ack_packet pcie p).2.can (KVASER_PCIEFD_PACKET_CHID p)
        = kvaser_pciefd_handle_ack_packet_echo pcie
            (kvaser_pciefd_handle_nack_packet pcie (pcie.can (KVASER_PCIEFD_PACKET_CHID p)) p)
            p true := by
    by_cases hf : p.header0 &&& KVASER_PCIEFD_APACKET_FLU ≠ 0
    · left; rw [hc, if_pos hf]
    · right; rw [hc, if_neg hf]
  refine ⟨hr, ?_, ?_, ?_, ?_, ?_, ?_, ?_⟩
  · rcases hc2 with h | h <;> rw [h]
    · exact t1
    · rw [e1]; exact t1
  · rcases hc2 with h | h <;> rw [h]
    · exact t2
    · rw [e2]; exact t2
  · rcases hc2 with h | h <;> rw [h]
    · exact n7
    · rw [s9]; simpa using n7
  · rcases hc2 with h | h <;> rw [h]
    · exact n9
    · rw [s4]; exact n9
  · rcases hc2 with h | h <;> rw [h]
    · exact n10
    · rw [s5]; exact n10
  · intro halloc
    have hn2 : kvaser_pciefd_handle_nack_packet pcie (pcie.can (KVASER_PCIEFD_PACKET_CHID p)) p
        = (netif_rx (nack_counted (pcie.can (KVASER_PCIEFD_PACKET_CHID p)) p)
            (nack_error_event pcie p)).2 := by
      rw [hn, if_pos halloc]
    refine ⟨hn2, fun hrx => ?_⟩
    have hq : (kvaser_pciefd_handle_nack_packet pcie
        (pcie.can (KVASER_PCIEFD_PACKET_CHID p)) p).rx_queue
        = (pcie.can (KVASER_PCIEFD_PACKET_CHID p)).rx_queue ++ [nack_error_event pcie p] := by
      rw [hn2]
      simp [netif_rx, nack_counted, hrx]
    rcases hc2 with h | h <;> rw [h]
    · exact ⟨[], by rw [hq]⟩
    · exact ⟨rest, by rw [e3, hq]; simp⟩
  · simp only [nack_error_event]
    by_cases hb : p.header0 &&& KVASER_PCIEFD_APACKET_ABL = 0
    · simp only [hb, ne_eq, not_true_eq_false, if_false, iff_false, iff_true, not_not]
      decide
    · simp only [hb, ne_eq, not_false_eq_true, if_true, iff_true, iff_false, not_not]
      decide

/-- Witness for C23: the packet `nack_abl_ack` on `in_flight_pcie`; the error
event with the classes bus error and lost arbitration is the first frame
handed to the stack. -/
theorem nack_packet_effect_witness :
    KVASER_PCIEFD_PACKET_CHID nack_abl_ack < in_flight_pcie.nr_channels ∧
    nack_abl_ack.header0 &&& KVASER_PCIEFD_APACKET_CT = 0 ∧
    nack_abl_ack.header0 &&& KVASER_PCIEFD_APACKET_NACK ≠ 0 ∧
    ((kvaser_pciefd_handle_ack_packet in_flight_pcie nack_abl_ack).2.can
        (KVASER_PCIEFD_PACKET_CHID nack_abl_ack)).stats.tx_errors
      = (in_flight_pcie.can (KVASER_PCIEFD_PACKET_CHID nack_abl_ack)).stats.tx_errors + 1 ∧
    ((kvaser_pciefd_handle_ack_packet in_flight_pcie nack_abl_ack).2.can 0).rx_queue.map
        (fun skb => skb.cf.can_id)
      = [CAN_ERR_FLAG ||| CAN_ERR_LOSTARB ||| CAN_ERR_BUSERROR, 0x123] :=
  ⟨by decide, by decide, by decide,
    (nack_packet_effect in_flight_pcie nack_abl_ack (by decide) (by decide) (by decide)).2.1,
    by decide⟩

/-- The function `kvaser_pciefd_change_state` leaves `err_rep_cnt` alone. -/
theorem change_state_err_rep_cnt (can : kvaser_pciefd_can) (cf : Option canfd_frame)
    (new_state tx_state rx_state : can_state) :
    (kvaser_pciefd_change_state can cf new_state tx_state rx_state).2.err_rep_cnt
      = can.err_rep_cnt := by
  obtain ⟨cs, st, hr⟩ := can_change_state_frame can cf tx_state rx_state
  obtain ⟨-, -, h3, -⟩ := start_controller_flush_frame
    { can with can_stats := cs, state := st, queue_stopped := true }
  simp only [kvaser_pciefd_change_state, hr, netif_stop_queue, can_bus_off]
  split_ifs
  · exact h3
  · rfl
  · rw [hr]

/-- The function `kvaser_pciefd_rx_error_frame` increases `err_rep_cnt` by 1. -/
theorem rx_error_frame_err_rep_cnt (pcie : kvaser_pciefd) (can : kvaser_pciefd_can)
    (p : kvaser_pciefd_rx_packet) :
    (kvaser_pciefd_rx_error_frame pcie can p).2.err_rep_cnt = can.err_rep_cnt + 1 := by
  have hcs := change_state_err_rep_cnt (alloc_can_err_skb can).2
    ((alloc_can_err_skb can).1.map fun s => s.cf)
    (kvaser_pciefd_packet_to_state p
      ⟨KVASER_PCIEFD_SPACKET_TXERR_COUNT p, KVASER_PCIEFD_SPACKET_RXERR_COUNT p⟩).1
    (kvaser_pciefd_packet_to_state p
      ⟨KVASER_PCIEFD_SPACKET_TXERR_COUNT p, KVASER_PCIEFD_SPACKET_RXERR_COUNT p⟩).2.1
    (kvaser_pciefd_packet_to_state p
      ⟨KVASER_PCIEFD_SPACKET_TXERR_COUNT p, KVASER_PCIEFD_SPACKET_RXERR_COUNT p⟩).2.2
  have ha : (alloc_can_err_skb can).2.err_rep_cnt = can.err_rep_cnt := by
    simp only [alloc_can_err_skb, alloc_skb]
    split_ifs <;> rfl
  rw [ha] at hcs
  simp only [kvaser_pciefd_rx_error_frame, netif_rx]
  generalize kvaser_pciefd_change_state (alloc_can_err_skb can).2
    ((alloc_can_err_skb can).1.map fun s => s.cf)
    (kvaser_pciefd_packet_to_state p
      ⟨KVASER_PCIEFD_SPACKET_TXERR_COUNT p, KVASER_PCIEFD_SPACKET_RXERR_COUNT p⟩).1
    (kvaser_pciefd_packet_to_state p
      ⟨KVASER_PCIEFD_SPACKET_TXERR_COUNT p, KVASER_PCIEFD_SPACKET_RXERR_COUNT p⟩).2.1
    (kvaser_pciefd_packet_to_state p
      ⟨KVASER_PCIEFD_SPACKET_TXERR_COUNT p, KVASER_PCIEFD_SPACKET_RXERR_COUNT p⟩).2.2 = r at hcs ⊢
  generalize alloc_can_err_skb can = a at ha ⊢
  split_ifs <;> split <;> simp_all

/-- The helper `alloc_can_err_skb` does not depend on `err_rep_cnt`. -/
theorem alloc_can_err_skb_err_rep_cnt (can : kvaser_pciefd_can) (n : Int) :
    alloc_can_err_skb { can with err_rep_cnt := n }
      = ((alloc_can_err_skb can).1, { (alloc_can_err_skb can).2 with err_rep_cnt := n }) := by
  simp only [alloc_can_err_skb, alloc_skb]
  split_ifs <;> rfl

/-- The helper `netif_rx` does not depend on `err_rep_cnt`. -/
theorem netif_rx_err_rep_cnt (can : kvaser_pciefd_can) (skb : sk_buff) (n : Int) :
    netif_rx { can with err_rep_cnt := n } skb
      = ((netif_rx can skb).1, { (netif_rx can skb).2 with err_rep_cnt := n }) := by
  simp only [netif_rx]
  split_ifs <;> rfl

/-- The helper `can_change_state` does not depend on `err_rep_cnt`. -/
theorem can_change_state_err_rep_cnt (can : kvaser_pciefd_can) (cf : Option canfd_frame)
    (tx_state rx_state : can_state) (n : Int) :
    can_change_state { can with err_rep_cnt := n } cf tx_state rx_state
      = ((can_change_state can cf tx_state rx_state).1,
         { (can_change_state can cf tx_state rx_state).2 with err_rep_cnt := n }) := by
  have hu : can_update_state_error_stats { can with err_rep_cnt := n }
        (can_state.max tx_state rx_state)
      = { can_update_state_error_stats can (can_state.max tx_state rx_state) with
          err_rep_cnt := n } := by
    simp only [can_update_state_error_stats]
    split_ifs
    · rfl
    · cases can_state.max tx_state rx_state <;> rfl
  simp only [can_change_state, hu]
  split_ifs <;> cases cf <;> rfl

/-- The function `kvaser_pciefd_start_controller_flush` does not depend on
`err_rep_cnt`. -/
theorem start_controller_flush_err_rep_cnt (can : kvaser_pciefd_can) (n : Int) :
    kvaser_pciefd_start_controller_flush { can with err_rep_cnt := n }
      = { kvaser_pciefd_start_controller_flush can with err_rep_cnt := n } := by
  simp only [kvaser_pciefd_start_controller_flush, kvaser_pciefd_kcan_abort_flush_reset,
    kvaser_pciefd_send_kcan_cmd]
  split_ifs <;> rfl

/-- The function `kvaser_pciefd_change_state` does not depend on
`err_rep_cnt`. -/
theorem change_state_err_rep_cnt_comm (can : kvaser_pciefd_can) (cf : Option canfd_frame)
    (new_state tx_state rx_state : can_state) (n : Int) :
    kvaser_pciefd_change_state { can with err_rep_cnt := n } cf new_state tx_state rx_state
      = ((kvaser_pciefd_change_state can cf new_state tx_state rx_state).1,
         { (kvaser_pciefd_change_state can cf new_state tx_state rx_state).2 with
           err_rep_cnt := n }) := by
  have hs := start_controller_flush_err_rep_cnt
    (netif_stop_queue (can_change_state can cf tx_state rx_state).2) n
  simp only [kvaser_pciefd_change_state, can_change_state_err_rep_cnt, netif_stop_queue,
    can_bus_off] at hs ⊢
  split_ifs
  · rw [hs]
  · rfl
  · rfl

/-- The function `kvaser_pciefd_handle_status_resp`, with its parts named. -/
theorem handle_status_resp_eq (pcie : kvaser_pciefd) (can : kvaser_pciefd_can)
    (p : kvaser_pciefd_rx_packet) :
    kvaser_pciefd_handle_status_resp pcie can p
      = if (kvaser_pciefd_packet_to_state p
            ⟨KVASER_PCIEFD_SPACKET_TXERR_COUNT p, KVASER_PCIEFD_SPACKET_RXERR_COUNT p⟩).1
            ≠ can.state then
          match alloc_can_err_skb can with
          | (none, c) =>
            (- ENOMEM, { c with stats := { c.stats with rx_dropped := c.stats.rx_dropped + 1 } })
          | (some skb, c) =>
            status_resp_deliver pcie p can.state
              (kvaser_pciefd_packet_to_state p
                ⟨KVASER_PCIEFD_SPACKET_TXERR_COUNT p, KVASER_PCIEFD_SPACKET_RXERR_COUNT p⟩).1
              ⟨KVASER_PCIEFD_SPACKET_TXERR_COUNT p, KVASER_PCIEFD_SPACKET_RXERR_COUNT p⟩ skb
              (kvaser_pciefd_change_state c (some skb.cf)
                (kvaser_pciefd_packet_to_state p
                  ⟨KVASER_PCIEFD_SPACKET_TXERR_COUNT p, KVASER_PCIEFD_SPACKET_RXERR_COUNT p⟩).1
                (kvaser_pciefd_packet_to_state p
                  ⟨KVASER_PCIEFD_SPACKET_TXERR_COUNT p, KVASER_PCIEFD_SPACKET_RXERR_COUNT p⟩).2.1
                (kvaser_pciefd_packet_to_state p
                  ⟨KVASER_PCIEFD_SPACKET_TXERR_COUNT p, KVASER_PCIEFD_SPACKET_RXERR_COUNT p⟩).2.2)
        else
          status_resp_finish
            ⟨KVASER_PCIEFD_SPACKET_TXERR_COUNT p, KVASER_PCIEFD_SPACKET_RXERR_COUNT p⟩ can := by
  rfl

/-- The end of `kvaser_pciefd_handle_status_resp` does not depend on
`err_rep_cnt`. -/
theorem status_resp_finish_err_rep_cnt (bec : can_berr_counter) (can : kvaser_pciefd_can)
    (n : Int) :
    status_resp_finish bec { can with err_rep_cnt := n }
      = ((status_resp_finish bec can).1, { (status_resp_finish bec can).2 with err_rep_cnt := n }) := by
  simp only [status_resp_finish, mod_timer]
  split_ifs <;> rfl

/-- The delivery part of `kvaser_pciefd_handle_status_resp` does not depend on
`err_rep_cnt`. -/
theorem status_resp_deliver_err_rep_cnt (pcie : kvaser_pciefd) (p : kvaser_pciefd_rx_packet)
    (old_state new_state : can_state) (bec : can_berr_counter) (skb : sk_buff)
    (c : Option canfd_frame × kvaser_pciefd_can) (n : Int) :
    status_resp_deliver pcie p old_state new_state bec skb (c.1, { c.2 with err_rep_cnt := n })
      = ((status_resp_deliver pcie p old_state new_state bec skb c).1,
         { (status_resp_deliver pcie p old_state new_state bec skb c).2 with err_rep_cnt := n }) := by
  simp only [status_resp_deliver, status_resp_finish, netif_rx, mod_timer]
  split_ifs <;> rfl

/-- The function `kvaser_pciefd_handle_status_resp` neither reads nor writes
`err_rep_cnt`: with another count the result is the same, up to that count. -/
theorem handle_status_resp_err_rep_cnt (pcie : kvaser_pciefd) (can : kvaser_pciefd_can)
    (p : kvaser_pciefd_rx_packet) (n : Int) :
    kvaser_pciefd_handle_status_resp pcie { can with err_rep_cnt := n } p
      = ((kvaser_pciefd_handle_status_resp pcie can p).1,
         { (kvaser_pciefd_handle_status_resp pcie can p).2 with err_rep_cnt := n }) := by
  rw [handle_status_resp_eq, handle_status_resp_eq, alloc_can_err_skb_err_rep_cnt]
  by_cases hne : (kvaser_pciefd_packet_to_state p
      ⟨KVASER_PCIEFD_SPACKET_TXERR_COUNT p, KVASER_PCIEFD_SPACKET_RXERR_COUNT p⟩).1 = can.state
  · simp only [hne, ne_eq, not_true_eq_false, if_false]
    exact status_resp_finish_err_rep_cnt _ _ _
  · simp only [hne, ne_eq, not_false_eq_true, if_true]
    rcases alloc_can_err_skb can with ⟨_ | skb, c⟩
    · rfl
    · simp only [change_state_err_rep_cnt_comm]
      exact status_resp_deliver_err_rep_cnt _ _ _ _ _ _ _ _

/-- The bits of a mode register value after `mode &= ~EPEN` in 32 bits: bit 12
is clear, the other bits below 32 are unchanged. -/
theorem clear_bits_epen (m i : Nat) :
    (clear_bits m KVASER_PCIEFD_KCAN_MODE_EPEN).testBit i
      = (m.testBit i && decide (i < 32) && decide (i ≠ 12)) := by
  have he : KVASER_PCIEFD_KCAN_MODE_EPEN = 2 ^ 12 := by decide
  simp only [clear_bits, he, Nat.testBit_and, Nat.testBit_xor, Nat.testBit_two_pow_sub_one,
    Nat.testBit_two_pow]
  by_cases h1 : i < 32 <;> by_cases h2 : i = 12 <;> simp [h1, h2] <;> omega

/-- The bits of a mode register value after `mode |= EPEN`: bit 12 is set, the
other bits are unchanged. -/
theorem or_epen (m i : Nat) :
    (m ||| KVASER_PCIEFD_KCAN_MODE_EPEN).testBit i = (m.testBit i || decide (i = 12)) := by
  have he : KVASER_PCIEFD_KCAN_MODE_EPEN = 2 ^ 12 := by decide
  simp only [he, Nat.testBit_or, Nat.testBit_two_pow]
  by_cases h2 : i = 12 <;> simp [h2, eq_comm]

/-- The function `kvaser_pciefd_enable_err_gen` sets EPEN in the mode
register. -/
theorem enable_err_gen_mode (can : kvaser_pciefd_can) :
    (kvaser_pciefd_enable_err_gen can).reg_mode = can.reg_mode ||| KVASER_PCIEFD_KCAN_MODE_EPEN ∧
    (kvaser_pciefd_enable_err_gen can).cmd_seq = can.cmd_seq ∧
    (kvaser_pciefd_enable_err_gen can).reg_cmd = can.reg_cmd := by
  simp only [kvaser_pciefd_enable_err_gen]
  split_ifs with h
  · exact ⟨rfl, rfl, rfl⟩
  · refine ⟨?_, rfl, rfl⟩
    have he : KVASER_PCIEFD_KCAN_MODE_EPEN = 2 ^ 12 := by decide
    rw [he] at h ⊢
    apply Nat.eq_of_testBit_eq
    intro i
    rw [Nat.testBit_or, Nat.testBit_two_pow]
    by_cases h2 : 12 = i
    · subst h2
      rw [Nat.and_two_pow] at h
      cases hb : can.reg_mode.testBit 12
      · rw [hb] at h; simp at h
      · simp
    · simp [h2]

/-- C24: for an error packet on a valid channel whose count `err_rep_cnt` is a
non-negative `int` below its maximum, `kvaser_pciefd_handle_error_packet`
returns 0, increases `err_rep_cnt` by exactly 1 and disables error-packet
generation exactly when the new count has reached 256: the mode register
(as `kvaser_pciefd_rx_error_frame` left it) loses bit EPEN and keeps its other
bits.  The poll `kvaser_pciefd_bec_poll_timer` sets EPEN (other bits
unchanged), writes exactly one RequestStatus command word and resets the count
to 0.  `kvaser_pciefd_handle_status_resp` neither reads nor writes the count:
with any other count `n` its result is the same up to the count, which it
leaves as it is. -/
theorem error_report_cap (pcie : kvaser_pciefd) (p : kvaser_pciefd_rx_packet)
    (can : kvaser_pciefd_can) (n : Int)
    (hch : KVASER_PCIEFD_PACKET_CHID p < pcie.nr_channels)
    (h0 : 0 ≤ (pcie.can (KVASER_PCIEFD_PACKET_CHID p)).err_rep_cnt)
    (hmax : (pcie.can (KVASER_PCIEFD_PACKET_CHID p)).err_rep_cnt + 1 < 2 ^ 31) :
    ((kvaser_pciefd_handle_error_packet pcie p).1 = 0 ∧
      ((kvaser_pciefd_handle_error_packet pcie p).2.can (KVASER_PCIEFD_PACKET_CHID p)).err_rep_cnt
        = (pcie.can (KVASER_PCIEFD_PACKET_CHID p)).err_rep_cnt + 1 ∧
      ((kvaser_pciefd_handle_error_packet pcie p).2.can (KVASER_PCIEFD_PACKET_CHID p)).reg_mode
        = (if (pcie.can (KVASER_PCIEFD_PACKET_CHID p)).err_rep_cnt + 1 ≥ 256 then
            clear_bits (kvaser_pciefd_rx_error_frame pcie
              (pcie.can (KVASER_PCIEFD_PACKET_CHID p)) p).2.reg_mode KVASER_PCIEFD_KCAN_MODE_EPEN
           else (kvaser_pciefd_rx_error_frame pcie
              (pcie.can (KVASER_PCIEFD_PACKET_CHID p)) p).2.reg_mode)) ∧
    (∀ m i, (clear_bits m KVASER_PCIEFD_KCAN_MODE_EPEN).testBit i
      = (m.testBit i && decide (i < 32) && decide (i ≠ 12))) ∧
    ((kvaser_pciefd_bec_poll_timer can).err_rep_cnt = 0 ∧
      (kvaser_pciefd_bec_poll_timer can).reg_mode
        = can.reg_mode ||| KVASER_PCIEFD_KCAN_MODE_EPEN ∧
      (∀ i, (can.reg_mode ||| KVASER_PCIEFD_KCAN_MODE_EPEN).testBit i
        = (can.reg_mode.testBit i || decide (i = 12))) ∧
      (kvaser_pciefd_bec_poll_timer can).reg_cmd
        = can.reg_cmd ++ [KVASER_PCIEFD_KCAN_CMD_SRQ |||
            (((can.cmd_seq + 1) % 256) <<< KVASER_PCIEFD_KCAN_CMD_SEQ_SHIFT)]) ∧
    ((kvaser_pciefd_handle_status_resp pcie can p).2.err_rep_cnt = can.err_rep_cnt ∧
      kvaser_pciefd_handle_status_resp pcie { can with err_rep_cnt := n } p
        = ((kvaser_pciefd_handle_status_resp pcie can p).1,
           { (kvaser_pciefd_handle_status_resp pcie can p).2 with err_rep_cnt := n })) := by
  have hch2 : ¬ KVASER_PCIEFD_PACKET_CHID p ≥ pcie.nr_channels := by omega
  have hr := rx_error_frame_err_rep_cnt pcie (pcie.can (KVASER_PCIEFD_PACKET_CHID p)) p
  have hmod : (kvaser_pciefd_rx_error_frame pcie
      (pcie.can (KVASER_PCIEFD_PACKET_CHID p)) p).2.err_rep_cnt % 2 ^ 32
      = (pcie.can (KVASER_PCIEFD_PACKET_CHID p)).err_rep_cnt + 1 := by
    rw [hr]
    apply Int.emod_eq_of_lt <;> omega
  obtain ⟨g1, g2, g3⟩ := enable_err_gen_mode can
  refine ⟨⟨?_, ?_, ?_⟩, clear_bits_epen, ⟨rfl, ?_, or_epen can.reg_mode, ?_⟩, ?_, ?_⟩
  · simp only [kvaser_pciefd_handle_error_packet, hch2, if_false]
  · simp only [kvaser_pciefd_handle_error_packet, hch2, if_false, Function.update_same, hmod,
      mod_timer, kvaser_pciefd_disable_err_gen]
    split_ifs <;> exact hr
  · simp only [kvaser_pciefd_handle_error_packet, hch2, if_false, Function.update_same, hmod,
      mod_timer, kvaser_pciefd_disable_err_gen, KVASER_PCIEFD_MAX_ERR_REP]
    split_ifs <;> rfl
  · simp only [kvaser_pciefd_bec_poll_timer, kvaser_pciefd_request_status,
      kvaser_pciefd_send_kcan_cmd]
    have e : (kvaser_pciefd_enable_err_gen { can with bec_poll_timer := false }).reg_mode
        = can.reg_mode ||| KVASER_PCIEFD_KCAN_MODE_EPEN :=
      (enable_err_gen_mode { can with bec_poll_timer := false }).1
    exact e
  · obtain ⟨-, e2, e3⟩ := enable_err_gen_mode { can with bec_poll_timer := false }
    simp only [kvaser_pciefd_bec_poll_timer, kvaser_pciefd_request_status,
      kvaser_pciefd_send_kcan_cmd, e2, e3]
  · have h := handle_status_resp_err_rep_cnt pcie can p can.err_rep_cnt
    have e : ({ can with err_rep_cnt := can.err_rep_cnt } : kvaser_pciefd_can) = can := rfl
    rw [e] at h
    have h2 := congrArg (fun r => r.2.err_rep_cnt) h
    simpa using h2
  · exact handle_status_resp_err_rep_cnt pcie can p n

/-- Witness for C24: the 256th error packet since the last poll on
`reporting_pcie 255`; the count becomes 256 and the mode register keeps EEN
only. -/
theorem error_report_cap_witness :
    KVASER_PCIEFD_PACKET_CHID plain_error_packet < (reporting_pcie 255).nr_channels ∧
    ((kvaser_pciefd_handle_error_packet (reporting_pcie 255) plain_error_packet).2.can
        (KVASER_PCIEFD_PACKET_CHID plain_error_packet)).err_rep_cnt
      = ((reporting_pcie 255).can (KVASER_PCIEFD_PACKET_CHID plain_error_packet)).err_rep_cnt + 1 ∧
    ((kvaser_pciefd_handle_error_packet (reporting_pcie 255) plain_error_packet).2.can 0).reg_mode
      = KVASER_PCIEFD_KCAN_MODE_EEN ∧
    ((kvaser_pciefd_handle_error_packet (reporting_pcie 254) plain_error_packet).2.can 0).reg_mode
      = KVASER_PCIEFD_KCAN_MODE_EEN ||| KVASER_PCIEFD_KCAN_MODE_EPEN :=
  ⟨by decide,
    (error_report_cap (reporting_pcie 255) plain_error_packet (attached_can 8) 0 (by decide)
      (by decide) (by decide)).1.2.1,
    by decide, by decide⟩

/-- C25, counterexamples.  With an 80 MHz CAN clock and the 64-bit tick count
18446744073709552, the product `timestamp * 1000` wraps at `2^64` to 384 and
the timestamp applied is 4 ns, not floor(18446744073709552 * 1000 / 80).
With a 1 MHz clock (divisor 1) and the tick count 9223372036854776 the product
does not wrap, but the quotient 9223372036854776000 is not below `2^63` and
the `ktime_t` stored is negative. -/
theorem timestamp_wraps :
    (18446744073709552 : Nat) < 2 ^ 64 ∧
    (kvaser_pciefd_setup_board quiet_pcie 0 KVASER_PCIEFD_SRB_STAT_DMA 80000000).1 = 0 ∧
    (kvaser_pciefd_setup_board quiet_pcie 0 KVASER_PCIEFD_SRB_STAT_DMA
      80000000).2.freq_to_ticks_div = 80 ∧
    (kvaser_pciefd_set_skb_timestamp
      (kvaser_pciefd_setup_board quiet_pcie 0 KVASER_PCIEFD_SRB_STAT_DMA 80000000).2
      sample_skb 18446744073709552).hwtstamp = 4 ∧
    18446744073709552 * 1000 / (80000000 / 1000000) = 230584300921369400 ∧
    (9223372036854776 : Nat) * 1000 < 2 ^ 64 ∧
    (kvaser_pciefd_setup_board quiet_pcie 0 KVASER_PCIEFD_SRB_STAT_DMA 1000000).1 = 0 ∧
    (kvaser_pciefd_setup_board quiet_pcie 0 KVASER_PCIEFD_SRB_STAT_DMA
      1000000).2.freq_to_ticks_div = 1 ∧
    (kvaser_pciefd_set_skb_timestamp
      (kvaser_pciefd_setup_board quiet_pcie 0 KVASER_PCIEFD_SRB_STAT_DMA 1000000).2
      sample_skb 9223372036854776).hwtstamp = -9223372036854775616 ∧
    9223372036854776 * 1000 / (1000000 / 1000000) = 9223372036854776000 := by
  refine ⟨by decide, by decide, by decide, by decide, by decide, by decide, by decide, by decide,
    by decide, by decide⟩

/-- C25 (amended): on hardware with DMA whose CAN clock is a 32-bit value of at
least 1 MHz, `kvaser_pciefd_setup_board` sets the divisor to
floor(clock / 1000000), and for every raw tick count with
`raw * 1000 < 2^64` whose quotient floor(raw * 1000 / floor(clock / 1000000))
is below `2^63`, the timestamp `kvaser_pciefd_set_skb_timestamp` applies is
exactly that quotient, a non-negative `ktime_t`.  The bound on the quotient
holds in particular when `raw * 1000 < 2^63`. -/
theorem timestamp_scaling (pcie : kvaser_pciefd) (skb : sk_buff)
    (version srb_stat clock raw : Nat)
    (hdma : (srb_stat % 2 ^ 32) &&& KVASER_PCIEFD_SRB_STAT_DMA ≠ 0)
    (hclock : 1000000 ≤ clock) (hclock32 : clock < 2 ^ 32)
    (hraw : raw * 1000 < 2 ^ 64)
    (hquot : raw * 1000 / (clock / 1000000) < 2 ^ 63) :
    (kvaser_pciefd_setup_board pcie version srb_stat clock).1 = 0 ∧
    (kvaser_pciefd_setup_board pcie version srb_stat clock).2.freq_to_ticks_div
      = clock / 1000000 ∧
    (kvaser_pciefd_set_skb_timestamp
      (kvaser_pciefd_setup_board pcie version srb_stat clock).2 skb raw).hwtstamp
      = ((raw * 1000 / (clock / 1000000) : Nat) : Int) ∧
    0 ≤ (kvaser_pciefd_set_skb_timestamp
      (kvaser_pciefd_setup_board pcie version srb_stat clock).2 skb raw).hwtstamp ∧
    (∀ r : Nat, r * 1000 < 2 ^ 63 →
      r * 1000 < 2 ^ 64 ∧ r * 1000 / (clock / 1000000) < 2 ^ 63) := by
  have hc : clock % 2 ^ 32 = clock := Nat.mod_eq_of_lt hclock32
  have hd : clock / 1000000 ≠ 0 := by
    have : 1 ≤ clock / 1000000 := by omega
    omega
  have hd32 : clock / 1000000 % 2 ^ 32 = clock / 1000000 :=
    Nat.mod_eq_of_lt (lt_of_le_of_lt (Nat.div_le_self _ _) hclock32)
  have hm : raw * 1000 % 2 ^ 64 = raw * 1000 := Nat.mod_eq_of_lt hraw
  have hq64 : raw * 1000 / (clock / 1000000) % 2 ^ 64 = raw * 1000 / (clock / 1000000) :=
    Nat.mod_eq_of_lt (lt_trans hquot (by norm_num))
  have hdiv : (kvaser_pciefd_setup_board pcie version srb_stat clock).2.freq_to_ticks_div
      = clock / 1000000 := by
    simp only [kvaser_pciefd_setup_board, hdma, if_false, hc, hd]
  have hts : (kvaser_pciefd_set_skb_timestamp
      (kvaser_pciefd_setup_board pcie version srb_stat clock).2 skb raw).hwtstamp
      = ((raw * 1000 / (clock / 1000000) : Nat) : Int) := by
    simp only [kvaser_pciefd_set_skb_timestamp, div_u64, ns_to_ktime, hdiv, hm, hd32, hq64,
      if_pos hquot]
  refine ⟨?_, hdiv, hts, ?_, ?_⟩
  · simp only [kvaser_pciefd_setup_board, hdma, if_false]
  · rw [hts]; exact Int.natCast_nonneg _
  · intro r hr
    exact ⟨lt_trans hr (by norm_num), lt_of_le_of_lt (Nat.div_le_self _ _) hr⟩

/-- Witness for C25 (amended): an 80 MHz clock and 160 ticks give 2000 ns. -/
theorem timestamp_scaling_witness :
    (KVASER_PCIEFD_SRB_STAT_DMA % 2 ^ 32) &&& KVASER_PCIEFD_SRB_STAT_DMA ≠ 0 ∧
    (kvaser_pciefd_set_skb_timestamp
      (kvaser_pciefd_setup_board quiet_pcie 0 KVASER_PCIEFD_SRB_STAT_DMA 80000000).2
      sample_skb 160).hwtstamp = ((160 * 1000 / (80000000 / 1000000) : Nat) : Int) ∧
    160 * 1000 / (80000000 / 1000000) = 2000 :=
  ⟨by decide,
    (timestamp_scaling quiet_pcie sample_skb 0 KVASER_PCIEFD_SRB_STAT_DMA 80000000 160
      (by decide) (by decide) (by decide) (by decide) (by decide)).2.2.1,
    by decide⟩

/-- The function `attached_can` is the attach step applied to a fresh device. -/
theorem attached_can_fun :
    attached_can = fun d => (kvaser_pciefd_setup_can_ctrl
      (alloc_candev KVASER_PCIEFD_CAN_TX_MAX_COUNT KVASER_PCIEFD_KCAN_STAT_FD (d <<< 16) 0
        (fun _ => true) (fun _ => true))).2 := rfl

/-- The channel `attached_can d` is the attach step applied to a fresh device
whose depth register holds `d << 16`. -/
theorem attached_can_eq (d : Nat) :
    attached_can d = (kvaser_pciefd_setup_can_ctrl
      (alloc_candev KVASER_PCIEFD_CAN_TX_MAX_COUNT KVASER_PCIEFD_KCAN_STAT_FD (d <<< 16) 0
        (fun _ => true) (fun _ => true))).2 := congrFun attached_can_fun d

/-- The Tx FIFO depth the hardware reports on a freshly allocated device whose
register holds `d << 16` is `d`, for an 8-bit `d`. -/
theorem attached_max_get (d : Nat) (hd : d < 256) (stat mode : Nat) (a r : Nat → Bool) :
    KVASER_PCIEFD_KCAN_TX_NR_PACKETS_MAX_GET
      (alloc_candev KVASER_PCIEFD_CAN_TX_MAX_COUNT stat (d <<< 16) mode a r) = d := by
  have hmask : (0xff : Nat) = 2 ^ 8 - 1 := by norm_num
  simp only [KVASER_PCIEFD_KCAN_TX_NR_PACKETS_MAX_GET, alloc_candev, Nat.shiftLeft_shiftRight,
    hmask, Nat.and_pow_two_sub_one_eq_mod]
  omega

/-- The echo slot count `kvaser_pciefd_setup_can_ctrls` sets: the minimum of 17
and the reported depth minus 1 in unsigned 32-bit arithmetic. -/
theorem setup_can_ctrl_echo_skb_max (can : kvaser_pciefd_can) :
    (kvaser_pciefd_setup_can_ctrl can).2.echo_skb_max
      = min KVASER_PCIEFD_CAN_TX_MAX_COUNT
          ((KVASER_PCIEFD_KCAN_TX_NR_PACKETS_MAX_GET can + 2 ^ 32 - 1) % 2 ^ 32) ∧
    (kvaser_pciefd_setup_can_ctrl can).2.echo_idx = 0 := by
  simp only [kvaser_pciefd_setup_can_ctrl, KVASER_PCIEFD_KCAN_TX_NR_PACKETS_MAX_GET]
  split_ifs <;> exact ⟨rfl, rfl⟩

/-- The echo slot count of a channel attached on hardware that reports the
depth `d`. -/
theorem attached_echo_skb_max (d : Nat) (hd : d < 256) :
    (attached_can d).echo_skb_max = min 17 ((d + 2 ^ 32 - 1) % 2 ^ 32) ∧
    (attached_can d).echo_idx = 0 := by
  rw [attached_can_eq, (setup_can_ctrl_echo_skb_max _).1, (setup_can_ctrl_echo_skb_max _).2,
    attached_max_get d hd]
  exact ⟨rfl, rfl⟩

/-- C26: for every Tx FIFO depth `d` the hardware reports in its 8-bit field,
the echo slot count `echo_skb_max` set at attach is the minimum of 17 and
`d - 1` taken in unsigned 32-bit arithmetic: `d - 1` for `d` from 1 to 18, and
17 for larger `d` and for `d = 0` (where `d - 1` wraps to `2^32 - 1`).  So it
is at most 17; the ring index starts at 0 and, on a channel with at least one
slot, an accepted transmission leaves it below the slot count. -/
theorem echo_skb_max_at_attach (d : Nat) (hd : d < 256) :
    (attached_can d).echo_skb_max = min 17 ((d + 2 ^ 32 - 1) % 2 ^ 32) ∧
    (1 ≤ d → d - 1 ≤ 17 → (attached_can d).echo_skb_max = d - 1) ∧
    (17 < d - 1 → (attached_can d).echo_skb_max = 17) ∧
    (d = 0 → (attached_can d).echo_skb_max = 17) ∧
    (attached_can d).echo_skb_max ≤ 17 ∧
    (attached_can d).echo_idx = 0 ∧
    (∀ (can : kvaser_pciefd_can) (skb : sk_buff), 0 < can.echo_skb_max →
      can.echo_idx < can.echo_skb_max → (can_dev_dropped_skb can skb).1 = false →
      ∃ r, kvaser_pciefd_start_xmit can skb = some (netdev_tx_t.NETDEV_TX_OK, r) ∧
        r.echo_skb_max = can.echo_skb_max ∧ r.echo_idx < r.echo_skb_max) := by
  obtain ⟨hK, hi⟩ := attached_echo_skb_max d hd
  refine ⟨hK, ?_, ?_, ?_, ?_, hi, ?_⟩
  · intro h1 h2; rw [hK]; omega
  · intro h; rw [hK]; omega
  · intro h; rw [hK, h]; decide
  · rw [hK]; omega
  · intro can skb h0 hidx hacc
    obtain ⟨r, hr, hm, -, hx, -⟩ := start_xmit_step can skb h0 hidx hacc
    refine ⟨r, hr, hm, ?_⟩
    rw [hx, hm]
    exact Nat.mod_lt _ h0

/-- Witness for C26: the depths 8, 0 and 200 give 7, 17 and 17 slots. -/
theorem echo_skb_max_at_attach_witness :
    (attached_can 8).echo_skb_max = 8 - 1 ∧
    (attached_can 0).echo_skb_max = 17 ∧
    (attached_can 200).echo_skb_max = 17 :=
  ⟨(echo_skb_max_at_attach 8 (by decide)).2.1 (by decide) (by decide), by decide, by decide⟩

/-- C28, at the failing input: on hardware that reports a Tx FIFO depth of 1
the slot count set at attach is `min(17, 1 - 1) = 0`, and
`kvaser_pciefd_start_xmit` on that channel divides by zero in
`(echo_idx + 1) % echo_skb_max` for a frame it does not drop.  For every other
depth in 0..255 the slot count is at least 1 and an accepted frame is sent. -/
theorem depth_one_divides_by_zero :
    (attached_can 1).echo_skb_max = 0 ∧
    (can_dev_dropped_skb (attached_can 1) sample_skb).1 = false ∧
    (kvaser_pciefd_start_xmit (attached_can 1) sample_skb).isSome = false ∧
    (∀ d, d < 256 → d ≠ 1 →
      1 ≤ (attached_can d).echo_skb_max ∧
      ∀ skb, (kvaser_pciefd_start_xmit (attached_can d) skb).isSome = true) := by
  refine ⟨by decide, by decide, by decide, ?_⟩
  intro d hd h1
  obtain ⟨hK, -⟩ := attached_echo_skb_max d hd
  have h : 1 ≤ (attached_can d).echo_skb_max := by rw [hK]; omega
  refine ⟨h, fun skb => ?_⟩
  obtain ⟨r, hr⟩ := start_xmit_ok (attached_can d) skb h
  rw [hr]; rfl

/-- C27, at the failing input: an ACK packet for the valid channel 0 with
neither the control nor the flush flag and the sequence byte 200 makes
`kvaser_pciefd_handle_ack_packet` use index 200 on a ring of 7 slots: the
handler returns 0, writes the timestamp through the pointer it finds at index
200, after the slot array, and counts a transmitted frame, while
`can_get_echo_skb` rejects the same index and releases nothing. -/
theorem ack_index_past_ring :
    KVASER_PCIEFD_PACKET_CHID stray_ack < stray_pcie.nr_channels ∧
    stray_ack.header0 &&& KVASER_PCIEFD_APACKET_CT = 0 ∧
    stray_ack.header0 &&& KVASER_PCIEFD_APACKET_FLU = 0 ∧
    stray_ack.header0 &&& KVASER_PCIEFD_PACKET_SEQ_MASK = 200 ∧
    (stray_pcie.can 0).echo_skb_max = 7 ∧
    (kvaser_pciefd_handle_ack_packet stray_pcie stray_ack).1 = 0 ∧
    (stray_pcie.can 0).echo_skb 200 = some sample_skb ∧
    ((kvaser_pciefd_handle_ack_packet stray_pcie stray_ack).2.can 0).echo_skb 200
      = some { sample_skb with hwtstamp := 2000 } ∧
    (can_get_echo_skb (stray_pcie.can 0) 200).1 = 0 ∧
    ((kvaser_pciefd_handle_ack_packet stray_pcie stray_ack).2.can 0).rx_queue = [] ∧
    ((kvaser_pciefd_handle_ack_packet stray_pcie stray_ack).2.can 0).stats.tx_packets = 1 := by
  refine ⟨by decide, by decide, by decide, by decide, by decide, by decide, by decide, by decide,
    by decide, by decide, by decide⟩

/-- The payload of a packet is at most 16 words long. -/
theorem payload_words_le (p : kvaser_pciefd_rx_packet) : payload_words p ≤ 16 := by
  simp only [payload_words]
  split_ifs
  · rw [can_fd_dlc2len_header]
    have h : (p.header1 >>> 8) % 16 < 16 := Nat.mod_lt _ (by norm_num)
    generalize (p.header1 >>> 8) % 16 = k at h
    interval_cases k <;> decide
  · omega

/-- The value of a `u32` read as `int` lies in the range of `int`. -/
theorem int_of_u32_range (w : Nat) : - 2 ^ 31 ≤ int_of_u32 w ∧ int_of_u32 w < 2 ^ 31 := by
  simp only [int_of_u32]
  split_ifs <;> omega

/-- One call of `kvaser_pciefd_read_packet` at any cursor: it
returns a non-zero result, or the size word is 0 and the cursor is reset, or
the cursor advances by the size word, which is between 5 and 21. -/
theorem read_packet_step (pcie : kvaser_pciefd) (pos dma_buf : Nat) :
    (kvaser_pciefd_read_packet pcie pos dma_buf).1 ≠ 0 ∨
    (int_of_u32 (le32_to_cpu (pcie.dma_data dma_buf pos)) = 0 ∧
      (kvaser_pciefd_read_packet pcie pos dma_buf).2.1 = 0) ∨
    (5 ≤ int_of_u32 (le32_to_cpu (pcie.dma_data dma_buf pos)) ∧
      int_of_u32 (le32_to_cpu (pcie.dma_data dma_buf pos)) ≤ 21 ∧
      ((kvaser_pciefd_read_packet pcie pos dma_buf).2.1 : Int)
        = (pos : Int) + int_of_u32 (le32_to_cpu (pcie.dma_data dma_buf pos))) := by
  have hne : (- EIO : Int) ≠ 0 := by decide
  have hp := read_packet_body_pos (dma_log pcie [pos]) pos dma_buf
  have hw := payload_words_le (kvaser_pciefd_packet_at (dma_log pcie [pos]) pos dma_buf)
  obtain ⟨hlo, hhi⟩ := int_of_u32_range (le32_to_cpu (pcie.dma_data dma_buf pos))
  simp only [kvaser_pciefd_read_packet]
  split_ifs with h1 h2 h3
  · right; left; exact ⟨h1, rfl⟩
  · left; exact h2
  · left; exact hne
  · right; right
    have h4 : int_add (pos : Int) (int_of_u32 (le32_to_cpu (pcie.dma_data dma_buf pos)))
        = ((kvaser_pciefd_read_packet_body (dma_log pcie [pos]) pos dma_buf).2.1 : Int) :=
      not_not.mp h3
    rw [hp] at h4
    simp only [int_add] at h4
    show 5 ≤ int_of_u32 (le32_to_cpu (pcie.dma_data dma_buf pos)) ∧
      int_of_u32 (le32_to_cpu (pcie.dma_data dma_buf pos)) ≤ 21 ∧
      ((kvaser_pciefd_read_packet_body (dma_log pcie [pos]) pos dma_buf).2.1 : Int)
        = (pos : Int) + int_of_u32 (le32_to_cpu (pcie.dma_data dma_buf pos))
    rw [hp]
    push_cast at h4 ⊢
    omega

/-- More iterations than the bound `read_buffer_loop_isSome` names do not
change the result of the loop of `kvaser_pciefd_read_buffer`. -/
theorem read_buffer_loop_fuel (fuel : Nat) (pcie : kvaser_pciefd) (pos dma_buf : Nat)
    (hfuel : 0 < fuel) (hbound : KVASER_PCIEFD_DMA_SIZE ≤ pos + 5 * fuel)
    (m : Nat) (hm : fuel ≤ m) :
    kvaser_pciefd_read_buffer_loop m pcie pos dma_buf
      = kvaser_pciefd_read_buffer_loop fuel pcie pos dma_buf := by
  induction fuel generalizing pcie pos m with
  | zero => omega
  | succ n ih =>
    obtain ⟨k, rfl⟩ : ∃ k, m = k + 1 := ⟨m - 1, by omega⟩
    simp only [kvaser_pciefd_read_buffer_loop]
    split_ifs with hc
    · obtain ⟨h0, hpos, hlt⟩ := hc
      have hadv := read_packet_advance pcie pos dma_buf h0
      have h5 : pos + 5 ≤ (kvaser_pciefd_read_packet pcie pos dma_buf).2.1 := by omega
      apply ih
      · simp only [KVASER_PCIEFD_DMA_SIZE] at hbound hlt; omega
      · simp only [KVASER_PCIEFD_DMA_SIZE] at hbound ⊢; omega
      · omega
    · rfl

/-- C29: `kvaser_pciefd_read_buffer` ends for every buffer content.  One
iteration of its loop, entered with the cursor `pos`, returns a non-zero
result, or finds the size word 0 and resets the cursor to 0, or moves the
cursor forward by exactly the size word, which is then at least 5 (and at most
21).  The loop entered at cursor 0 gives its result within
`820 = ceil(4096 / 5)` iterations, and allowing `n >= 820` iterations gives
the same result. -/
theorem read_buffer_terminates (pcie : kvaser_pciefd) (dma_buf pos n : Nat)
    (hn : 820 ≤ n) :
    ((kvaser_pciefd_read_packet pcie pos dma_buf).1 ≠ 0 ∨
     (int_of_u32 (le32_to_cpu (pcie.dma_data dma_buf pos)) = 0 ∧
       (kvaser_pciefd_read_packet pcie pos dma_buf).2.1 = 0) ∨
     (5 ≤ int_of_u32 (le32_to_cpu (pcie.dma_data dma_buf pos)) ∧
       int_of_u32 (le32_to_cpu (pcie.dma_data dma_buf pos)) ≤ 21 ∧
       ((kvaser_pciefd_read_packet pcie pos dma_buf).2.1 : Int)
         = (pos : Int) + int_of_u32 (le32_to_cpu (pcie.dma_data dma_buf pos)))) ∧
    (KVASER_PCIEFD_DMA_SIZE + 4) / 5 = 820 ∧
    (kvaser_pciefd_read_buffer pcie dma_buf).isSome = true ∧
    kvaser_pciefd_read_buffer_loop n pcie 0 dma_buf = kvaser_pciefd_read_buffer pcie dma_buf :=
  ⟨read_packet_step pcie pos dma_buf, by decide,
    read_buffer_loop_isSome 820 pcie 0 dma_buf (by decide) (by decide),
    read_buffer_loop_fuel 820 pcie 0 dma_buf (by decide) (by decide) n hn⟩

/-- Witness for C29: an empty DMA memory, the cursor 0 and 1000 iterations. -/
theorem read_buffer_terminates_witness :
    820 ≤ 1000 ∧
    kvaser_pciefd_read_buffer_loop 1000 quiet_pcie 0 0 = kvaser_pciefd_read_buffer quiet_pcie 0 :=
  ⟨by decide, (read_buffer_terminates quiet_pcie 0 0 1000 (by decide)).2.2.2⟩

/-- C30: a data, ACK, status, error or flush-ack packet whose channel id is not
below `nr_channels` makes its handler return `-EIO` with the whole device
state, hence every channel, unchanged.  `kvaser_pciefd_setup_board` sets
`nr_channels` to the minimum of 4 and the reported channel count, so a channel
id below `nr_channels` is below the 4 entries of the channel table. -/
theorem bad_channel_rejected (pcie board : kvaser_pciefd) (p : kvaser_pciefd_rx_packet)
    (dma_buf pos version srb_stat canfreq : Nat)
    (hc : KVASER_PCIEFD_PACKET_CHID p ≥ pcie.nr_channels) :
    kvaser_pciefd_handle_data_packet pcie p dma_buf pos = (- EIO, pcie) ∧
    kvaser_pciefd_handle_ack_packet pcie p = (- EIO, pcie) ∧
    kvaser_pciefd_handle_status_packet pcie p = (- EIO, pcie) ∧
    kvaser_pciefd_handle_error_packet pcie p = (- EIO, pcie) ∧
    kvaser_pciefd_handle_eflush_packet pcie p = (- EIO, pcie) ∧
    (kvaser_pciefd_setup_board board version srb_stat canfreq).2.nr_channels
      = min 4 (((version % 2 ^ 32) >>> 24) &&& 0xff) ∧
    (kvaser_pciefd_setup_board board version srb_stat canfreq).2.nr_channels
      ≤ KVASER_PCIEFD_MAX_CAN_CHANNELS ∧
    (∀ q : kvaser_pciefd_rx_packet,
      KVASER_PCIEFD_PACKET_CHID q
        < (kvaser_pciefd_setup_board board version srb_stat canfreq).2.nr_channels →
      KVASER_PCIEFD_PACKET_CHID q < KVASER_PCIEFD_MAX_CAN_CHANNELS) := by
  have hn : (kvaser_pciefd_setup_board board version srb_stat canfreq).2.nr_channels
      = min 4 (((version % 2 ^ 32) >>> 24) &&& 0xff) := by
    simp only [kvaser_pciefd_setup_board]
    split_ifs <;> rfl
  have hle : (kvaser_pciefd_setup_board board version srb_stat canfreq).2.nr_channels
      ≤ KVASER_PCIEFD_MAX_CAN_CHANNELS := by
    rw [hn]; simp only [KVASER_PCIEFD_MAX_CAN_CHANNELS]; omega
  refine ⟨?_, ?_, ?_, ?_, ?_, hn, hle, fun q hq => lt_of_lt_of_le hq hle⟩
  · simp only [kvaser_pciefd_handle_data_packet, if_pos hc]
  · simp only [kvaser_pciefd_handle_ack_packet, if_pos hc]
  · simp only [kvaser_pciefd_handle_status_packet, if_pos hc]
  · simp only [kvaser_pciefd_handle_error_packet, if_pos hc]
  · simp only [kvaser_pciefd_handle_eflush_packet, if_pos hc]

/-- Witness for C30: an ACK packet for channel 3 on a one-channel device. -/
theorem bad_channel_rejected_witness :
    KVASER_PCIEFD_PACKET_CHID channel3_ack ≥ quiet_pcie.nr_channels ∧
    kvaser_pciefd_handle_ack_packet quiet_pcie channel3_ack = (- EIO, quiet_pcie) :=
  ⟨by decide,
    (bad_channel_rejected quiet_pcie quiet_pcie channel3_ack 0 0 0 0 0 (by decide)).2.1⟩

end Kvaser
